import Mathlib

/-!
# OGN tracker: console session and GPS supervisor

A shallow embedding of `src/console.c` (the per-character console task) and
`src/gps.c` (the GPS supervisor task), followed by the properties established
about them.

Conventions of the embedding

* C `char` / `uint8_t` values are natural numbers (`Byte`); the code only
  compares, stores and copies them.  The `uint8_t` counter `nmea_sent_len`
  is incremented modulo 256.
* A fixed-size C array is a list together with its declared capacity; a
  write at an index outside the declared capacity, or reading a C string
  that has no NUL inside its array, has no defined result and is reported
  as `Fault.outOfBounds`.
* Output performed by the code (bytes given to the console UART, deposits
  in the shared sentence store, messages queued for the GPS task, ...) is
  recorded, in order, in a trace carried by the state.
* The command interpreter `FreeRTOS_CLIProcessCommand`, the NMEA parser
  `OGN_Parse_NMEA` and the timer service are outside `src/`; they appear as
  parameters or as inputs of the step functions.
-/

namespace OgnTracker

/-! ## Common types (`messages.h` is not among the sources) -/

/-- C `char` / `uint8_t` values. -/
abbrev Byte := Nat

/-- The character `'$'`. -/
def CH_DOLLAR : Byte := 36

/-- The character `'*'`. -/
def CH_STAR : Byte := 42

/-- The character `'\r'`. -/
def CH_CR : Byte := 13

/-- The character `'\n'`. -/
def CH_LF : Byte := 10

/-- The character `'\b'` (backspace). -/
def CH_BS : Byte := 8

/-- The character `'\177'` (delete). -/
def CH_DEL : Byte := 127

/-- Ways in which an execution has no defined result. -/
inductive Fault where
  | outOfBounds
  | outOfFuel
  deriving DecidableEq, Repr

/-- Origin of a task message (`src_id`); only the two identifiers used by the
sources are named. -/
inductive SrcId where
  | CONSOLE_USART_SRC_ID
  | GPS_USART_SRC_ID
  | OTHER (n : Nat)
  deriving DecidableEq, Repr

/-- The record `task_message`: `msg_data` holds a value or a reference. -/
structure task_message where
  src_id : SrcId
  msg_opcode : Byte
  msg_data : Nat
  msg_len : Nat
  deriving DecidableEq, Repr

/-! ## `console.c` -/

/-- Capacity of `pcInputString`. -/
def MAX_INPUT_LENGTH : Nat := 100

/-- Capacity of `pcOutputString`. -/
def MAX_OUTPUT_LENGTH : Nat := 100

/-- The mode in which a sentence is captured (SentenceCapture in the spec). -/
def NMEA_SENTENCE_MODE : Nat := 0

/-- The normal console mode (LineEditing in the spec). -/
def CONSOLE_SENTENCE_MODE : Nat := 1

/-- Capacity of `nmea_sentence`. -/
def MAX_NMEA_SENTENCE : Nat := 100

/-- The bytes of `pcWelcomeMessage`, "\r\nOGN Tracker Console.\r\n". -/
def pcWelcomeMessage : List Byte :=
  [13, 10, 79, 71, 78, 32, 84, 114, 97, 99, 107, 101, 114, 32,
   67, 111, 110, 115, 111, 108, 101, 46, 13, 10]

/-- Observable actions of the console task, in program order. -/
inductive ConsoleEvent where
  /-- `USART2_Send(data, len)`: bytes handed to the console transport. -/
  | USART2_Send (data : List Byte)
  /-- `USART2_Wait()`: the transfer is awaited. -/
  | USART2_Wait
  /-- One call of the interpreter with the command string it is given. -/
  | FreeRTOS_CLIProcessCommand (cmd : List Byte)
  /-- `cir_put_data(buf, data, len)`: the bytes deposited in the store. -/
  | cir_put_data (data : List Byte)
  /-- `xQueueSend(*gps_task_queue, &gps_msg, portMAX_DELAY)`. -/
  | xQueueSend (msg : task_message)
  deriving DecidableEq, Repr

/-- The variables of `console.c`: the statics of `handle_console_input`, the
locals of `vTaskConsole` that live across iterations, the globals, the state
of the external interpreter (`cli`), the shared sentence store as seen by
this task, and the trace of actions performed so far. -/
structure ConsoleState (σ : Type) where
  cInputIndex : Nat
  pcInputString : List Byte
  pcOutputString : List Byte
  console_mode : Nat
  nmea_sentence : List Byte
  nmea_sent_len : Nat
  gps_task_queue : Bool
  gps_task_cir_buf : Bool
  /-- The field `gps_msg.msg_opcode`, which the task never assigns. -/
  gps_msg_opcode : Byte
  cli : σ
  store : List (List Byte)
  trace : List ConsoleEvent

/-- The external command interpreter: from its own state, the command string
and the current output buffer it yields its new state, the new contents of
the output buffer and `xMoreDataToFollow`. -/
abbrev Interpreter (σ : Type) := σ → List Byte → List Byte → σ × List Byte × Bool

/-- The C string stored in an array: the bytes before the first NUL.  An
array without NUL holds no C string (reading it runs past the array). -/
def cStr (buf : List Byte) : Except Fault (List Byte) :=
  if 0 ∈ buf then .ok (buf.takeWhile (fun b => b != 0)) else .error .outOfBounds

/-- The assignment `buf[i] = v` on an array of declared capacity `cap`. -/
def writeAt (cap : Nat) (buf : List Byte) (i : Nat) (v : Byte) : Except Fault (List Byte) :=
  if i < cap then .ok (buf.set i v) else .error .outOfBounds

/-- Modelled from the spec: `cir_put_data` (cir_buf.c is not among the
sources).  The spec gives the store as `deposit(bytes) -> reference`,
`read(reference) -> bytes`; a deposit is appended and its reference is its
position. -/
def cir_put_data (store : List (List Byte)) (data : List Byte) : List (List Byte) × Nat :=
  (store ++ [data], store.length)

/-- Modelled from the spec: `read(reference) -> bytes` of the shared
sentence store. -/
def cir_read (store : List (List Byte)) (ref : Nat) : Option (List Byte) :=
  store[ref]?

/-- `Console_Send_Char(ch)`. -/
def Console_Send_Char {σ : Type} (s : ConsoleState σ) (ch : Byte) : ConsoleState σ :=
  { s with trace := s.trace ++ [ConsoleEvent.USART2_Send [ch]] }

/-- `Console_Send(str, block)`: sends `strlen(str)` bytes, then waits when
`block` is set. -/
def Console_Send {σ : Type} (s : ConsoleState σ) (str : List Byte) (block : Bool) :
    Except Fault (ConsoleState σ) :=
  match cStr str with
  | .error e => .error e
  | .ok text =>
    let s1 := { s with trace := s.trace ++ [ConsoleEvent.USART2_Send text] }
    .ok (if block then { s1 with trace := s1.trace ++ [ConsoleEvent.USART2_Wait] } else s1)

/-- The `do ... while (xMoreDataToFollow != pdFALSE)` loop of
`handle_console_input`; `fuel` bounds the number of rounds. -/
def cliLoop {σ : Type} (interp : Interpreter σ) : Nat → ConsoleState σ → Except Fault (ConsoleState σ)
  | 0, _ => .error .outOfFuel
  | fuel + 1, s =>
    match cStr s.pcInputString with
    | .error e => .error e
    | .ok cmd =>
      let r := interp s.cli cmd s.pcOutputString
      let s1 := { s with cli := r.1, pcOutputString := r.2.1,
                         trace := s.trace ++ [ConsoleEvent.FreeRTOS_CLIProcessCommand cmd] }
      match Console_Send s1 s1.pcOutputString true with
      | .error e => .error e
      | .ok s2 => if r.2.2 then cliLoop interp fuel s2 else .ok s2

/-- `handle_console_input(cRxedChar)`. -/
def handle_console_input {σ : Type} (interp : Interpreter σ) (fuel : Nat)
    (s0 : ConsoleState σ) (cRxedChar : Byte) : Except Fault (ConsoleState σ) :=
  let s := Console_Send_Char s0 cRxedChar
  if cRxedChar = CH_CR then
    match cliLoop interp fuel (Console_Send_Char s CH_LF) with
    | .error e => .error e
    | .ok s2 =>
      .ok { s2 with cInputIndex := 0, pcInputString := List.replicate MAX_INPUT_LENGTH 0 }
  else if cRxedChar = CH_LF then
    .ok s
  else if cRxedChar = CH_BS ∨ cRxedChar = CH_DEL then
    if s.cInputIndex > 0 then
      match writeAt MAX_INPUT_LENGTH s.pcInputString (s.cInputIndex - 1) 0 with
      | .error e => .error e
      | .ok buf => .ok { s with cInputIndex := s.cInputIndex - 1, pcInputString := buf }
    else .ok s
  else
    if s.cInputIndex < MAX_INPUT_LENGTH then
      match writeAt MAX_INPUT_LENGTH s.pcInputString s.cInputIndex cRxedChar with
      | .error e => .error e
      | .ok buf => .ok { s with cInputIndex := s.cInputIndex + 1, pcInputString := buf }
    else .ok s

/-- The statement `if (nmea_sent_len >= MAX_NMEA_SENTENCE) nmea_sent_len = 0;`. -/
def nmeaWrap {σ : Type} (t : ConsoleState σ) : ConsoleState σ :=
  if t.nmea_sent_len ≥ MAX_NMEA_SENTENCE then { t with nmea_sent_len := 0 } else t

/-- The tail of the `NMEA_SENTENCE_MODE` branch of `vTaskConsole`, entered
after the received byte has been stored: completion on `'\n'`, then the
capacity test. -/
def nmeaAfterStore {σ : Type} (s : ConsoleState σ) (cons_char : Byte) :
    Except Fault (ConsoleState σ) :=
  if cons_char = CH_LF then
    match writeAt MAX_NMEA_SENTENCE s.nmea_sentence s.nmea_sent_len 0 with
    | .error e => .error e
    | .ok buf =>
      let s1 := { s with nmea_sentence := buf, nmea_sent_len := (s.nmea_sent_len + 1) % 256 }
      let s2 :=
        if s1.gps_task_cir_buf && s1.gps_task_queue then
          let data := s1.nmea_sentence.take s1.nmea_sent_len
          let r := cir_put_data s1.store data
          let gps_msg : task_message :=
            { src_id := SrcId.CONSOLE_USART_SRC_ID, msg_opcode := s1.gps_msg_opcode,
              msg_data := r.2, msg_len := s1.nmea_sent_len }
          { s1 with store := r.1,
                    trace := s1.trace ++ [ConsoleEvent.cir_put_data data,
                                          ConsoleEvent.xQueueSend gps_msg] }
        else s1
      .ok (nmeaWrap { s2 with console_mode := CONSOLE_SENTENCE_MODE })
  else .ok (nmeaWrap s)

/-- The `case CONSOLE_USART_SRC_ID` of `vTaskConsole` for the received
character `cons_char`. -/
def vTaskConsole_char {σ : Type} (interp : Interpreter σ) (fuel : Nat)
    (s0 : ConsoleState σ) (cons_char : Byte) : Except Fault (ConsoleState σ) :=
  let s :=
    if cons_char = CH_DOLLAR then
      { s0 with console_mode := NMEA_SENTENCE_MODE, nmea_sent_len := 0 }
    else s0
  if s.console_mode = CONSOLE_SENTENCE_MODE then
    handle_console_input interp fuel s cons_char
  else if s.console_mode = NMEA_SENTENCE_MODE then
    match writeAt MAX_NMEA_SENTENCE s.nmea_sentence s.nmea_sent_len cons_char with
    | .error e => .error e
    | .ok buf =>
      nmeaAfterStore
        { s with nmea_sentence := buf, nmea_sent_len := (s.nmea_sent_len + 1) % 256 } cons_char
  else .ok s

/-- One iteration of the `for(;;)` loop of `vTaskConsole` on a received
message. -/
def vTaskConsole_step {σ : Type} (interp : Interpreter σ) (fuel : Nat)
    (s : ConsoleState σ) (msg : task_message) : Except Fault (ConsoleState σ) :=
  match msg.src_id with
  | SrcId.CONSOLE_USART_SRC_ID => vTaskConsole_char interp fuel s msg.msg_opcode
  | _ => .ok s

/-- The message the console UART driver queues for a received byte. -/
def consoleByteMsg (b : Byte) : task_message :=
  { src_id := SrcId.CONSOLE_USART_SRC_ID, msg_opcode := b, msg_data := 0, msg_len := 0 }

/-- The console task fed a sequence of received bytes, one message each. -/
def consoleFeed {σ : Type} (interp : Interpreter σ) (fuel : Nat) :
    ConsoleState σ → List Byte → Except Fault (ConsoleState σ)
  | s, [] => .ok s
  | s, b :: rest =>
    match vTaskConsole_step interp fuel s (consoleByteMsg b) with
    | .error e => .error e
    | .ok s1 => consoleFeed interp fuel s1 rest

/-- The state in which `vTaskConsole` enters its loop: zero-initialised
statics, the welcome message sent, line editing selected.  `wiredBuf` and
`wiredQue` tell whether the GPS task has already called
`Console_SetNMEABuf` and `Console_SetGPSQue`. -/
def vTaskConsole_init {σ : Type} (cli0 : σ) (wiredBuf wiredQue : Bool) (opcode : Byte) :
    ConsoleState σ :=
  { cInputIndex := 0
    pcInputString := List.replicate MAX_INPUT_LENGTH 0
    pcOutputString := List.replicate MAX_OUTPUT_LENGTH 0
    console_mode := CONSOLE_SENTENCE_MODE
    nmea_sentence := List.replicate MAX_NMEA_SENTENCE 0
    nmea_sent_len := 0
    gps_task_queue := wiredQue
    gps_task_cir_buf := wiredBuf
    gps_msg_opcode := opcode
    cli := cli0
    store := []
    trace := [ConsoleEvent.USART2_Send pcWelcomeMessage] }

/-- An interpreter that answers every command with an empty string and
never asks for another round. -/
def silentInterp : Interpreter Unit :=
  fun _ _ _ => ((), List.replicate MAX_OUTPUT_LENGTH 0, false)

/-- The answer of the interpreter in round `i` when it is called again and
again with the same command, starting from its state `c` and the output
buffer `out`. -/
def interpRound {σ : Type} (interp : Interpreter σ) (cmd : List Byte) :
    Nat → σ → List Byte → σ × List Byte × Bool
  | 0, c, out => interp c cmd out
  | i + 1, c, out => interpRound interp cmd i (interp c cmd out).1 (interp c cmd out).2.1

/-- What the console task does in rounds `0 .. k` of the interpreter loop:
call, send the output chunk, wait for the transfer, and again. -/
def roundEvents {σ : Type} (interp : Interpreter σ) (cmd : List Byte) :
    Nat → σ → List Byte → List ConsoleEvent
  | 0, c, out =>
    [ConsoleEvent.FreeRTOS_CLIProcessCommand cmd,
     ConsoleEvent.USART2_Send ((interp c cmd out).2.1.takeWhile (fun b => b != 0)),
     ConsoleEvent.USART2_Wait]
  | k + 1, c, out =>
    [ConsoleEvent.FreeRTOS_CLIProcessCommand cmd,
     ConsoleEvent.USART2_Send ((interp c cmd out).2.1.takeWhile (fun b => b != 0)),
     ConsoleEvent.USART2_Wait] ++
      roundEvents interp cmd k (interp c cmd out).1 (interp c cmd out).2.1

/-- An interpreter that answers "help" in two rounds ("a", then "b"). -/
def twoRoundInterp : Interpreter Nat :=
  fun c _ _ => (c + 1, (if c = 0 then 97 else 98) :: List.replicate 99 0, decide (c = 0))

/-- A sentence relayed from the console, as the GPS task receives it. -/
def relayMsg (len : Nat) : task_message :=
  { src_id := SrcId.CONSOLE_USART_SRC_ID, msg_opcode := 0, msg_data := 0, msg_len := len }

/-- A byte the line editor stores in its buffer: not the sentence marker,
not a line end, not an erase key. -/
def ordinaryByte (b : Byte) : Prop :=
  b ≠ CH_DOLLAR ∧ b ≠ CH_CR ∧ b ≠ CH_LF ∧ b ≠ CH_BS ∧ b ≠ CH_DEL

instance ordinaryByteDecidable : DecidablePred ordinaryByte := fun b => by
  unfold ordinaryByte
  infer_instance

/-- Sizes and index ranges that hold whenever the task waits for a byte. -/
structure ConsoleWF {σ : Type} (s : ConsoleState σ) : Prop where
  input_len : s.pcInputString.length = MAX_INPUT_LENGTH
  index_le : s.cInputIndex ≤ MAX_INPUT_LENGTH
  nmea_len : s.nmea_sentence.length = MAX_NMEA_SENTENCE
  sent_lt : s.nmea_sent_len < MAX_NMEA_SENTENCE

instance consoleWFDecidable {σ : Type} (s : ConsoleState σ) : Decidable (ConsoleWF s) :=
  decidable_of_iff
    (s.pcInputString.length = MAX_INPUT_LENGTH ∧ s.cInputIndex ≤ MAX_INPUT_LENGTH ∧
      s.nmea_sentence.length = MAX_NMEA_SENTENCE ∧ s.nmea_sent_len < MAX_NMEA_SENTENCE)
    ⟨fun h => ⟨h.1, h.2.1, h.2.2.1, h.2.2.2⟩, fun h => ⟨h.1, h.2, h.3, h.4⟩⟩

/-! ## `gps.c` -/

/-- The cold-reset sentence `pcResetNMEA`. -/
def pcResetNMEA : String :=
  "$PSRF101,-2686727,-4304282,3851642,75000,95629,1684,12,4*24\r\n"

/-- The shutdown sentence `pcShutDownNMEA`. -/
def pcShutDownNMEA : String := "$PSRF117,16*0B\r\n"

/-- Text sent by `vGPSValidTimerCallback`. -/
def textFixLost : String := "GPS fix lost.\r\n"

/-- Text sent by `GPS_Valid_Position`. -/
def textFixFound : String := "GPS fix found.\r\n"

/-- Text sent by `vGPSWdgTimerCallback`. -/
def textWdgReset : String :=
  "!! GPS watchdog reset (use gps_wdg_time 0 to disable) !!\r\n"

/-- Text sent by `vTaskGPS` when the defect heuristic fires. -/
def textGpsBug : String :=
  "GPS bug detected - GPS cold reset should fix this.\r\nIf not - reconnect battery.\r\n"

/-- Modelled from the spec: `portTICK_PERIOD_MS` (FreeRTOSConfig.h is not
among the sources).  The spec gives the Fix-Valid timer, created with 2500
ticks, a duration of 2.5 s, so one tick lasts one millisecond. -/
def portTICK_PERIOD_MS : Nat := 1

/-- The opcodes of `display.h` used by the GPS task. -/
inductive display_opcode_types where
  | DISP_GPS_NO_FIX
  | DISP_GPS_FIX
  deriving DecidableEq, Repr

/-- The result type of the external parser (`ogn_lib.h`); the code names
one enumerator only. -/
inductive OGN_Parse_res_t where
  | OGN_PARSE_POS_VALID_CURRENT
  | OTHER (code : Int)
  deriving DecidableEq, Repr

/-- The two timers of the GPS task. -/
inductive TimerId where
  | GPS_VALID_TIMER
  | GPS_WDG_TIMER
  deriving DecidableEq, Repr

/-- A one-shot software timer: its period in ticks and whether it is
running.  Starting it (again) makes it run; its expiry stops it. -/
structure Timer where
  period : Nat
  active : Bool
  deriving DecidableEq, Repr

/-- What `Console_Send` is given by the GPS task: a string literal, the
received sentence, or the line formatted into `DebugStr`. -/
inductive ConsoleText where
  | literal (s : String)
  | sentence (str : Nat → Byte)
  | debugStr (str : Nat → Byte) (len : Nat) (ret : OGN_Parse_res_t)

/-- Observable actions of the GPS task and of its timer callbacks. -/
inductive GpsEvent where
  | xTimerStart (t : TimerId)
  | Console_Send (text : ConsoleText) (block : Bool)
  | USART3_Send (cmd : String)
  /-- `xQueueSend(*disp_task_queue, &display_msg, portMAX_DELAY)`. -/
  | display_msg (opcode : display_opcode_types)
  | OGN_Parse_NMEA (str : Nat → Byte) (len : Nat)
  | GPIO_SetBits
  | GPIO_ResetBits
  | vTaskDelay (ticks : Nat)
  | NVIC_SystemReset

/-- What the GPS task reads from its surroundings: the options of the
configuration store and whether `Get_DisplayQue()` returns a queue. -/
structure GpsEnv where
  OPT_GPS_WDG_TIME : Nat
  OPT_GPSDUMP : Nat
  OPT_GPS_ALW_ON : Nat
  Get_DisplayQue : Bool

/-- The variables of `gps.c`; `halted` records that `NVIC_SystemReset` has
been executed, after which nothing runs any more. -/
structure GpsState where
  GPS_fix_found : Nat
  debug_mode : Nat
  xGPSValidTimer : Option Timer
  xGPSWdgTimer : Option Timer
  halted : Bool
  trace : List GpsEvent

/-- What the GPS task and the timer service react to.  A message comes with
the bytes found at `(char*)msg.msg_data` and with the result the external
parser returns for it. -/
inductive GpsInput where
  | message (msg : task_message) (str : Nat → Byte) (ret : OGN_Parse_res_t)
  | validTimerExpiry
  | wdgTimerExpiry
  | debugOn

/-- Modelled from the spec: `xTimerCreate` (the FreeRTOS timer service is
not among the sources).  The spec gives the Watchdog timer as "configurable
seconds, 0 = disabled" and arms it only "if watchdog timeout > 0": a period
of zero ticks yields no timer (a NULL handle); any other period yields a
stopped one-shot timer. -/
def xTimerCreate (period : Nat) : Option Timer :=
  if period = 0 then none else some { period := period, active := false }

/-- `xTimerStart(handle, portMAX_DELAY)`: the timer runs from now on. -/
def xTimerStart (handle : Option Timer) : Option Timer :=
  handle.map (fun t => { t with active := true })

/-- Whether the timer behind a handle is running. -/
def timerActive (handle : Option Timer) : Bool :=
  match handle with
  | some t => t.active
  | none => false

/-- The timer behind a handle after its expiry: one-shot, so stopped. -/
def timerStop (handle : Option Timer) : Option Timer :=
  handle.map (fun t => { t with active := false })

/-- Appends events to the trace. -/
def gpsEmit (s : GpsState) (es : List GpsEvent) : GpsState :=
  { s with trace := s.trace ++ es }

/-- `GPS_Send_Disp_Status(msg_type)`. -/
def GPS_Send_Disp_Status (env : GpsEnv) (s : GpsState) (msg_type : display_opcode_types) :
    GpsState :=
  if env.Get_DisplayQue then gpsEmit s [GpsEvent.display_msg msg_type] else s

/-- `vGPSValidTimerCallback`. -/
def vGPSValidTimerCallback (env : GpsEnv) (s : GpsState) : GpsState :=
  let s1 := { s with GPS_fix_found := 0 }
  let s2 := GPS_Send_Disp_Status env s1 display_opcode_types.DISP_GPS_NO_FIX
  gpsEmit s2 [GpsEvent.Console_Send (ConsoleText.literal textFixLost) false]

/-- `vGPSWdgTimerCallback`. -/
def vGPSWdgTimerCallback (s : GpsState) : GpsState :=
  let s1 := gpsEmit s [GpsEvent.Console_Send (ConsoleText.literal textWdgReset) true]
  { (gpsEmit s1 [GpsEvent.NVIC_SystemReset]) with halted := true }

/-- `GPS_Valid_Position`. -/
def GPS_Valid_Position (env : GpsEnv) (s : GpsState) : GpsState :=
  let s1 := gpsEmit { s with xGPSValidTimer := xTimerStart s.xGPSValidTimer }
    [GpsEvent.xTimerStart TimerId.GPS_VALID_TIMER]
  let s2 :=
    if s1.GPS_fix_found = 0 then
      gpsEmit (GPS_Send_Disp_Status env s1 display_opcode_types.DISP_GPS_FIX)
        [GpsEvent.Console_Send (ConsoleText.literal textFixFound) false]
    else s1
  { s2 with GPS_fix_found := 1 }

/-- `Handle_NMEA_String(str, len)`; `ret` is what `OGN_Parse_NMEA` returns. -/
def Handle_NMEA_String (env : GpsEnv) (s : GpsState) (str : Nat → Byte) (len : Nat)
    (ret : OGN_Parse_res_t) : GpsState :=
  let s1 := gpsEmit s [GpsEvent.OGN_Parse_NMEA str len]
  let s2 :=
    if s1.debug_mode ≠ 0 then
      gpsEmit s1 [GpsEvent.Console_Send (ConsoleText.debugStr str len ret) false]
    else s1
  if ret = OGN_Parse_res_t.OGN_PARSE_POS_VALID_CURRENT then GPS_Valid_Position env s2 else s2

/-- `GPS_Reset`. -/
def GPS_Reset (s : GpsState) : GpsState :=
  gpsEmit s [GpsEvent.USART3_Send pcResetNMEA]

/-- `GPS_Off`. -/
def GPS_Off (env : GpsEnv) (s : GpsState) : GpsState :=
  if env.OPT_GPS_ALW_ON = 0 then
    gpsEmit s [GpsEvent.USART3_Send pcShutDownNMEA, GpsEvent.vTaskDelay 200]
  else s

/-- `GPS_On`. -/
def GPS_On (env : GpsEnv) (s : GpsState) : GpsState :=
  if env.OPT_GPS_ALW_ON = 0 then
    gpsEmit (GPS_Off env s)
      [GpsEvent.GPIO_SetBits, GpsEvent.vTaskDelay 200, GpsEvent.GPIO_ResetBits]
  else s

/-- `GPS_Debug_on`. -/
def GPS_Debug_on (s : GpsState) : GpsState :=
  { s with debug_mode := 1 }

/-- `GPS_Config`, as far as the variables of `gps.c` are concerned, run on
the zero-initialised variables. -/
def GPS_Config (env : GpsEnv) : GpsState :=
  { GPS_fix_found := 0
    debug_mode := 0
    xGPSValidTimer := xTimerCreate 2500
    xGPSWdgTimer :=
      xTimerCreate (((env.OPT_GPS_WDG_TIME % 65536) * 1000 * portTICK_PERIOD_MS) % 2 ^ 32)
    halted := false
    trace := [] }

/-- `if (xGPSWdgTimer) xTimerStart(xGPSWdgTimer, portMAX_DELAY);`. -/
def startWdg (s : GpsState) : GpsState :=
  if s.xGPSWdgTimer.isSome then
    gpsEmit { s with xGPSWdgTimer := xTimerStart s.xGPSWdgTimer }
      [GpsEvent.xTimerStart TimerId.GPS_WDG_TIMER]
  else s

/-- `vTaskGPS` up to the entry of its loop. -/
def vTaskGPS_start (env : GpsEnv) (s : GpsState) : GpsState :=
  let s1 := gpsEmit s [GpsEvent.vTaskDelay 700]
  let s2 := GPS_On env s1
  let s3 := { s2 with GPS_fix_found := 0 }
  let s4 := gpsEmit { s3 with xGPSValidTimer := xTimerStart s3.xGPSValidTimer }
    [GpsEvent.xTimerStart TimerId.GPS_VALID_TIMER]
  startWdg s4

/-- The defect heuristic of `vTaskGPS`: the block guarded by
`msg.msg_len >= 6`. -/
def gpsBugCheck (s : GpsState) (str : Nat → Byte) (msg_len : Nat) : GpsState :=
  if msg_len ≥ 6 then
    if str 0 = CH_DOLLAR ∧ str (msg_len - 5) ≠ CH_STAR then
      GPS_Reset (gpsEmit s [GpsEvent.Console_Send (ConsoleText.literal textGpsBug) true])
    else s
  else s

/-- One iteration of the `for(;;)` loop of `vTaskGPS` on a received message;
the length handed to `Handle_NMEA_String` is converted to `uint8_t`. -/
def vTaskGPS_step (env : GpsEnv) (s : GpsState) (msg : task_message) (str : Nat → Byte)
    (ret : OGN_Parse_res_t) : GpsState :=
  match msg.src_id with
  | SrcId.GPS_USART_SRC_ID =>
    let s1 := startWdg s
    let s2 :=
      if env.OPT_GPSDUMP ≠ 0 then
        gpsEmit s1 [GpsEvent.Console_Send (ConsoleText.sentence str) true]
      else s1
    let s3 := gpsBugCheck s2 str msg.msg_len
    Handle_NMEA_String env s3 str (msg.msg_len % 256) ret
  | SrcId.CONSOLE_USART_SRC_ID =>
    Handle_NMEA_String env s str (msg.msg_len % 256) ret
  | SrcId.OTHER _ => s

/-- The system around the GPS variables: the task handles messages, the
timer service runs a callback when a running timer expires (and the
one-shot timer stops), another task may switch debugging on.  A timer that
is not running does not expire, and nothing runs after the device reset. -/
def gpsStep (env : GpsEnv) (s : GpsState) (i : GpsInput) : GpsState :=
  if s.halted then s
  else
    match i with
    | GpsInput.message msg str ret => vTaskGPS_step env s msg str ret
    | GpsInput.validTimerExpiry =>
      if timerActive s.xGPSValidTimer then
        vGPSValidTimerCallback env { s with xGPSValidTimer := timerStop s.xGPSValidTimer }
      else s
    | GpsInput.wdgTimerExpiry =>
      if timerActive s.xGPSWdgTimer then
        vGPSWdgTimerCallback { s with xGPSWdgTimer := timerStop s.xGPSWdgTimer }
      else s
    | GpsInput.debugOn => GPS_Debug_on s

/-- A run of the GPS supervisor over a sequence of inputs. -/
def gpsRun (env : GpsEnv) (s : GpsState) (inputs : List GpsInput) : GpsState :=
  inputs.foldl (gpsStep env) s

/-- The state in which `vTaskGPS` enters its loop after start-up. -/
def gpsBoot (env : GpsEnv) : GpsState :=
  vTaskGPS_start env (GPS_Config env)

/-! ### Observations on traces -/

/-- The cold-reset command sent to the receiver. -/
def isColdReset : GpsEvent → Bool
  | GpsEvent.USART3_Send cmd => cmd == pcResetNMEA
  | _ => false

/-- The operator warning of the defect heuristic. -/
def isBugWarning : GpsEvent → Bool
  | GpsEvent.Console_Send (ConsoleText.literal s) _ => s == textGpsBug
  | _ => false

/-- A call of the semantic parser. -/
def isParse : GpsEvent → Bool
  | GpsEvent.OGN_Parse_NMEA _ _ => true
  | _ => false

/-- The console line "GPS fix lost.". -/
def isFixLostConsole : GpsEvent → Bool
  | GpsEvent.Console_Send (ConsoleText.literal s) _ => s == textFixLost
  | _ => false

/-- The fix-lost message for the display task. -/
def isFixLostDisplay : GpsEvent → Bool
  | GpsEvent.display_msg display_opcode_types.DISP_GPS_NO_FIX => true
  | _ => false

/-- The console line "GPS fix found.". -/
def isFixFoundConsole : GpsEvent → Bool
  | GpsEvent.Console_Send (ConsoleText.literal s) _ => s == textFixFound
  | _ => false

/-- The fix-found message for the display task. -/
def isFixFoundDisplay : GpsEvent → Bool
  | GpsEvent.display_msg display_opcode_types.DISP_GPS_FIX => true
  | _ => false

/-- The device reset. -/
def isDeviceReset : GpsEvent → Bool
  | GpsEvent.NVIC_SystemReset => true
  | _ => false

/-- A (re)start of the Watchdog timer. -/
def isWdgStart : GpsEvent → Bool
  | GpsEvent.xTimerStart TimerId.GPS_WDG_TIMER => true
  | _ => false

/-- A (re)start of the Fix-Valid timer. -/
def isValidStart : GpsEvent → Bool
  | GpsEvent.xTimerStart TimerId.GPS_VALID_TIMER => true
  | _ => false

/-- A message whose parser result is "currently valid fix" and which reaches
the parser (it comes from the GPS UART or from the console). -/
def isValidFix : GpsInput → Bool
  | GpsInput.message msg _ OGN_Parse_res_t.OGN_PARSE_POS_VALID_CURRENT =>
    match msg.src_id with
    | SrcId.OTHER _ => false
    | _ => true
  | _ => false

/-! ### The events each part of the GPS task contributes -/

/-- Events of `GPS_Send_Disp_Status`. -/
def dispEvents (env : GpsEnv) (op : display_opcode_types) : List GpsEvent :=
  if env.Get_DisplayQue then [GpsEvent.display_msg op] else []

/-- Events of `GPS_Valid_Position` when `GPS_fix_found` holds `fix`. -/
def validPositionEvents (env : GpsEnv) (fix : Nat) : List GpsEvent :=
  GpsEvent.xTimerStart TimerId.GPS_VALID_TIMER ::
    (if fix = 0 then
      dispEvents env display_opcode_types.DISP_GPS_FIX ++
        [GpsEvent.Console_Send (ConsoleText.literal textFixFound) false]
    else [])

/-- Events of `Handle_NMEA_String`. -/
def handleEvents (env : GpsEnv) (debug fix : Nat) (str : Nat → Byte) (len : Nat)
    (ret : OGN_Parse_res_t) : List GpsEvent :=
  GpsEvent.OGN_Parse_NMEA str len ::
    ((if debug ≠ 0 then [GpsEvent.Console_Send (ConsoleText.debugStr str len ret) false]
      else []) ++
     (if ret = OGN_Parse_res_t.OGN_PARSE_POS_VALID_CURRENT then validPositionEvents env fix
      else []))

/-- Events of the defect heuristic. -/
def bugEvents (str : Nat → Byte) (msg_len : Nat) : List GpsEvent :=
  if msg_len ≥ 6 ∧ str 0 = CH_DOLLAR ∧ str (msg_len - 5) ≠ CH_STAR then
    [GpsEvent.Console_Send (ConsoleText.literal textGpsBug) true, GpsEvent.USART3_Send pcResetNMEA]
  else []

/-- Events of the guarded restart of the watchdog timer. -/
def wdgStartEvents (s : GpsState) : List GpsEvent :=
  if s.xGPSWdgTimer.isSome then [GpsEvent.xTimerStart TimerId.GPS_WDG_TIMER] else []

/-- Events of the optional dump of a hardware sentence. -/
def dumpEvents (env : GpsEnv) (str : Nat → Byte) : List GpsEvent :=
  if env.OPT_GPSDUMP ≠ 0 then [GpsEvent.Console_Send (ConsoleText.sentence str) true] else []

/-- Events of `vGPSValidTimerCallback`. -/
def fixLostEvents (env : GpsEnv) : List GpsEvent :=
  dispEvents env display_opcode_types.DISP_GPS_NO_FIX ++
    [GpsEvent.Console_Send (ConsoleText.literal textFixLost) false]

/-- The value of `GPS_fix_found` after `Handle_NMEA_String`. -/
def fixAfter (ret : OGN_Parse_res_t) (fix : Nat) : Nat :=
  if ret = OGN_Parse_res_t.OGN_PARSE_POS_VALID_CURRENT then 1 else fix

/-- The Fix-Valid timer after `Handle_NMEA_String`. -/
def validTimerAfter (ret : OGN_Parse_res_t) (t : Option Timer) : Option Timer :=
  if ret = OGN_Parse_res_t.OGN_PARSE_POS_VALID_CURRENT then xTimerStart t else t

/-- An expiry of the Fix-Valid timer. -/
def isValidExpiry : GpsInput → Bool
  | GpsInput.validTimerExpiry => true
  | _ => false

/-- An expiry of the Watchdog timer. -/
def isWdgExpiry : GpsInput → Bool
  | GpsInput.wdgTimerExpiry => true
  | _ => false

/-- A message from the hardware GPS transport. -/
def isHardwareMsg : GpsInput → Bool
  | GpsInput.message msg _ _ =>
    match msg.src_id with
    | SrcId.GPS_USART_SRC_ID => true
    | _ => false
  | _ => false

/-- The bytes found at an address where `l` is stored, zeros behind it. -/
def strOf (l : List Byte) : Nat → Byte := fun i => l.getD i 0

/-- The sentence "$GPFOO,1,2,3,4,5\n". -/
def sentenceGPFOO : List Byte :=
  [36, 71, 80, 70, 79, 79, 44, 49, 44, 50, 44, 51, 44, 52, 44, 53, 10]

/-- The sentence "$GPFOO,1*1A\n". -/
def sentenceChecked : List Byte :=
  [36, 71, 80, 70, 79, 79, 44, 49, 42, 49, 65, 10, 0]

/-- The sentence "$GPTEST*00\n" of the spec. -/
def sentenceGPTEST : List Byte := [36, 71, 80, 84, 69, 83, 84, 42, 48, 48, 10]

/-- A configuration without watchdog, dump or display queue. -/
def envNoDisplay : GpsEnv :=
  { OPT_GPS_WDG_TIME := 0, OPT_GPSDUMP := 0, OPT_GPS_ALW_ON := 1, Get_DisplayQue := false }

/-- A configuration with a 5 s watchdog and a display queue. -/
def envWdg5 : GpsEnv :=
  { OPT_GPS_WDG_TIME := 5, OPT_GPSDUMP := 0, OPT_GPS_ALW_ON := 1, Get_DisplayQue := true }

/-- A hardware message of the given length. -/
def hardwareMsg (len : Nat) : task_message :=
  { src_id := SrcId.GPS_USART_SRC_ID, msg_opcode := 0, msg_data := 0, msg_len := len }

/-- Events of `GPS_On`. -/
def powerOnEvents (env : GpsEnv) : List GpsEvent :=
  if env.OPT_GPS_ALW_ON = 0 then
    [GpsEvent.USART3_Send pcShutDownNMEA, GpsEvent.vTaskDelay 200, GpsEvent.GPIO_SetBits,
     GpsEvent.vTaskDelay 200, GpsEvent.GPIO_ResetBits]
  else []

/-- The period, in ticks, that `GPS_Config` asks for the Watchdog timer. -/
def wdgPeriod (env : GpsEnv) : Nat :=
  ((env.OPT_GPS_WDG_TIME % 65536) * 1000 * portTICK_PERIOD_MS) % 2 ^ 32

/-- The bytes captured so far: the first `nmea_sent_len` bytes of
`nmea_sentence`. -/
def captured {σ : Type} (s : ConsoleState σ) : List Byte :=
  s.nmea_sentence.take s.nmea_sent_len

/-- The input '$', 99 times 'A', 'B', '\n': 102 bytes with a single `'$'`
and a single `'\n'`. -/
def overlongSentence : List Byte :=
  CH_DOLLAR :: List.replicate 99 65 ++ [66, CH_LF]

/-- The input '$', 98 times 'A', '\n': a sentence of exactly 100 bytes. -/
def fullSentence : List Byte :=
  CH_DOLLAR :: List.replicate 98 65 ++ [CH_LF]

/-- The shape of a payload handed to the GPS task: one `'\n'`, right before
the final 0, `'$'` at the front or nowhere, and no more bytes than the
capture buffer holds. -/
def payloadShape (d : List Byte) : Prop :=
  (∃ body, d = body ++ [CH_LF, 0] ∧ CH_LF ∉ body) ∧
  (d.head? = some CH_DOLLAR ∨ CH_DOLLAR ∉ d) ∧
  d.length ≤ MAX_NMEA_SENTENCE

/-- What holds of the capture buffer and of the deposits made so far
whenever the task waits for a byte. -/
def PayloadInv {σ : Type} (s : ConsoleState σ) : Prop :=
  (s.console_mode = NMEA_SENTENCE_MODE →
    CH_LF ∉ captured s ∧ ((captured s).head? = some CH_DOLLAR ∨ CH_DOLLAR ∉ captured s)) ∧
  (∀ d, ConsoleEvent.cir_put_data d ∈ s.trace → payloadShape d)

/-- What an observation `f` yields on the final state of a run, if the run
is defined. -/
def resultOf {σ α : Type} (r : Except Fault (ConsoleState σ)) (f : ConsoleState σ → α) :
    Option α :=
  match r with
  | .ok s => some (f s)
  | .error _ => none

/-! ## Properties of the console task -/

section ListFacts

theorem take_set_succ {α : Type} (l : List α) (n : Nat) (a : α) (h : n < l.length) :
    (l.set n a).take (n + 1) = l.take n ++ [a] := by
  induction l generalizing n with
  | nil => simp at h
  | cons x xs ih =>
    cases n with
    | zero => simp
    | succ k =>
      have hk : k < xs.length := by simpa using h
      simp [List.set, ih k hk]

theorem drop_set_succ {α : Type} (l : List α) (n m : Nat) (a : α) (h : n < m) :
    (l.set n a).drop m = l.drop m := by
  induction l generalizing n m with
  | nil => simp
  | cons x xs ih =>
    cases m with
    | zero => omega
    | succ j =>
      cases n with
      | zero => simp
      | succ k => simp [List.set, ih k j (by omega)]

theorem cStr_terminated (line rest : List Byte) (h : 0 ∉ line) :
    cStr (line ++ 0 :: rest) = .ok line := by
  have hp : ∀ a ∈ line, (fun b : Byte => b != 0) a = true := by
    intro a ha
    have : a ≠ 0 := fun h0 => h (h0 ▸ ha)
    simpa using this
  simp [cStr, List.takeWhile_append_of_pos hp]

theorem cStr_unterminated (buf : List Byte) (h : 0 ∉ buf) :
    cStr buf = .error .outOfBounds := by
  simp [cStr, h]

end ListFacts

section ConsoleSteps

variable {σ : Type} (interp : Interpreter σ) (fuel : Nat)

@[simp] theorem step_byte (s : ConsoleState σ) (b : Byte) :
    vTaskConsole_step interp fuel s (consoleByteMsg b) = vTaskConsole_char interp fuel s b := rfl

@[simp] theorem feed_nil (s : ConsoleState σ) : consoleFeed interp fuel s [] = .ok s := rfl

theorem feed_cons_ok (s s1 : ConsoleState σ) (b : Byte) (rest : List Byte)
    (h : vTaskConsole_char interp fuel s b = .ok s1) :
    consoleFeed interp fuel s (b :: rest) = consoleFeed interp fuel s1 rest := by
  simp [consoleFeed, h]

theorem feed_cons_error (s : ConsoleState σ) (b : Byte) (rest : List Byte) (e : Fault)
    (h : vTaskConsole_char interp fuel s b = .error e) :
    consoleFeed interp fuel s (b :: rest) = .error e := by
  simp [consoleFeed, h]

theorem feed_append_ok (s s1 : ConsoleState σ) (xs ys : List Byte)
    (h : consoleFeed interp fuel s xs = .ok s1) :
    consoleFeed interp fuel s (xs ++ ys) = consoleFeed interp fuel s1 ys := by
  induction xs generalizing s with
  | nil => simp at h; simp [h]
  | cons x xs ih =>
    cases hx : vTaskConsole_char interp fuel s x with
    | error e => simp [consoleFeed, hx] at h
    | ok t =>
      rw [feed_cons_ok interp fuel s t x xs hx] at h
      rw [List.cons_append, feed_cons_ok interp fuel s t x (xs ++ ys) hx]
      exact ih t h

/-- An ordinary byte in line editing with room left: echoed and appended. -/
theorem char_line_ordinary (s : ConsoleState σ) (b : Byte)
    (hmode : s.console_mode = CONSOLE_SENTENCE_MODE) (hb : ordinaryByte b)
    (hroom : s.cInputIndex < MAX_INPUT_LENGTH) :
    vTaskConsole_char interp fuel s b =
      .ok { s with cInputIndex := s.cInputIndex + 1,
                   pcInputString := s.pcInputString.set s.cInputIndex b,
                   trace := s.trace ++ [ConsoleEvent.USART2_Send [b]] } := by
  obtain ⟨h1, h2, h3, h4, h5⟩ := hb
  simp [vTaskConsole_char, h1, hmode, handle_console_input, h2, h3, h4, h5,
    Console_Send_Char, hroom, writeAt]

/-- An ordinary byte in line editing with a full buffer: echoed and dropped. -/
theorem char_line_full (s : ConsoleState σ) (b : Byte)
    (hmode : s.console_mode = CONSOLE_SENTENCE_MODE) (hb : ordinaryByte b)
    (hfull : ¬ s.cInputIndex < MAX_INPUT_LENGTH) :
    vTaskConsole_char interp fuel s b =
      .ok { s with trace := s.trace ++ [ConsoleEvent.USART2_Send [b]] } := by
  obtain ⟨h1, h2, h3, h4, h5⟩ := hb
  simp [vTaskConsole_char, h1, hmode, handle_console_input, h2, h3, h4, h5,
    Console_Send_Char, hfull]

/-- The line editor fed ordinary bytes that fit in the buffer. -/
theorem feed_ordinary (seq : List Byte) :
    ∀ s : ConsoleState σ, s.console_mode = CONSOLE_SENTENCE_MODE →
      s.pcInputString.length = MAX_INPUT_LENGTH →
      s.cInputIndex + seq.length ≤ MAX_INPUT_LENGTH →
      (∀ b ∈ seq, ordinaryByte b) →
      consoleFeed interp fuel s seq =
        .ok { s with cInputIndex := s.cInputIndex + seq.length,
                     pcInputString := s.pcInputString.take s.cInputIndex ++ seq ++
                       s.pcInputString.drop (s.cInputIndex + seq.length),
                     trace := s.trace ++ seq.map (fun b => ConsoleEvent.USART2_Send [b]) } := by
  induction seq with
  | nil => intro s _ _ _ _; simp
  | cons x xs ih =>
    intro s hmode hlen hfit hord
    have hx : ordinaryByte x := hord x (List.mem_cons_self x xs)
    have hroom : s.cInputIndex < MAX_INPUT_LENGTH := by
      simp only [List.length_cons] at hfit; omega
    rw [feed_cons_ok interp fuel s _ x xs (char_line_ordinary interp fuel s x hmode hx hroom)]
    refine (ih _ ?_ ?_ ?_ ?_).trans ?_
    · exact hmode
    · simpa using hlen
    · simp only [List.length_cons] at hfit; simp only []; omega
    · exact fun b hb => hord b (List.mem_cons_of_mem x hb)
    · have h1 : (s.pcInputString.set s.cInputIndex x).take (s.cInputIndex + 1) =
          s.pcInputString.take s.cInputIndex ++ [x] :=
        take_set_succ _ _ _ (by omega)
      simp [h1, Nat.add_assoc, Nat.add_comm 1]
      exact drop_set_succ _ _ _ _ (by omega)

end ConsoleSteps

section Capture

variable {σ : Type} (interp : Interpreter σ) (fuel : Nat)

@[simp] theorem nmeaWrap_pcInputString (t : ConsoleState σ) :
    (nmeaWrap t).pcInputString = t.pcInputString := by
  unfold nmeaWrap; split_ifs <;> rfl

@[simp] theorem nmeaWrap_cInputIndex (t : ConsoleState σ) :
    (nmeaWrap t).cInputIndex = t.cInputIndex := by
  unfold nmeaWrap; split_ifs <;> rfl

@[simp] theorem nmeaWrap_nmea_sentence (t : ConsoleState σ) :
    (nmeaWrap t).nmea_sentence = t.nmea_sentence := by
  unfold nmeaWrap; split_ifs <;> rfl

@[simp] theorem nmeaWrap_console_mode (t : ConsoleState σ) :
    (nmeaWrap t).console_mode = t.console_mode := by
  unfold nmeaWrap; split_ifs <;> rfl

@[simp] theorem nmeaWrap_trace (t : ConsoleState σ) : (nmeaWrap t).trace = t.trace := by
  unfold nmeaWrap; split_ifs <;> rfl

@[simp] theorem nmeaWrap_store (t : ConsoleState σ) : (nmeaWrap t).store = t.store := by
  unfold nmeaWrap; split_ifs <;> rfl

theorem nmeaWrap_sent_lt (t : ConsoleState σ) : (nmeaWrap t).nmea_sent_len < MAX_NMEA_SENTENCE := by
  unfold nmeaWrap
  split_ifs with h
  · simp [MAX_NMEA_SENTENCE]
  · simpa using h

theorem nmeaWrap_of_lt (t : ConsoleState σ) (h : t.nmea_sent_len < MAX_NMEA_SENTENCE) :
    nmeaWrap t = t := by
  unfold nmeaWrap
  rw [if_neg (by omega)]

theorem nmeaAfterStore_frame (t s' : ConsoleState σ) (b : Byte)
    (h : nmeaAfterStore t b = .ok s') :
    s'.pcInputString = t.pcInputString ∧ s'.cInputIndex = t.cInputIndex ∧
    s'.nmea_sentence.length = t.nmea_sentence.length ∧
    s'.nmea_sent_len < MAX_NMEA_SENTENCE ∧
    (b ≠ CH_LF → s'.console_mode = t.console_mode ∧ s'.trace = t.trace) ∧
    (b = CH_LF → s'.console_mode = CONSOLE_SENTENCE_MODE ∧
      (s'.trace = t.trace ∨
        ∃ d m, s'.trace = t.trace ++ [ConsoleEvent.cir_put_data d, ConsoleEvent.xQueueSend m])) := by
  unfold nmeaAfterStore at h
  by_cases hlf : b = CH_LF
  · simp only [hlf, if_true, writeAt] at h
    by_cases h2 : t.nmea_sent_len < MAX_NMEA_SENTENCE
    · simp only [h2, if_true] at h
      injection h with h
      subst h
      refine ⟨?_, ?_, ?_, nmeaWrap_sent_lt _, fun hne => absurd hlf hne, fun _ => ⟨by simp, ?_⟩⟩
      · simp only [nmeaWrap_pcInputString]; split_ifs <;> rfl
      · simp only [nmeaWrap_cInputIndex]; split_ifs <;> rfl
      · simp only [nmeaWrap_nmea_sentence]; split_ifs <;> simp
      · simp only [nmeaWrap_trace]
        split_ifs
        · exact Or.inr ⟨_, _, rfl⟩
        · exact Or.inl rfl
    · simp [h2] at h
  · simp only [hlf, if_false] at h
    injection h with h
    subst h
    exact ⟨by simp, by simp, by simp, nmeaWrap_sent_lt _, fun _ => ⟨by simp, by simp⟩,
      fun h => absurd h hlf⟩

/-- What one byte does while a sentence is captured (the session is in
`NMEA_SENTENCE_MODE`, or the byte is the sentence marker): the line editor
is not touched, nothing is sent on the console transport, and the session
leaves the capture exactly on `'\n'`. -/
theorem char_capture (s s' : ConsoleState σ) (b : Byte)
    (hcap : s.console_mode = NMEA_SENTENCE_MODE ∨ b = CH_DOLLAR)
    (h : vTaskConsole_char interp fuel s b = .ok s') :
    s'.pcInputString = s.pcInputString ∧ s'.cInputIndex = s.cInputIndex ∧
    s'.nmea_sentence.length = s.nmea_sentence.length ∧
    s'.nmea_sent_len < MAX_NMEA_SENTENCE ∧
    (b ≠ CH_LF → s'.console_mode = NMEA_SENTENCE_MODE ∧ s'.trace = s.trace) ∧
    (b = CH_LF → s'.console_mode = CONSOLE_SENTENCE_MODE ∧
      (s'.trace = s.trace ∨
        ∃ d m, s'.trace = s.trace ++ [ConsoleEvent.cir_put_data d, ConsoleEvent.xQueueSend m])) := by
  unfold vTaskConsole_char at h
  by_cases hd : b = CH_DOLLAR
  · simp only [hd, if_true, NMEA_SENTENCE_MODE, CONSOLE_SENTENCE_MODE, Nat.zero_ne_one,
      if_false, writeAt, MAX_NMEA_SENTENCE, Nat.zero_lt_succ] at h
    have hf := nmeaAfterStore_frame _ s' _ h
    simp only [List.length_set] at hf
    obtain ⟨f1, f2, f3, f4, f5, f6⟩ := hf
    refine ⟨f1, f2, f3, f4, ?_, ?_⟩
    · intro _
      have := f5 (by simp [CH_DOLLAR, CH_LF])
      exact ⟨this.1, this.2⟩
    · intro hlf
      rw [hd] at hlf
      simp [CH_DOLLAR, CH_LF] at hlf
  · have hm : s.console_mode = NMEA_SENTENCE_MODE := by
      rcases hcap with h1 | h1
      · exact h1
      · exact absurd h1 hd
    simp only [hd, if_false, hm] at h
    simp only [NMEA_SENTENCE_MODE, CONSOLE_SENTENCE_MODE, Nat.zero_ne_one, if_false, if_true] at h
    by_cases hlt : s.nmea_sent_len < MAX_NMEA_SENTENCE
    · simp only [writeAt, hlt, if_true] at h
      have hf := nmeaAfterStore_frame _ s' _ h
      simp only [List.length_set] at hf
      obtain ⟨f1, f2, f3, f4, f5, f6⟩ := hf
      exact ⟨f1, f2, f3, f4, fun hne => ⟨(f5 hne).1, (f5 hne).2⟩, f6⟩
    · simp [writeAt, hlt] at h

end Capture

section ConsoleClaims

variable {σ : Type} (interp : Interpreter σ) (fuel : Nat)

theorem feed_cons_inv (s s' : ConsoleState σ) (b : Byte) (rest : List Byte)
    (h : consoleFeed interp fuel s (b :: rest) = .ok s') :
    ∃ s1, vTaskConsole_char interp fuel s b = .ok s1 ∧ consoleFeed interp fuel s1 rest = .ok s' := by
  cases hx : vTaskConsole_char interp fuel s b with
  | error e => simp [consoleFeed, hx] at h
  | ok t => exact ⟨t, rfl, by rwa [feed_cons_ok interp fuel s t b rest hx] at h⟩

theorem feed_append_inv (xs ys : List Byte) :
    ∀ s s' : ConsoleState σ, consoleFeed interp fuel s (xs ++ ys) = .ok s' →
      ∃ s1, consoleFeed interp fuel s xs = .ok s1 ∧ consoleFeed interp fuel s1 ys = .ok s' := by
  induction xs with
  | nil => intro s s' h; exact ⟨s, rfl, by simpa using h⟩
  | cons x xs ih =>
    intro s s' h
    obtain ⟨t, ht, hrest⟩ := feed_cons_inv interp fuel s s' x (xs ++ ys) h
    obtain ⟨s1, h1, h2⟩ := ih t s' hrest
    exact ⟨s1, by rw [feed_cons_ok interp fuel s t x xs ht]; exact h1, h2⟩

/-- A run of bytes without `'\n'` consumed in sentence capture leaves the
line editor and the trace alone and stays in sentence capture. -/
theorem feed_capture_body (body : List Byte) (hbody : CH_LF ∉ body) :
    ∀ s s' : ConsoleState σ, s.console_mode = NMEA_SENTENCE_MODE →
      consoleFeed interp fuel s body = .ok s' →
      s'.console_mode = NMEA_SENTENCE_MODE ∧ s'.pcInputString = s.pcInputString ∧
      s'.cInputIndex = s.cInputIndex ∧ s'.trace = s.trace := by
  induction body with
  | nil =>
    intro s s' hm h
    simp at h
    subst h
    exact ⟨hm, rfl, rfl, rfl⟩
  | cons x xs ih =>
    intro s s' hm h
    have hx : x ≠ CH_LF := fun hx => hbody (hx ▸ List.mem_cons_self x xs)
    have hxs : CH_LF ∉ xs := fun hmem => hbody (List.mem_cons_of_mem x hmem)
    obtain ⟨t, ht, hrest⟩ := feed_cons_inv interp fuel s s' x xs h
    obtain ⟨f1, f2, -, -, f5, -⟩ := char_capture interp fuel s t x (Or.inl hm) ht
    obtain ⟨g1, g2, g3, g4⟩ := ih hxs t s' (f5 hx).1 hrest
    exact ⟨g1, g2.trans f1, g3.trans f2, g4.trans (f5 hx).2⟩

end ConsoleClaims

section ConsoleClaims2

variable {σ : Type} (interp : Interpreter σ) (fuel : Nat)

theorem Console_Send_trace (s s' : ConsoleState σ) (str : List Byte) (block : Bool)
    (h : Console_Send s str block = .ok s') :
    (∃ rest, s'.trace = s.trace ++ rest) ∧ s'.pcInputString = s.pcInputString ∧
    s'.cInputIndex = s.cInputIndex ∧ s'.console_mode = s.console_mode := by
  unfold Console_Send at h
  cases hc : cStr str with
  | error e => simp [hc] at h
  | ok text =>
    simp only [hc] at h
    injection h with h
    subst h
    cases block
    · exact ⟨⟨_, rfl⟩, rfl, rfl, rfl⟩
    · exact ⟨⟨_, by simp [List.append_assoc]; rfl⟩, rfl, rfl, rfl⟩

theorem cliLoop_trace (n : Nat) :
    ∀ s s' : ConsoleState σ, cliLoop interp n s = .ok s' →
      (∃ rest, s'.trace = s.trace ++ rest) ∧ s'.console_mode = s.console_mode := by
  induction n with
  | zero => intro s s' h; simp [cliLoop] at h
  | succ k ih =>
    intro s s' h
    unfold cliLoop at h
    cases hc : cStr s.pcInputString with
    | error e => simp [hc] at h
    | ok cmd =>
      simp only [hc] at h
      split at h
      · simp at h
      · rename_i s2 hs2
        obtain ⟨⟨r1, hr1⟩, -, -, hm1⟩ := Console_Send_trace _ s2 _ _ hs2
        simp only [] at hr1 hm1
        split_ifs at h
        · obtain ⟨⟨r2, hr2⟩, hm2⟩ := ih s2 s' h
          exact ⟨⟨ConsoleEvent.FreeRTOS_CLIProcessCommand cmd :: (r1 ++ r2), by rw [hr2, hr1]; simp⟩,
            hm2.trans hm1⟩
        · injection h with h
          subst h
          exact ⟨⟨ConsoleEvent.FreeRTOS_CLIProcessCommand cmd :: r1, by rw [hr1]; simp⟩, hm1⟩

/-- In line editing every byte other than `'$'` is echoed before anything
else is done with it. -/
theorem line_editing_echo (s s' : ConsoleState σ) (b : Byte)
    (hmode : s.console_mode = CONSOLE_SENTENCE_MODE) (hb : b ≠ CH_DOLLAR)
    (h : vTaskConsole_char interp fuel s b = .ok s') :
    ∃ rest, s'.trace = s.trace ++ ConsoleEvent.USART2_Send [b] :: rest ∧
      (b ≠ CH_CR → rest = []) := by
  unfold vTaskConsole_char at h
  simp only [hb, if_false, hmode, if_true] at h
  unfold handle_console_input at h
  by_cases hcr : b = CH_CR
  · simp only [hcr, if_true] at h
    split at h
    · simp at h
    · rename_i s2 hs2
      injection h with h
      subst h
      obtain ⟨⟨r, hr⟩, -⟩ := cliLoop_trace interp fuel _ s2 hs2
      refine ⟨ConsoleEvent.USART2_Send [CH_LF] :: r, ?_, fun hne => absurd hcr hne⟩
      simp only [] 
      rw [hr]
      simp [Console_Send_Char, hcr]
  · simp only [hcr, if_false] at h
    refine ⟨[], ?_, fun _ => rfl⟩
    split_ifs at h
    · injection h with h; subst h; rfl
    · unfold writeAt at h
      split_ifs at h
      injection h with h; subst h; rfl
    · injection h with h; subst h; rfl
    · unfold writeAt at h
      split_ifs at h
      injection h with h; subst h; rfl
    · injection h with h; subst h; rfl

end ConsoleClaims2

section WellFormed

variable {σ : Type} (interp : Interpreter σ) (fuel : Nat)

theorem Console_Send_nmea (s s' : ConsoleState σ) (str : List Byte) (block : Bool)
    (h : Console_Send s str block = .ok s') :
    s'.nmea_sentence = s.nmea_sentence ∧ s'.nmea_sent_len = s.nmea_sent_len := by
  unfold Console_Send at h
  cases hc : cStr str with
  | error e => simp [hc] at h
  | ok text =>
    simp only [hc] at h
    injection h with h
    subst h
    cases block <;> exact ⟨rfl, rfl⟩

theorem cliLoop_nmea (n : Nat) :
    ∀ s s' : ConsoleState σ, cliLoop interp n s = .ok s' →
      s'.nmea_sentence = s.nmea_sentence ∧ s'.nmea_sent_len = s.nmea_sent_len := by
  induction n with
  | zero => intro s s' h; simp [cliLoop] at h
  | succ k ih =>
    intro s s' h
    unfold cliLoop at h
    cases hc : cStr s.pcInputString with
    | error e => simp [hc] at h
    | ok cmd =>
      simp only [hc] at h
      split at h
      · simp at h
      · rename_i s2 hs2
        obtain ⟨a1, a2⟩ := Console_Send_nmea _ s2 _ _ hs2
        simp only [] at a1 a2
        split_ifs at h
        · obtain ⟨b1, b2⟩ := ih s2 s' h
          exact ⟨b1.trans a1, b2.trans a2⟩
        · injection h with h
          subst h
          exact ⟨a1, a2⟩

theorem consoleWF_init (cli0 : σ) (wiredBuf wiredQue : Bool) (opcode : Byte) :
    ConsoleWF (vTaskConsole_init cli0 wiredBuf wiredQue opcode) :=
  ⟨by simp [vTaskConsole_init], by simp [vTaskConsole_init], by simp [vTaskConsole_init],
   by simp [vTaskConsole_init, MAX_NMEA_SENTENCE]⟩

theorem handle_console_input_WF (s s' : ConsoleState σ) (b : Byte) (hwf : ConsoleWF s)
    (h : handle_console_input interp fuel s b = .ok s') : ConsoleWF s' := by
  obtain ⟨w1, w2, w3, w4⟩ := hwf
  unfold handle_console_input at h
  by_cases hcr : b = CH_CR
  · simp only [hcr, if_true] at h
    split at h
    · simp at h
    · rename_i s2 hs2
      injection h with h
      subst h
      obtain ⟨n1, n2⟩ := cliLoop_nmea interp fuel _ s2 hs2
      exact ⟨by simp, by simp, by rw [show _ = s2.nmea_sentence from rfl, n1]; exact w3,
        by rw [show _ = s2.nmea_sent_len from rfl, n2]; exact w4⟩
  · simp only [hcr, if_false] at h
    split_ifs at h
    · injection h with h; subst h; exact ⟨w1, w2, w3, w4⟩
    · unfold writeAt at h
      split_ifs at h
      injection h with h; subst h
      exact ⟨by simpa [Console_Send_Char] using w1,
        by simp only [Console_Send_Char]; omega, w3, w4⟩
    · injection h with h; subst h; exact ⟨w1, w2, w3, w4⟩
    · unfold writeAt at h
      split_ifs at h
      injection h with h; subst h
      refine ⟨by simpa [Console_Send_Char] using w1, ?_, w3, w4⟩
      simp only [Console_Send_Char] at *
      omega
    · injection h with h; subst h; exact ⟨w1, w2, w3, w4⟩

/-- The sizes and index ranges of `ConsoleWF` are kept by every byte the
task consumes. -/
theorem consoleWF_step (s s' : ConsoleState σ) (b : Byte) (hwf : ConsoleWF s)
    (h : vTaskConsole_step interp fuel s (consoleByteMsg b) = .ok s') : ConsoleWF s' := by
  rw [step_byte] at h
  by_cases hcap : s.console_mode = NMEA_SENTENCE_MODE ∨ b = CH_DOLLAR
  · obtain ⟨f1, f2, f3, f4, -, -⟩ := char_capture interp fuel s s' b hcap h
    exact ⟨f1 ▸ hwf.input_len, f2 ▸ hwf.index_le, f3 ▸ hwf.nmea_len, f4⟩
  · have hd : b ≠ CH_DOLLAR := fun hb => hcap (Or.inr hb)
    have hm : s.console_mode ≠ NMEA_SENTENCE_MODE := fun hb => hcap (Or.inl hb)
    unfold vTaskConsole_char at h
    simp only [hd, if_false, hm] at h
    split_ifs at h
    · exact handle_console_input_WF interp fuel s s' b hwf h
    · injection h with h; subst h; exact hwf

end WellFormed

section ConsoleClaimTheorems

variable {σ : Type} (interp : Interpreter σ) (fuel : Nat)

/-- C2, as stated, fails: the bytes `'a'`, backspace contain no `'\r'`,
`'\n'` or `'$'`, yet after typing them into a fresh session the cursor is 0
and the first two slots of the input buffer are 0, not the two bytes. -/
theorem typed_bytes_backspace_counterexample :
    ([97, 8] : List Byte).length ≤ 100 ∧
    (∀ b ∈ ([97, 8] : List Byte), b ≠ CH_CR ∧ b ≠ CH_LF ∧ b ≠ CH_DOLLAR) ∧
    ∃ s', consoleFeed silentInterp 0 (vTaskConsole_init () true true 0) [97, 8] = .ok s' ∧
      s'.cInputIndex = 0 ∧ s'.pcInputString.take 2 = [0, 0] ∧
      s'.pcInputString.take 2 ≠ [97, 8] :=
  ⟨by decide, by decide, _, rfl, rfl, rfl, by decide⟩

/-- C2 (amended): for every byte sequence of length at most 100 that
contains no `'\r'`, `'\n'`, `'$'`, backspace (0x08) or delete (0x7F),
feeding it to a freshly started console session succeeds, leaves the first
`|seq|` slots of the input buffer equal to the sequence with the cursor at
`|seq|`, and the bytes sent to the console transport while doing so are
exactly the bytes of the sequence, one send each, in order. -/
theorem typed_bytes_fill_buffer (cli0 : σ) (wiredBuf wiredQue : Bool) (opcode : Byte)
    (seq : List Byte) (hlen : seq.length ≤ 100)
    (hseq : ∀ b ∈ seq, b ≠ CH_CR ∧ b ≠ CH_LF ∧ b ≠ CH_DOLLAR ∧ b ≠ CH_BS ∧ b ≠ CH_DEL) :
    ∃ s', consoleFeed interp fuel (vTaskConsole_init cli0 wiredBuf wiredQue opcode) seq = .ok s' ∧
      s'.pcInputString.take seq.length = seq ∧
      s'.cInputIndex = seq.length ∧
      s'.trace = (vTaskConsole_init cli0 wiredBuf wiredQue opcode).trace ++
        seq.map (fun b => ConsoleEvent.USART2_Send [b]) := by
  have hord : ∀ b ∈ seq, ordinaryByte b := fun b hb =>
    ⟨(hseq b hb).2.2.1, (hseq b hb).1, (hseq b hb).2.1, (hseq b hb).2.2.2.1, (hseq b hb).2.2.2.2⟩
  have h := feed_ordinary interp fuel seq (vTaskConsole_init cli0 wiredBuf wiredQue opcode) rfl
    (by simp [vTaskConsole_init]) (by simpa [vTaskConsole_init, MAX_INPUT_LENGTH] using hlen) hord
  refine ⟨_, h, ?_, ?_, rfl⟩
  · simp [vTaskConsole_init]
  · simp [vTaskConsole_init]

/-- Witness for C2 (amended): the four bytes of "help". -/
theorem typed_bytes_fill_buffer_witness :
    ∃ s', consoleFeed silentInterp 0 (vTaskConsole_init () true true 0) [104, 101, 108, 112] =
        .ok s' ∧
      s'.pcInputString.take 4 = [104, 101, 108, 112] ∧
      s'.cInputIndex = 4 ∧
      s'.trace = (vTaskConsole_init () true true 0).trace ++
        [104, 101, 108, 112].map (fun b => ConsoleEvent.USART2_Send [b]) :=
  typed_bytes_fill_buffer silentInterp 0 () true true 0 [104, 101, 108, 112] (by decide)
    (by decide)

/-- C6, as stated, fails: a freshly started session that receives `'$'`
sends nothing on the console transport (the trace is unchanged), and the
byte `'G'` received next, during the capture, is not sent either. -/
theorem capture_not_echoed_counterexample :
    ∃ s1 s2, vTaskConsole_step silentInterp 0 (vTaskConsole_init () true true 0)
        (consoleByteMsg CH_DOLLAR) = .ok s1 ∧
      s1.trace = (vTaskConsole_init () true true 0).trace ∧
      s1.console_mode = NMEA_SENTENCE_MODE ∧
      vTaskConsole_step silentInterp 0 s1 (consoleByteMsg 71) = .ok s2 ∧
      s2.trace = (vTaskConsole_init () true true 0).trace :=
  ⟨_, _, rfl, rfl, rfl, rfl, rfl⟩

/-- C6 (amended): when the console task has consumed a byte, then, if the
session was in LineEditing mode and the byte is not `'$'`, the first thing
sent on the console transport is that byte (and for a byte other than
`'\r'` nothing else is sent); if the session was in SentenceCapture mode or
the byte is `'$'`, nothing at all is sent on the console transport. -/
theorem echo_only_in_line_editing (s s' : ConsoleState σ) (b : Byte)
    (h : vTaskConsole_step interp fuel s (consoleByteMsg b) = .ok s') :
    (s.console_mode = CONSOLE_SENTENCE_MODE ∧ b ≠ CH_DOLLAR →
      ∃ rest, s'.trace = s.trace ++ ConsoleEvent.USART2_Send [b] :: rest ∧
        (b ≠ CH_CR → rest = [])) ∧
    (s.console_mode = NMEA_SENTENCE_MODE ∨ b = CH_DOLLAR →
      ∃ new, s'.trace = s.trace ++ new ∧ ∀ d, ConsoleEvent.USART2_Send d ∉ new) := by
  rw [step_byte] at h
  refine ⟨fun hm => line_editing_echo interp fuel s s' b hm.1 hm.2 h, fun hcap => ?_⟩
  obtain ⟨-, -, -, -, f5, f6⟩ := char_capture interp fuel s s' b hcap h
  by_cases hlf : b = CH_LF
  · rcases (f6 hlf).2 with ht | ⟨d, m, ht⟩
    · exact ⟨[], by simp [ht], by simp⟩
    · exact ⟨_, ht, by simp⟩
  · exact ⟨[], by simp [(f5 hlf).2], by simp⟩

/-- Witness for C6 (amended): the byte `'h'` typed into a fresh session. -/
theorem echo_only_in_line_editing_witness :
    (CONSOLE_SENTENCE_MODE = CONSOLE_SENTENCE_MODE ∧ (104 : Byte) ≠ CH_DOLLAR →
      ∃ rest, (Console_Send_Char
          { (vTaskConsole_init () true true 0) with
            cInputIndex := 1
            pcInputString := (List.replicate MAX_INPUT_LENGTH 0).set 0 104 } 104).trace =
        (vTaskConsole_init () true true 0).trace ++ ConsoleEvent.USART2_Send [104] :: rest ∧
        ((104 : Byte) ≠ CH_CR → rest = [])) ∧
    (CONSOLE_SENTENCE_MODE = NMEA_SENTENCE_MODE ∨ (104 : Byte) = CH_DOLLAR →
      ∃ new, (Console_Send_Char
          { (vTaskConsole_init () true true 0) with
            cInputIndex := 1
            pcInputString := (List.replicate MAX_INPUT_LENGTH 0).set 0 104 } 104).trace =
        (vTaskConsole_init () true true 0).trace ++ new ∧
        ∀ d, ConsoleEvent.USART2_Send d ∉ new) :=
  echo_only_in_line_editing silentInterp 0 (vTaskConsole_init () true true 0) _ 104 rfl

/-- C8: in LineEditing mode a backspace (0x08) or delete (0x7F) byte is
always handled; with the cursor at 0 the input buffer and the cursor are
unchanged; with the cursor above 0 the cursor decreases by exactly one, the
slot at the new cursor position becomes 0 and every other slot of the
input buffer is unchanged. -/
theorem backspace_delete_frame (s : ConsoleState σ) (b : Byte) (hwf : ConsoleWF s)
    (hmode : s.console_mode = CONSOLE_SENTENCE_MODE) (hb : b = CH_BS ∨ b = CH_DEL) :
    ∃ s', vTaskConsole_step interp fuel s (consoleByteMsg b) = .ok s' ∧
      s'.console_mode = CONSOLE_SENTENCE_MODE ∧
      (s.cInputIndex = 0 → s'.pcInputString = s.pcInputString ∧ s'.cInputIndex = 0) ∧
      (0 < s.cInputIndex →
        s'.cInputIndex + 1 = s.cInputIndex ∧
        s'.pcInputString.length = MAX_INPUT_LENGTH ∧
        s'.pcInputString[s'.cInputIndex]? = some 0 ∧
        ∀ i, i ≠ s'.cInputIndex → s'.pcInputString[i]? = s.pcInputString[i]?) := by
  have hdol : b ≠ CH_DOLLAR := by rcases hb with h | h <;> simp [h, CH_BS, CH_DEL, CH_DOLLAR]
  have hcr : b ≠ CH_CR := by rcases hb with h | h <;> simp [h, CH_BS, CH_DEL, CH_CR]
  have hlf : b ≠ CH_LF := by rcases hb with h | h <;> simp [h, CH_BS, CH_DEL, CH_LF]
  have hi := hwf.index_le
  have hl := hwf.input_len
  by_cases hc : s.cInputIndex = 0
  · refine ⟨Console_Send_Char s b, ?_, hmode, fun _ => ⟨rfl, hc⟩, fun h => by omega⟩
    simp [vTaskConsole_char, hdol, hmode, handle_console_input, hcr, hlf, hb,
      Console_Send_Char, hc]
  · have hpos : 0 < s.cInputIndex := Nat.pos_of_ne_zero hc
    have hlt : s.cInputIndex - 1 < MAX_INPUT_LENGTH := by omega
    have hstep : vTaskConsole_step interp fuel s (consoleByteMsg b) =
        .ok { s with cInputIndex := s.cInputIndex - 1,
                     pcInputString := s.pcInputString.set (s.cInputIndex - 1) 0,
                     trace := s.trace ++ [ConsoleEvent.USART2_Send [b]] } := by
      simp [vTaskConsole_char, hdol, hmode, handle_console_input, hcr, hlf, hb,
        Console_Send_Char, hpos, writeAt, hlt]
    refine ⟨_, hstep, hmode, fun h => by omega, fun _ => ⟨?_, ?_, ?_, ?_⟩⟩
    · simp only []; omega
    · simp [hl]
    · simp only [List.getElem?_set]
      simp
      omega
    · intro i hne
      simp only [] at hne
      simp [List.getElem?_set, Ne.symm hne]

/-- Witness for C8: a backspace in a fresh session. -/
theorem backspace_delete_frame_witness :
    ∃ s', vTaskConsole_step silentInterp 0 (vTaskConsole_init () true true 0)
        (consoleByteMsg 8) = .ok s' ∧
      s'.console_mode = CONSOLE_SENTENCE_MODE ∧
      ((vTaskConsole_init () true true 0).cInputIndex = 0 →
        s'.pcInputString = (vTaskConsole_init () true true 0).pcInputString ∧
        s'.cInputIndex = 0) ∧
      (0 < (vTaskConsole_init () true true 0).cInputIndex →
        s'.cInputIndex + 1 = (vTaskConsole_init () true true 0).cInputIndex ∧
        s'.pcInputString.length = MAX_INPUT_LENGTH ∧
        s'.pcInputString[s'.cInputIndex]? = some 0 ∧
        ∀ i, i ≠ s'.cInputIndex →
          s'.pcInputString[i]? = (vTaskConsole_init () true true 0).pcInputString[i]?) :=
  backspace_delete_frame silentInterp 0 (vTaskConsole_init () true true 0) 8
    ⟨by simp [vTaskConsole_init], by simp [vTaskConsole_init],
     by simp [vTaskConsole_init], by simp [vTaskConsole_init, MAX_NMEA_SENTENCE]⟩
    rfl (Or.inl rfl)

/-- C10: for every console session state (input buffer `b`, cursor `c`)
and every byte sequence made of `'$'`, bytes other than `'\n'` and a final
`'\n'`, once the sequence has been consumed the session is in LineEditing
mode, the input buffer and the cursor are still `b` and `c`, and the next
ordinary byte is stored in slot `c` of that buffer (which has such a slot
when `c < 100`) with the cursor moving to `c + 1`. -/
theorem suspended_line_kept (s s' : ConsoleState σ) (body : List Byte)
    (hbody : CH_LF ∉ body)
    (hrun : consoleFeed interp fuel s (CH_DOLLAR :: body ++ [CH_LF]) = .ok s') :
    s'.console_mode = CONSOLE_SENTENCE_MODE ∧
    s'.pcInputString = s.pcInputString ∧
    s'.cInputIndex = s.cInputIndex ∧
    ∀ x, ordinaryByte x → s.cInputIndex < MAX_INPUT_LENGTH →
      ∃ s'', vTaskConsole_step interp fuel s' (consoleByteMsg x) = .ok s'' ∧
        s''.pcInputString = s.pcInputString.set s.cInputIndex x ∧
        s''.cInputIndex = s.cInputIndex + 1 ∧
        s''.console_mode = CONSOLE_SENTENCE_MODE := by
  rw [List.cons_append] at hrun
  obtain ⟨s1, h1, hrest⟩ := feed_cons_inv interp fuel s s' CH_DOLLAR (body ++ [CH_LF]) hrun
  obtain ⟨a1, a2, -, -, a5, -⟩ := char_capture interp fuel s s1 CH_DOLLAR (Or.inr rfl) h1
  have hm1 := (a5 (by simp [CH_DOLLAR, CH_LF])).1
  obtain ⟨s2, h2, hlast⟩ := feed_append_inv interp fuel body [CH_LF] s1 s' hrest
  obtain ⟨b1, b2, b3, -⟩ := feed_capture_body interp fuel body hbody s1 s2 hm1 h2
  obtain ⟨s3, h3, hnil⟩ := feed_cons_inv interp fuel s2 s' CH_LF [] hlast
  simp at hnil
  subst hnil
  obtain ⟨c1, c2, -, -, -, c6⟩ := char_capture interp fuel s2 s3 CH_LF (Or.inl b1) h3
  have hmode := (c6 rfl).1
  have hbuf : s3.pcInputString = s.pcInputString := c1.trans (b2.trans a1)
  have hidx : s3.cInputIndex = s.cInputIndex := c2.trans (b3.trans a2)
  refine ⟨hmode, hbuf, hidx, fun x hx hroom => ?_⟩
  refine ⟨_, char_line_ordinary interp fuel s3 x hmode hx (by rw [hidx]; exact hroom), ?_, ?_, hmode⟩
  · simp [hbuf, hidx]
  · simp [hidx]

/-- Witness for C10: "he" typed, then "$G\n" captured. -/
theorem suspended_line_kept_witness :
    ∃ s s', consoleFeed silentInterp 0 (vTaskConsole_init () true true 0) [104, 101] = .ok s ∧
      consoleFeed silentInterp 0 s (CH_DOLLAR :: [71] ++ [CH_LF]) = .ok s' ∧
      s'.console_mode = CONSOLE_SENTENCE_MODE ∧
      s'.pcInputString = s.pcInputString ∧
      s'.cInputIndex = s.cInputIndex ∧
      ∀ x, ordinaryByte x → s.cInputIndex < MAX_INPUT_LENGTH →
        ∃ s'', vTaskConsole_step silentInterp 0 s' (consoleByteMsg x) = .ok s'' ∧
          s''.pcInputString = s.pcInputString.set s.cInputIndex x ∧
          s''.cInputIndex = s.cInputIndex + 1 ∧
          s''.console_mode = CONSOLE_SENTENCE_MODE :=
  ⟨_, _, rfl, rfl, suspended_line_kept silentInterp 0 _ _ [71] (by decide) rfl⟩

end ConsoleClaimTheorems

section SentenceRelay

variable {σ : Type} (interp : Interpreter σ) (fuel : Nat)

/-- The sentence marker restarts the capture, whatever the mode was. -/
theorem char_dollar (s : ConsoleState σ) :
    vTaskConsole_char interp fuel s CH_DOLLAR =
      .ok { s with console_mode := NMEA_SENTENCE_MODE,
                   nmea_sentence := s.nmea_sentence.set 0 CH_DOLLAR,
                   nmea_sent_len := 1 } := by
  simp [vTaskConsole_char, NMEA_SENTENCE_MODE, CONSOLE_SENTENCE_MODE, writeAt,
    MAX_NMEA_SENTENCE, nmeaAfterStore, CH_DOLLAR, CH_LF, nmeaWrap]

/-- A byte other than `'$'` and `'\n'` during a capture, away from the end
of the capture buffer: stored, nothing else. -/
theorem char_capture_store (s : ConsoleState σ) (b : Byte)
    (hmode : s.console_mode = NMEA_SENTENCE_MODE) (hd : b ≠ CH_DOLLAR) (hlf : b ≠ CH_LF)
    (hroom : s.nmea_sent_len + 1 < MAX_NMEA_SENTENCE) :
    vTaskConsole_char interp fuel s b =
      .ok { s with nmea_sentence := s.nmea_sentence.set s.nmea_sent_len b,
                   nmea_sent_len := s.nmea_sent_len + 1 } := by
  have h1 : s.nmea_sent_len < MAX_NMEA_SENTENCE := by omega
  have hmod : (s.nmea_sent_len + 1) % 256 = s.nmea_sent_len + 1 := by
    simp only [MAX_NMEA_SENTENCE] at hroom; omega
  have hw : ¬ (s.nmea_sent_len + 1 ≥ MAX_NMEA_SENTENCE) := by omega
  simp [vTaskConsole_char, hd, hmode, NMEA_SENTENCE_MODE, CONSOLE_SENTENCE_MODE, writeAt, h1,
    hmod, nmeaAfterStore, hlf, nmeaWrap, hw]

/-- The terminating `'\n'` with both GPS handles set and room for the
terminator. -/
theorem char_capture_lf (s : ConsoleState σ)
    (hmode : s.console_mode = NMEA_SENTENCE_MODE)
    (hbuf : s.gps_task_cir_buf = true) (hque : s.gps_task_queue = true)
    (hroom : s.nmea_sent_len + 1 < MAX_NMEA_SENTENCE) :
    vTaskConsole_char interp fuel s CH_LF =
      .ok (nmeaWrap
        { s with
          console_mode := CONSOLE_SENTENCE_MODE,
          nmea_sentence := (s.nmea_sentence.set s.nmea_sent_len CH_LF).set (s.nmea_sent_len + 1) 0,
          nmea_sent_len := s.nmea_sent_len + 2,
          store := s.store ++
            [((s.nmea_sentence.set s.nmea_sent_len CH_LF).set (s.nmea_sent_len + 1) 0).take
              (s.nmea_sent_len + 2)],
          trace := s.trace ++
            [ConsoleEvent.cir_put_data
              (((s.nmea_sentence.set s.nmea_sent_len CH_LF).set (s.nmea_sent_len + 1) 0).take
                (s.nmea_sent_len + 2)),
             ConsoleEvent.xQueueSend
               { src_id := SrcId.CONSOLE_USART_SRC_ID, msg_opcode := s.gps_msg_opcode,
                 msg_data := s.store.length, msg_len := s.nmea_sent_len + 2 }] }) := by
  have h1 : s.nmea_sent_len < MAX_NMEA_SENTENCE := by omega
  have hmod : (s.nmea_sent_len + 1) % 256 = s.nmea_sent_len + 1 := by
    simp only [MAX_NMEA_SENTENCE] at hroom; omega
  have hmod2 : (s.nmea_sent_len + 1 + 1) % 256 = s.nmea_sent_len + 2 := by
    simp only [MAX_NMEA_SENTENCE] at hroom; omega
  have hne : CH_LF ≠ CH_DOLLAR := by simp [CH_LF, CH_DOLLAR]
  simp [vTaskConsole_char, hne, hmode, NMEA_SENTENCE_MODE, CONSOLE_SENTENCE_MODE, writeAt, h1,
    hmod, nmeaAfterStore, hroom, hmod2, hbuf, hque, cir_put_data]

/-- The terminating `'\n'` arriving as the 100th byte of a capture: the
terminator would be written at index 100 of `nmea_sentence[100]`. -/
theorem char_capture_lf_overflow (s : ConsoleState σ)
    (hmode : s.console_mode = NMEA_SENTENCE_MODE)
    (hlen : s.nmea_sent_len + 1 = MAX_NMEA_SENTENCE) :
    vTaskConsole_char interp fuel s CH_LF = .error .outOfBounds := by
  have h1 : s.nmea_sent_len < MAX_NMEA_SENTENCE := by omega
  have hmod : (s.nmea_sent_len + 1) % 256 = s.nmea_sent_len + 1 := by
    simp only [MAX_NMEA_SENTENCE] at hlen; omega
  have hne : CH_LF ≠ CH_DOLLAR := by simp [CH_LF, CH_DOLLAR]
  have h2 : ¬ (s.nmea_sent_len + 1 < MAX_NMEA_SENTENCE) := by omega
  simp [vTaskConsole_char, hne, hmode, NMEA_SENTENCE_MODE, CONSOLE_SENTENCE_MODE, writeAt, h1,
    hmod, nmeaAfterStore, h2]

/-- Bytes other than `'$'` and `'\n'` accumulate in the capture buffer as
long as they fit. -/
theorem feed_capture_store (body : List Byte) :
    ∀ s : ConsoleState σ, s.console_mode = NMEA_SENTENCE_MODE →
      s.nmea_sentence.length = MAX_NMEA_SENTENCE →
      s.nmea_sent_len + body.length < MAX_NMEA_SENTENCE →
      CH_DOLLAR ∉ body → CH_LF ∉ body →
      consoleFeed interp fuel s body =
        .ok { s with nmea_sentence := s.nmea_sentence.take s.nmea_sent_len ++ body ++
                       s.nmea_sentence.drop (s.nmea_sent_len + body.length),
                     nmea_sent_len := s.nmea_sent_len + body.length } := by
  induction body with
  | nil => intro s _ _ _ _ _; simp
  | cons x xs ih =>
    intro s hmode hlen hfit hd hlf
    have hxd : x ≠ CH_DOLLAR := fun h => hd (h ▸ List.mem_cons_self x xs)
    have hxl : x ≠ CH_LF := fun h => hlf (h ▸ List.mem_cons_self x xs)
    simp only [List.length_cons] at hfit
    rw [feed_cons_ok interp fuel s _ x xs
      (char_capture_store interp fuel s x hmode hxd hxl (by omega))]
    refine (ih _ ?_ ?_ ?_ ?_ ?_).trans ?_
    · exact hmode
    · simpa using hlen
    · simp only []; omega
    · exact fun h => hd (List.mem_cons_of_mem x h)
    · exact fun h => hlf (List.mem_cons_of_mem x h)
    · have h1 : (s.nmea_sentence.set s.nmea_sent_len x).take (s.nmea_sent_len + 1) =
          s.nmea_sentence.take s.nmea_sent_len ++ [x] :=
        take_set_succ _ _ _ (by omega)
      simp [h1, Nat.add_assoc, Nat.add_comm 1]
      exact drop_set_succ _ _ _ _ (by omega)

theorem take_two_sets (l : List Byte) (n : Nat) (a b : Byte) (h : n + 1 < l.length) :
    ((l.set n a).set (n + 1) b).take (n + 2) = l.take n ++ [a, b] := by
  have h1 : ((l.set n a).set (n + 1) b).take (n + 1 + 1) = (l.set n a).take (n + 1) ++ [b] :=
    take_set_succ _ _ _ (by simpa using h)
  rw [show n + 2 = n + 1 + 1 from rfl, h1, take_set_succ _ _ _ (by omega)]
  simp

/-- Positive part of C1: a sentence `'$' body '\n'` of at most 99 bytes, with
no other `'$'` or `'\n'`, fed to a console whose GPS handles are set, is
deposited with a 0 terminator, announced by one message carrying the
reference of the deposit and the length `|sentence| + 1`, and the session
ends in line editing. -/
theorem sentence_forwarded (s : ConsoleState σ) (body : List Byte)
    (hwf : s.nmea_sentence.length = MAX_NMEA_SENTENCE)
    (hbuf : s.gps_task_cir_buf = true) (hque : s.gps_task_queue = true)
    (hd : CH_DOLLAR ∉ body) (hlf : CH_LF ∉ body)
    (hlen : (CH_DOLLAR :: body ++ [CH_LF]).length ≤ 99) :
    ∃ s', consoleFeed interp fuel s (CH_DOLLAR :: body ++ [CH_LF]) = .ok s' ∧
      s'.trace = s.trace ++
        [ConsoleEvent.cir_put_data (CH_DOLLAR :: body ++ [CH_LF] ++ [0]),
         ConsoleEvent.xQueueSend
           { src_id := SrcId.CONSOLE_USART_SRC_ID, msg_opcode := s.gps_msg_opcode,
             msg_data := s.store.length,
             msg_len := (CH_DOLLAR :: body ++ [CH_LF]).length + 1 }] ∧
      cir_read s'.store s.store.length = some (CH_DOLLAR :: body ++ [CH_LF] ++ [0]) ∧
      s'.store.length = s.store.length + 1 ∧
      s'.console_mode = CONSOLE_SENTENCE_MODE := by
  simp only [List.cons_append, List.length_cons, List.length_append, List.length_singleton,
    List.length_nil] at hlen
  have hpos : 0 < s.nmea_sentence.length := by rw [hwf]; simp [MAX_NMEA_SENTENCE]
  have hcap := feed_capture_store interp fuel body
    { s with console_mode := NMEA_SENTENCE_MODE,
             nmea_sentence := s.nmea_sentence.set 0 CH_DOLLAR,
             nmea_sent_len := 1 }
    rfl (by simpa using hwf) (by simp only [MAX_NMEA_SENTENCE]; omega) hd hlf
  have hfeed1 :=
    (feed_cons_ok interp fuel s _ CH_DOLLAR body (char_dollar interp fuel s)).trans hcap
  have hstep := char_capture_lf interp fuel
    { s with console_mode := NMEA_SENTENCE_MODE,
             nmea_sentence := (s.nmea_sentence.set 0 CH_DOLLAR).take 1 ++ body ++
               (s.nmea_sentence.set 0 CH_DOLLAR).drop (1 + body.length),
             nmea_sent_len := 1 + body.length }
    rfl hbuf hque (by simp only [MAX_NMEA_SENTENCE]; omega)
  have hall :=
    (feed_append_ok interp fuel s _ (CH_DOLLAR :: body) [CH_LF] hfeed1).trans
      ((feed_cons_ok interp fuel _ _ CH_LF [] hstep).trans (feed_nil interp fuel _))
  have htake1 : (s.nmea_sentence.set 0 CH_DOLLAR).take 1 = [CH_DOLLAR] := by
    have := take_set_succ s.nmea_sentence 0 CH_DOLLAR hpos
    simpa using this
  have hdata : (((((s.nmea_sentence.set 0 CH_DOLLAR).take 1 ++ body ++
        (s.nmea_sentence.set 0 CH_DOLLAR).drop (1 + body.length)).set (1 + body.length) CH_LF).set
        (1 + body.length + 1) 0).take (1 + body.length + 2)) =
      CH_DOLLAR :: body ++ [CH_LF] ++ [0] := by
    rw [take_two_sets _ _ _ _ (by
      simp only [List.length_append, List.length_take, List.length_drop, List.length_set, hwf,
        MAX_NMEA_SENTENCE]; omega)]
    rw [htake1]
    have : ([CH_DOLLAR] ++ body).length = 1 + body.length := by simp; omega
    rw [← this, List.take_left]
    simp
  refine ⟨_, hall, ?_, ?_, ?_, ?_⟩
  · simp only [nmeaWrap_trace, hdata]
    simp
    omega
  · simp only [nmeaWrap_store, hdata, cir_read]
    simp
  · simp only [nmeaWrap_store]
    simp
  · simp only [nmeaWrap_console_mode]

end SentenceRelay

section Boundary

variable {σ : Type} (interp : Interpreter σ) (fuel : Nat)

/-- A capture whose `'\n'` is the 100th byte: the terminator does not fit. -/
theorem sentence_full_overflows (s : ConsoleState σ) (body : List Byte)
    (hwf : s.nmea_sentence.length = MAX_NMEA_SENTENCE)
    (hd : CH_DOLLAR ∉ body) (hlf : CH_LF ∉ body) (hlen : body.length = 98) :
    consoleFeed interp fuel s (CH_DOLLAR :: body ++ [CH_LF]) = .error .outOfBounds := by
  have hcap := feed_capture_store interp fuel body
    { s with console_mode := NMEA_SENTENCE_MODE,
             nmea_sentence := s.nmea_sentence.set 0 CH_DOLLAR,
             nmea_sent_len := 1 }
    rfl (by simpa using hwf) (by simp only [MAX_NMEA_SENTENCE]; omega) hd hlf
  have hfeed1 :=
    (feed_cons_ok interp fuel s _ CH_DOLLAR body (char_dollar interp fuel s)).trans hcap
  have hstep := char_capture_lf_overflow interp fuel
    { s with console_mode := NMEA_SENTENCE_MODE,
             nmea_sentence := (s.nmea_sentence.set 0 CH_DOLLAR).take 1 ++ body ++
               (s.nmea_sentence.set 0 CH_DOLLAR).drop (1 + body.length),
             nmea_sent_len := 1 + body.length }
    rfl (by simp only [MAX_NMEA_SENTENCE]; omega)
  exact (feed_append_ok interp fuel s _ (CH_DOLLAR :: body) [CH_LF] hfeed1).trans
    (feed_cons_error interp fuel _ CH_LF [] _ hstep)

/-- C1, defect of the code: the sentence made of `'$'`, 98 times `'A'` and
`'\n'` has length 100, begins with `'$'`, ends with `'\n'` and holds no
other `'$'` or `'\n'`; fed to a freshly started console whose GPS handles
are set, its `'\n'` is stored at index 99 and the 0 terminator would be
written at index 100 of `nmea_sentence[100]`: the run has no defined
result, nothing is deposited and no message is sent. -/
theorem sentence_100_bytes_overflows (cli0 : σ) (opcode : Byte) :
    (CH_DOLLAR :: List.replicate 98 65 ++ [CH_LF]).length = 100 ∧
    consoleFeed interp fuel (vTaskConsole_init cli0 true true opcode)
      (CH_DOLLAR :: List.replicate 98 65 ++ [CH_LF]) = .error .outOfBounds := by
  refine ⟨by simp, sentence_full_overflows interp fuel _ _ ?_ ?_ ?_ ?_⟩
  · simp [vTaskConsole_init]
  · simp [CH_DOLLAR]
  · simp [CH_LF]
  · simp

/-- The witness of the spec for C1: "$GPTEST*00\n" (11 bytes) typed into a
freshly started console whose GPS handles are set is deposited with its
terminator, announced with length 12, and the session is back in line
editing. -/
theorem sentence_GPTEST_forwarded :
    ∃ s', consoleFeed silentInterp 0 (vTaskConsole_init () true true 0) sentenceGPTEST = .ok s' ∧
      s'.trace = (vTaskConsole_init () true true 0).trace ++
        [ConsoleEvent.cir_put_data (sentenceGPTEST ++ [0]),
         ConsoleEvent.xQueueSend
           { src_id := SrcId.CONSOLE_USART_SRC_ID, msg_opcode := 0, msg_data := 0,
             msg_len := 12 }] ∧
      cir_read s'.store 0 = some (sentenceGPTEST ++ [0]) ∧
      s'.console_mode = CONSOLE_SENTENCE_MODE :=
  ⟨_, rfl, rfl, rfl, rfl⟩

theorem cliLoop_unterminated (s : ConsoleState σ) (h : 0 ∉ s.pcInputString) :
    cliLoop interp (fuel + 1) s = .error .outOfBounds := by
  unfold cliLoop
  simp [cStr_unterminated _ h]

/-- C7, defect of the code: after 100 times `'a'` typed into a freshly
started session the input buffer holds these 100 bytes and no NUL, so it
holds no C string; on `'\r'` the interpreter is handed this buffer as its
command string, which reads past `pcInputString[100]`: the run has no
defined result, whatever the interpreter is. -/
theorem line_100_bytes_unterminated (cli0 : σ) (wiredBuf wiredQue : Bool) (opcode : Byte) :
    (∃ s, consoleFeed interp (fuel + 1) (vTaskConsole_init cli0 wiredBuf wiredQue opcode)
        (List.replicate 100 97) = .ok s ∧
      s.pcInputString = List.replicate 100 97 ∧ s.cInputIndex = 100 ∧
      cStr s.pcInputString = .error .outOfBounds) ∧
    consoleFeed interp (fuel + 1) (vTaskConsole_init cli0 wiredBuf wiredQue opcode)
      (List.replicate 100 97 ++ [CH_CR]) = .error .outOfBounds := by
  have hord : ∀ b ∈ List.replicate 100 97, ordinaryByte b := by
    intro b hb
    rw [List.eq_of_mem_replicate hb]
    simp [ordinaryByte, CH_DOLLAR, CH_CR, CH_LF, CH_BS, CH_DEL]
  have h := feed_ordinary interp (fuel + 1) (List.replicate 100 97)
    (vTaskConsole_init cli0 wiredBuf wiredQue opcode) rfl
    (by simp [vTaskConsole_init]) (by simp [vTaskConsole_init, MAX_INPUT_LENGTH]) hord
  have hbuf : (vTaskConsole_init cli0 wiredBuf wiredQue opcode).pcInputString.take
        (vTaskConsole_init cli0 wiredBuf wiredQue opcode).cInputIndex ++
        List.replicate 100 97 ++
        (vTaskConsole_init cli0 wiredBuf wiredQue opcode).pcInputString.drop
          ((vTaskConsole_init cli0 wiredBuf wiredQue opcode).cInputIndex +
            (List.replicate 100 97).length) = List.replicate 100 97 := by
    simp [vTaskConsole_init, MAX_INPUT_LENGTH]
  rw [hbuf] at h
  have hnul : (0 : Byte) ∉ List.replicate 100 97 := by
    intro hmem
    have := List.eq_of_mem_replicate hmem
    simp at this
  refine ⟨⟨_, h, rfl, by simp [vTaskConsole_init], cStr_unterminated _ hnul⟩, ?_⟩
  rw [feed_append_ok interp (fuel + 1) _ _ _ [CH_CR] h]
  apply feed_cons_error
  have hne : CH_CR ≠ CH_DOLLAR := by simp [CH_CR, CH_DOLLAR]
  simp only [vTaskConsole_char, hne, if_false]
  simp only [vTaskConsole_init, if_true, handle_console_input]
  rw [cliLoop_unterminated interp fuel _ (by simp [Console_Send_Char])]

end Boundary

section Dispatch

variable {σ : Type} (interp : Interpreter σ)

theorem cStr_of_mem (buf : List Byte) (h : 0 ∈ buf) :
    cStr buf = .ok (buf.takeWhile (fun b => b != 0)) := by
  simp [cStr, h]

/-- One round of the interpreter loop on a state whose input buffer holds
the C string `cmd` and whose interpreter answers with a terminated chunk. -/
theorem cliLoop_round (fuel : Nat) (cmd : List Byte) (s : ConsoleState σ)
    (hcmd : cStr s.pcInputString = .ok cmd)
    (hterm : 0 ∈ (interp s.cli cmd s.pcOutputString).2.1) :
    cliLoop interp (fuel + 1) s =
      if (interp s.cli cmd s.pcOutputString).2.2 then
        cliLoop interp fuel
          { s with cli := (interp s.cli cmd s.pcOutputString).1,
                   pcOutputString := (interp s.cli cmd s.pcOutputString).2.1,
                   trace := s.trace ++ roundEvents interp cmd 0 s.cli s.pcOutputString }
      else
        .ok { s with cli := (interp s.cli cmd s.pcOutputString).1,
                     pcOutputString := (interp s.cli cmd s.pcOutputString).2.1,
                     trace := s.trace ++ roundEvents interp cmd 0 s.cli s.pcOutputString } := by
  rw [cliLoop]
  simp only [hcmd, Console_Send, cStr_of_mem _ hterm, if_true, roundEvents]
  simp [List.append_assoc]

/-- The interpreter loop when the interpreter signals completion in round
`k`: rounds `0 .. k` are performed, in order, and the loop ends. -/
theorem cliLoop_rounds (cmd : List Byte) (k : Nat) :
    ∀ (fuel : Nat) (s : ConsoleState σ), k < fuel →
      cStr s.pcInputString = .ok cmd →
      (∀ i, i ≤ k → 0 ∈ (interpRound interp cmd i s.cli s.pcOutputString).2.1) →
      (∀ i, i < k → (interpRound interp cmd i s.cli s.pcOutputString).2.2 = true) →
      (interpRound interp cmd k s.cli s.pcOutputString).2.2 = false →
      cliLoop interp fuel s =
        .ok { s with cli := (interpRound interp cmd k s.cli s.pcOutputString).1,
                     pcOutputString := (interpRound interp cmd k s.cli s.pcOutputString).2.1,
                     trace := s.trace ++ roundEvents interp cmd k s.cli s.pcOutputString } := by
  induction k with
  | zero =>
    intro fuel s hfuel hcmd hterm _ hdone
    obtain ⟨f, rfl⟩ : ∃ f, fuel = f + 1 := ⟨fuel - 1, by omega⟩
    have h0 := hterm 0 (le_refl 0)
    simp only [interpRound] at h0 hdone
    rw [cliLoop_round interp f cmd s hcmd h0]
    simp [hdone, interpRound]
  | succ k ih =>
    intro fuel s hfuel hcmd hterm hmore hdone
    obtain ⟨f, rfl⟩ : ∃ f, fuel = f + 1 := ⟨fuel - 1, by omega⟩
    have h0 := hterm 0 (Nat.zero_le _)
    have hm0 := hmore 0 (Nat.succ_pos k)
    simp only [interpRound] at h0 hm0
    rw [cliLoop_round interp f cmd s hcmd h0]
    simp only [hm0, if_true]
    refine (ih f _ (by omega) ?_ ?_ ?_ ?_).trans ?_
    · exact hcmd
    · intro i hi
      exact hterm (i + 1) (by omega)
    · intro i hi
      exact hmore (i + 1) (by omega)
    · exact hdone
    · simp [interpRound, roundEvents, List.append_assoc]

/-- The `'\r'` step of the line editor once the interpreter loop has ended. -/
theorem char_line_cr (fuel : Nat) (s s2 : ConsoleState σ)
    (hmode : s.console_mode = CONSOLE_SENTENCE_MODE)
    (hloop : cliLoop interp fuel (Console_Send_Char (Console_Send_Char s CH_CR) CH_LF) = .ok s2) :
    vTaskConsole_char interp fuel s CH_CR =
      .ok { s2 with cInputIndex := 0, pcInputString := List.replicate MAX_INPUT_LENGTH 0 } := by
  have hne : CH_CR ≠ CH_DOLLAR := by simp [CH_CR, CH_DOLLAR]
  simp only [vTaskConsole_char, hne, if_false, hmode, if_true, handle_console_input, hloop]

/-- Positive part of C7: a line of at most 99 non-NUL ordinary bytes typed
into a freshly started session and followed by `'\r'`.  If the interpreter,
called again and again with that line, answers with terminated chunks,
asks for more in rounds `0 .. k-1` and signals completion in round `k`,
then (with fuel for more than `k` rounds) the console echoes the line,
`'\r'` and a `'\n'`, performs rounds `0 .. k` (call with exactly the line,
send the chunk, await the transfer), and ends with an all-zero input
buffer and the cursor at 0. -/
theorem line_dispatched (fuel : Nat) (cli0 : σ) (wiredBuf wiredQue : Bool) (opcode : Byte)
    (line : List Byte) (k : Nat) (hlen : line.length ≤ 99)
    (hline : ∀ b ∈ line, b ≠ 0 ∧ ordinaryByte b) (hfuel : k < fuel)
    (hterm : ∀ i, i ≤ k →
      0 ∈ (interpRound interp line i cli0 (List.replicate MAX_OUTPUT_LENGTH 0)).2.1)
    (hmore : ∀ i, i < k →
      (interpRound interp line i cli0 (List.replicate MAX_OUTPUT_LENGTH 0)).2.2 = true)
    (hdone : (interpRound interp line k cli0 (List.replicate MAX_OUTPUT_LENGTH 0)).2.2 = false) :
    ∃ s', consoleFeed interp fuel (vTaskConsole_init cli0 wiredBuf wiredQue opcode)
        (line ++ [CH_CR]) = .ok s' ∧
      s'.pcInputString = List.replicate MAX_INPUT_LENGTH 0 ∧
      s'.cInputIndex = 0 ∧
      s'.console_mode = CONSOLE_SENTENCE_MODE ∧
      s'.trace = (vTaskConsole_init cli0 wiredBuf wiredQue opcode).trace ++
        line.map (fun b => ConsoleEvent.USART2_Send [b]) ++
        [ConsoleEvent.USART2_Send [CH_CR], ConsoleEvent.USART2_Send [CH_LF]] ++
        roundEvents interp line k cli0 (List.replicate MAX_OUTPUT_LENGTH 0) := by
  have h := feed_ordinary interp fuel line (vTaskConsole_init cli0 wiredBuf wiredQue opcode) rfl
    (by simp [vTaskConsole_init])
    (by simp only [vTaskConsole_init, MAX_INPUT_LENGTH]; omega) (fun b hb => (hline b hb).2)
  have hbuf : (vTaskConsole_init cli0 wiredBuf wiredQue opcode).pcInputString.take
        (vTaskConsole_init cli0 wiredBuf wiredQue opcode).cInputIndex ++ line ++
        (vTaskConsole_init cli0 wiredBuf wiredQue opcode).pcInputString.drop
          ((vTaskConsole_init cli0 wiredBuf wiredQue opcode).cInputIndex + line.length) =
      line ++ 0 :: List.replicate (99 - line.length) 0 := by
    have hdrop : (List.replicate MAX_INPUT_LENGTH (0 : Byte)).drop line.length =
        0 :: List.replicate (99 - line.length) 0 := by
      have : MAX_INPUT_LENGTH - line.length = (99 - line.length) + 1 := by
        simp only [MAX_INPUT_LENGTH]; omega
      rw [List.drop_replicate, this, List.replicate_succ]
    simp only [vTaskConsole_init, List.take_zero, List.nil_append, Nat.zero_add, hdrop]
  rw [hbuf] at h
  have hnul : (0 : Byte) ∉ line := fun hm => (hline 0 hm).1 rfl
  have hcmd : cStr (line ++ 0 :: List.replicate (99 - line.length) 0) = .ok line :=
    cStr_terminated line _ hnul
  obtain ⟨s1, hs1, p1, p2, p3, p4, p5⟩ : ∃ s1 : ConsoleState σ,
      consoleFeed interp fuel (vTaskConsole_init cli0 wiredBuf wiredQue opcode) line = .ok s1 ∧
      s1.pcInputString = line ++ 0 :: List.replicate (99 - line.length) 0 ∧
      s1.cli = cli0 ∧ s1.pcOutputString = List.replicate MAX_OUTPUT_LENGTH 0 ∧
      s1.console_mode = CONSOLE_SENTENCE_MODE ∧
      s1.trace = (vTaskConsole_init cli0 wiredBuf wiredQue opcode).trace ++
        line.map (fun b => ConsoleEvent.USART2_Send [b]) :=
    ⟨_, h, rfl, rfl, rfl, rfl, rfl⟩
  have hloop := cliLoop_rounds interp line k fuel
    (Console_Send_Char (Console_Send_Char s1 CH_CR) CH_LF) hfuel
    (by simpa [Console_Send_Char, p1] using hcmd)
    (by simpa [Console_Send_Char, p2, p3] using hterm)
    (by simpa [Console_Send_Char, p2, p3] using hmore)
    (by simpa [Console_Send_Char, p2, p3] using hdone)
  have hstep := char_line_cr interp fuel s1 _ p4 hloop
  refine ⟨_, (feed_append_ok interp fuel _ _ line [CH_CR] hs1).trans
    ((feed_cons_ok interp fuel _ _ CH_CR [] hstep).trans (feed_nil interp fuel _)),
    rfl, rfl, ?_, ?_⟩
  · simp [Console_Send_Char, p4]
  · simp [Console_Send_Char, p2, p3, p5, List.append_assoc]

/-- The witness of the spec for C7: "help\r" typed into a freshly started
session, with an interpreter that answers in two rounds. -/
theorem help_dispatched :
    ∃ s', consoleFeed twoRoundInterp 2 (vTaskConsole_init 0 true true 0)
        ([104, 101, 108, 112] ++ [CH_CR]) = .ok s' ∧
      s'.pcInputString = List.replicate MAX_INPUT_LENGTH 0 ∧
      s'.cInputIndex = 0 ∧
      s'.console_mode = CONSOLE_SENTENCE_MODE ∧
      s'.trace = (vTaskConsole_init 0 true true 0).trace ++
        [104, 101, 108, 112].map (fun b => ConsoleEvent.USART2_Send [b]) ++
        [ConsoleEvent.USART2_Send [CH_CR], ConsoleEvent.USART2_Send [CH_LF]] ++
        [ConsoleEvent.FreeRTOS_CLIProcessCommand [104, 101, 108, 112],
         ConsoleEvent.USART2_Send [97], ConsoleEvent.USART2_Wait,
         ConsoleEvent.FreeRTOS_CLIProcessCommand [104, 101, 108, 112],
         ConsoleEvent.USART2_Send [98], ConsoleEvent.USART2_Wait] :=
  line_dispatched twoRoundInterp 2 0 true true 0 [104, 101, 108, 112] 1 (by decide)
    (by decide) (by decide) (by decide) (by decide) (by decide)

end Dispatch

/-! ## Properties of the GPS supervisor -/

section GpsNormalForms

variable (env : GpsEnv)

@[simp] theorem gpsEmit_trace (s : GpsState) (es : List GpsEvent) :
    (gpsEmit s es).trace = s.trace ++ es := rfl

theorem GPS_Send_Disp_Status_eq (s : GpsState) (op : display_opcode_types) :
    GPS_Send_Disp_Status env s op = { s with trace := s.trace ++ dispEvents env op } := by
  unfold GPS_Send_Disp_Status dispEvents gpsEmit
  split_ifs <;> simp

theorem GPS_Valid_Position_eq (s : GpsState) :
    GPS_Valid_Position env s =
      { s with GPS_fix_found := 1,
               xGPSValidTimer := xTimerStart s.xGPSValidTimer,
               trace := s.trace ++ validPositionEvents env s.GPS_fix_found } := by
  unfold GPS_Valid_Position validPositionEvents
  simp only [GPS_Send_Disp_Status_eq, gpsEmit]
  split_ifs <;> simp

theorem Handle_NMEA_String_eq (s : GpsState) (str : Nat → Byte) (len : Nat)
    (ret : OGN_Parse_res_t) :
    Handle_NMEA_String env s str len ret =
      { s with GPS_fix_found := fixAfter ret s.GPS_fix_found,
               xGPSValidTimer := validTimerAfter ret s.xGPSValidTimer,
               trace := s.trace ++ handleEvents env s.debug_mode s.GPS_fix_found str len ret } := by
  unfold Handle_NMEA_String handleEvents fixAfter validTimerAfter
  simp only [GPS_Valid_Position_eq, gpsEmit]
  split_ifs <;> simp

theorem gpsBugCheck_eq (s : GpsState) (str : Nat → Byte) (len : Nat) :
    gpsBugCheck s str len = { s with trace := s.trace ++ bugEvents str len } := by
  unfold gpsBugCheck bugEvents GPS_Reset gpsEmit
  split_ifs <;> simp_all

theorem startWdg_eq (s : GpsState) :
    startWdg s =
      { s with xGPSWdgTimer := xTimerStart s.xGPSWdgTimer,
               trace := s.trace ++ wdgStartEvents s } := by
  unfold startWdg wdgStartEvents gpsEmit
  split_ifs with h
  · simp
  · cases hw : s.xGPSWdgTimer with
    | none =>
      cases s
      simp only [] at hw
      simp [xTimerStart, hw]
    | some t => simp [hw] at h

/-- A hardware sentence: watchdog restart, optional dump, defect heuristic,
parser. -/
theorem vTaskGPS_step_gps (s : GpsState) (msg : task_message) (str : Nat → Byte)
    (ret : OGN_Parse_res_t) (h : msg.src_id = SrcId.GPS_USART_SRC_ID) :
    vTaskGPS_step env s msg str ret =
      { s with GPS_fix_found := fixAfter ret s.GPS_fix_found,
               xGPSValidTimer := validTimerAfter ret s.xGPSValidTimer,
               xGPSWdgTimer := xTimerStart s.xGPSWdgTimer,
               trace := s.trace ++ (wdgStartEvents s ++ dumpEvents env str ++
                 bugEvents str msg.msg_len ++
                 handleEvents env s.debug_mode s.GPS_fix_found str (msg.msg_len % 256) ret) } := by
  unfold vTaskGPS_step
  simp only [h, Handle_NMEA_String_eq, gpsBugCheck_eq, startWdg_eq, dumpEvents, gpsEmit]
  split_ifs <;> simp

/-- A sentence relayed by the console: parser only. -/
theorem vTaskGPS_step_console (s : GpsState) (msg : task_message) (str : Nat → Byte)
    (ret : OGN_Parse_res_t) (h : msg.src_id = SrcId.CONSOLE_USART_SRC_ID) :
    vTaskGPS_step env s msg str ret =
      { s with GPS_fix_found := fixAfter ret s.GPS_fix_found,
               xGPSValidTimer := validTimerAfter ret s.xGPSValidTimer,
               trace := s.trace ++
                 handleEvents env s.debug_mode s.GPS_fix_found str (msg.msg_len % 256) ret } := by
  unfold vTaskGPS_step
  simp only [h, Handle_NMEA_String_eq]

theorem vTaskGPS_step_other (s : GpsState) (msg : task_message) (str : Nat → Byte)
    (ret : OGN_Parse_res_t) (n : Nat) (h : msg.src_id = SrcId.OTHER n) :
    vTaskGPS_step env s msg str ret = s := by
  unfold vTaskGPS_step
  simp only [h]

theorem vGPSValidTimerCallback_eq (s : GpsState) :
    vGPSValidTimerCallback env s =
      { s with GPS_fix_found := 0, trace := s.trace ++ fixLostEvents env } := by
  unfold vGPSValidTimerCallback fixLostEvents
  simp only [GPS_Send_Disp_Status_eq, gpsEmit]
  simp

theorem vGPSWdgTimerCallback_eq (s : GpsState) :
    vGPSWdgTimerCallback s =
      { s with halted := true,
               trace := s.trace ++
                 [GpsEvent.Console_Send (ConsoleText.literal textWdgReset) true,
                  GpsEvent.NVIC_SystemReset] } := by
  unfold vGPSWdgTimerCallback gpsEmit
  simp

end GpsNormalForms

section GpsCounts

theorem textFixFound_ne_bug : (textFixFound == textGpsBug) = false := by decide
theorem textFixLost_ne_bug : (textFixLost == textGpsBug) = false := by decide
theorem textFixFound_ne_lost : (textFixFound == textFixLost) = false := by decide
theorem textFixLost_ne_found : (textFixLost == textFixFound) = false := by decide
theorem textGpsBug_ne_lost : (textGpsBug == textFixLost) = false := by decide
theorem textGpsBug_ne_found : (textGpsBug == textFixFound) = false := by decide
theorem textWdgReset_ne_lost : (textWdgReset == textFixLost) = false := by decide
theorem textWdgReset_ne_found : (textWdgReset == textFixFound) = false := by decide
theorem textWdgReset_ne_bug : (textWdgReset == textGpsBug) = false := by decide
theorem pcShutDown_ne_reset : (pcShutDownNMEA == pcResetNMEA) = false := by decide

@[simp] theorem count_isColdReset_wdgStartEvents (s : GpsState) :
    List.countP isColdReset (wdgStartEvents s) = 0 := by
  simp only [wdgStartEvents, validPositionEvents, dispEvents]
  split_ifs <;>
    simp_all [List.countP_cons, isColdReset, textFixFound_ne_bug, textFixLost_ne_bug,
      textFixFound_ne_lost, textFixLost_ne_found, textGpsBug_ne_lost, textGpsBug_ne_found]

@[simp] theorem count_isBugWarning_wdgStartEvents (s : GpsState) :
    List.countP isBugWarning (wdgStartEvents s) = 0 := by
  simp only [wdgStartEvents, validPositionEvents, dispEvents]
  split_ifs <;>
    simp_all [List.countP_cons, isBugWarning, textFixFound_ne_bug, textFixLost_ne_bug,
      textFixFound_ne_lost, textFixLost_ne_found, textGpsBug_ne_lost, textGpsBug_ne_found]

@[simp] theorem count_isParse_wdgStartEvents (s : GpsState) :
    List.countP isParse (wdgStartEvents s) = 0 := by
  simp only [wdgStartEvents, validPositionEvents, dispEvents]
  split_ifs <;>
    simp_all [List.countP_cons, isParse, textFixFound_ne_bug, textFixLost_ne_bug,
      textFixFound_ne_lost, textFixLost_ne_found, textGpsBug_ne_lost, textGpsBug_ne_found]

@[simp] theorem count_isFixLostConsole_wdgStartEvents (s : GpsState) :
    List.countP isFixLostConsole (wdgStartEvents s) = 0 := by
  simp only [wdgStartEvents, validPositionEvents, dispEvents]
  split_ifs <;>
    simp_all [List.countP_cons, isFixLostConsole, textFixFound_ne_bug, textFixLost_ne_bug,
      textFixFound_ne_lost, textFixLost_ne_found, textGpsBug_ne_lost, textGpsBug_ne_found]

@[simp] theorem count_isFixLostDisplay_wdgStartEvents (s : GpsState) :
    List.countP isFixLostDisplay (wdgStartEvents s) = 0 := by
  simp only [wdgStartEvents, validPositionEvents, dispEvents]
  split_ifs <;>
    simp_all [List.countP_cons, isFixLostDisplay, textFixFound_ne_bug, textFixLost_ne_bug,
      textFixFound_ne_lost, textFixLost_ne_found, textGpsBug_ne_lost, textGpsBug_ne_found]

@[simp] theorem count_isFixFoundConsole_wdgStartEvents (s : GpsState) :
    List.countP isFixFoundConsole (wdgStartEvents s) = 0 := by
  simp only [wdgStartEvents, validPositionEvents, dispEvents]
  split_ifs <;>
    simp_all [List.countP_cons, isFixFoundConsole, textFixFound_ne_bug, textFixLost_ne_bug,
      textFixFound_ne_lost, textFixLost_ne_found, textGpsBug_ne_lost, textGpsBug_ne_found]

@[simp] theorem count_isFixFoundDisplay_wdgStartEvents (s : GpsState) :
    List.countP isFixFoundDisplay (wdgStartEvents s) = 0 := by
  simp only [wdgStartEvents, validPositionEvents, dispEvents]
  split_ifs <;>
    simp_all [List.countP_cons, isFixFoundDisplay, textFixFound_ne_bug, textFixLost_ne_bug,
      textFixFound_ne_lost, textFixLost_ne_found, textGpsBug_ne_lost, textGpsBug_ne_found]

@[simp] theorem count_isDeviceReset_wdgStartEvents (s : GpsState) :
    List.countP isDeviceReset (wdgStartEvents s) = 0 := by
  simp only [wdgStartEvents, validPositionEvents, dispEvents]
  split_ifs <;>
    simp_all [List.countP_cons, isDeviceReset, textFixFound_ne_bug, textFixLost_ne_bug,
      textFixFound_ne_lost, textFixLost_ne_found, textGpsBug_ne_lost, textGpsBug_ne_found]

@[simp] theorem count_isWdgStart_wdgStartEvents (s : GpsState) :
    List.countP isWdgStart (wdgStartEvents s) = if s.xGPSWdgTimer.isSome then 1 else 0 := by
  simp only [wdgStartEvents, validPositionEvents, dispEvents]
  split_ifs <;>
    simp_all [List.countP_cons, isWdgStart, textFixFound_ne_bug, textFixLost_ne_bug,
      textFixFound_ne_lost, textFixLost_ne_found, textGpsBug_ne_lost, textGpsBug_ne_found]

@[simp] theorem count_isValidStart_wdgStartEvents (s : GpsState) :
    List.countP isValidStart (wdgStartEvents s) = 0 := by
  simp only [wdgStartEvents, validPositionEvents, dispEvents]
  split_ifs <;>
    simp_all [List.countP_cons, isValidStart, textFixFound_ne_bug, textFixLost_ne_bug,
      textFixFound_ne_lost, textFixLost_ne_found, textGpsBug_ne_lost, textGpsBug_ne_found]

@[simp] theorem count_isColdReset_dumpEvents (env : GpsEnv) (str : Nat → Byte) :
    List.countP isColdReset (dumpEvents env str) = 0 := by
  simp only [dumpEvents, validPositionEvents, dispEvents]
  split_ifs <;>
    simp_all [List.countP_cons, isColdReset, textFixFound_ne_bug, textFixLost_ne_bug,
      textFixFound_ne_lost, textFixLost_ne_found, textGpsBug_ne_lost, textGpsBug_ne_found]

@[simp] theorem count_isBugWarning_dumpEvents (env : GpsEnv) (str : Nat → Byte) :
    List.countP isBugWarning (dumpEvents env str) = 0 := by
  simp only [dumpEvents, validPositionEvents, dispEvents]
  split_ifs <;>
    simp_all [List.countP_cons, isBugWarning, textFixFound_ne_bug, textFixLost_ne_bug,
      textFixFound_ne_lost, textFixLost_ne_found, textGpsBug_ne_lost, textGpsBug_ne_found]

@[simp] theorem count_isParse_dumpEvents (env : GpsEnv) (str : Nat → Byte) :
    List.countP isParse (dumpEvents env str) = 0 := by
  simp only [dumpEvents, validPositionEvents, dispEvents]
  split_ifs <;>
    simp_all [List.countP_cons, isParse, textFixFound_ne_bug, textFixLost_ne_bug,
      textFixFound_ne_lost, textFixLost_ne_found, textGpsBug_ne_lost, textGpsBug_ne_found]

@[simp] theorem count_isFixLostConsole_dumpEvents (env : GpsEnv) (str : Nat → Byte) :
    List.countP isFixLostConsole (dumpEvents env str) = 0 := by
  simp only [dumpEvents, validPositionEvents, dispEvents]
  split_ifs <;>
    simp_all [List.countP_cons, isFixLostConsole, textFixFound_ne_bug, textFixLost_ne_bug,
      textFixFound_ne_lost, textFixLost_ne_found, textGpsBug_ne_lost, textGpsBug_ne_found]

@[simp] theorem count_isFixLostDisplay_dumpEvents (env : GpsEnv) (str : Nat → Byte) :
    List.countP isFixLostDisplay (dumpEvents env str) = 0 := by
  simp only [dumpEvents, validPositionEvents, dispEvents]
  split_ifs <;>
    simp_all [List.countP_cons, isFixLostDisplay, textFixFound_ne_bug, textFixLost_ne_bug,
      textFixFound_ne_lost, textFixLost_ne_found, textGpsBug_ne_lost, textGpsBug_ne_found]

@[simp] theorem count_isFixFoundConsole_dumpEvents (env : GpsEnv) (str : Nat → Byte) :
    List.countP isFixFoundConsole (dumpEvents env str) = 0 := by
  simp only [dumpEvents, validPositionEvents, dispEvents]
  split_ifs <;>
    simp_all [List.countP_cons, isFixFoundConsole, textFixFound_ne_bug, textFixLost_ne_bug,
      textFixFound_ne_lost, textFixLost_ne_found, textGpsBug_ne_lost, textGpsBug_ne_found]

@[simp] theorem count_isFixFoundDisplay_dumpEvents (env : GpsEnv) (str : Nat → Byte) :
    List.countP isFixFoundDisplay (dumpEvents env str) = 0 := by
  simp only [dumpEvents, validPositionEvents, dispEvents]
  split_ifs <;>
    simp_all [List.countP_cons, isFixFoundDisplay, textFixFound_ne_bug, textFixLost_ne_bug,
      textFixFound_ne_lost, textFixLost_ne_found, textGpsBug_ne_lost, textGpsBug_ne_found]

@[simp] theorem count_isDeviceReset_dumpEvents (env : GpsEnv) (str : Nat → Byte) :
    List.countP isDeviceReset (dumpEvents env str) = 0 := by
  simp only [dumpEvents, validPositionEvents, dispEvents]
  split_ifs <;>
    simp_all [List.countP_cons, isDeviceReset, textFixFound_ne_bug, textFixLost_ne_bug,
      textFixFound_ne_lost, textFixLost_ne_found, textGpsBug_ne_lost, textGpsBug_ne_found]

@[simp] theorem count_isWdgStart_dumpEvents (env : GpsEnv) (str : Nat → Byte) :
    List.countP isWdgStart (dumpEvents env str) = 0 := by
  simp only [dumpEvents, validPositionEvents, dispEvents]
  split_ifs <;>
    simp_all [List.countP_cons, isWdgStart, textFixFound_ne_bug, textFixLost_ne_bug,
      textFixFound_ne_lost, textFixLost_ne_found, textGpsBug_ne_lost, textGpsBug_ne_found]

@[simp] theorem count_isValidStart_dumpEvents (env : GpsEnv) (str : Nat → Byte) :
    List.countP isValidStart (dumpEvents env str) = 0 := by
  simp only [dumpEvents, validPositionEvents, dispEvents]
  split_ifs <;>
    simp_all [List.countP_cons, isValidStart, textFixFound_ne_bug, textFixLost_ne_bug,
      textFixFound_ne_lost, textFixLost_ne_found, textGpsBug_ne_lost, textGpsBug_ne_found]

@[simp] theorem count_isColdReset_bugEvents (str : Nat → Byte) (msg_len : Nat) :
    List.countP isColdReset (bugEvents str msg_len) = if msg_len ≥ 6 ∧ str 0 = CH_DOLLAR ∧ str (msg_len - 5) ≠ CH_STAR then 1 else 0 := by
  simp only [bugEvents, validPositionEvents, dispEvents]
  split_ifs <;>
    simp_all [List.countP_cons, isColdReset, textFixFound_ne_bug, textFixLost_ne_bug,
      textFixFound_ne_lost, textFixLost_ne_found, textGpsBug_ne_lost, textGpsBug_ne_found]

@[simp] theorem count_isBugWarning_bugEvents (str : Nat → Byte) (msg_len : Nat) :
    List.countP isBugWarning (bugEvents str msg_len) = if msg_len ≥ 6 ∧ str 0 = CH_DOLLAR ∧ str (msg_len - 5) ≠ CH_STAR then 1 else 0 := by
  simp only [bugEvents, validPositionEvents, dispEvents]
  split_ifs <;>
    simp_all [List.countP_cons, isBugWarning, textFixFound_ne_bug, textFixLost_ne_bug,
      textFixFound_ne_lost, textFixLost_ne_found, textGpsBug_ne_lost, textGpsBug_ne_found]

@[simp] theorem count_isParse_bugEvents (str : Nat → Byte) (msg_len : Nat) :
    List.countP isParse (bugEvents str msg_len) = 0 := by
  simp only [bugEvents, validPositionEvents, dispEvents]
  split_ifs <;>
    simp_all [List.countP_cons, isParse, textFixFound_ne_bug, textFixLost_ne_bug,
      textFixFound_ne_lost, textFixLost_ne_found, textGpsBug_ne_lost, textGpsBug_ne_found]

@[simp] theorem count_isFixLostConsole_bugEvents (str : Nat → Byte) (msg_len : Nat) :
    List.countP isFixLostConsole (bugEvents str msg_len) = 0 := by
  simp only [bugEvents, validPositionEvents, dispEvents]
  split_ifs <;>
    simp_all [List.countP_cons, isFixLostConsole, textFixFound_ne_bug, textFixLost_ne_bug,
      textFixFound_ne_lost, textFixLost_ne_found, textGpsBug_ne_lost, textGpsBug_ne_found]

@[simp] theorem count_isFixLostDisplay_bugEvents (str : Nat → Byte) (msg_len : Nat) :
    List.countP isFixLostDisplay (bugEvents str msg_len) = 0 := by
  simp only [bugEvents, validPositionEvents, dispEvents]
  split_ifs <;>
    simp_all [List.countP_cons, isFixLostDisplay, textFixFound_ne_bug, textFixLost_ne_bug,
      textFixFound_ne_lost, textFixLost_ne_found, textGpsBug_ne_lost, textGpsBug_ne_found]

@[simp] theorem count_isFixFoundConsole_bugEvents (str : Nat → Byte) (msg_len : Nat) :
    List.countP isFixFoundConsole (bugEvents str msg_len) = 0 := by
  simp only [bugEvents, validPositionEvents, dispEvents]
  split_ifs <;>
    simp_all [List.countP_cons, isFixFoundConsole, textFixFound_ne_bug, textFixLost_ne_bug,
      textFixFound_ne_lost, textFixLost_ne_found, textGpsBug_ne_lost, textGpsBug_ne_found]

@[simp] theorem count_isFixFoundDisplay_bugEvents (str : Nat → Byte) (msg_len : Nat) :
    List.countP isFixFoundDisplay (bugEvents str msg_len) = 0 := by
  simp only [bugEvents, validPositionEvents, dispEvents]
  split_ifs <;>
    simp_all [List.countP_cons, isFixFoundDisplay, textFixFound_ne_bug, textFixLost_ne_bug,
      textFixFound_ne_lost, textFixLost_ne_found, textGpsBug_ne_lost, textGpsBug_ne_found]

@[simp] theorem count_isDeviceReset_bugEvents (str : Nat → Byte) (msg_len : Nat) :
    List.countP isDeviceReset (bugEvents str msg_len) = 0 := by
  simp only [bugEvents, validPositionEvents, dispEvents]
  split_ifs <;>
    simp_all [List.countP_cons, isDeviceReset, textFixFound_ne_bug, textFixLost_ne_bug,
      textFixFound_ne_lost, textFixLost_ne_found, textGpsBug_ne_lost, textGpsBug_ne_found]

@[simp] theorem count_isWdgStart_bugEvents (str : Nat → Byte) (msg_len : Nat) :
    List.countP isWdgStart (bugEvents str msg_len) = 0 := by
  simp only [bugEvents, validPositionEvents, dispEvents]
  split_ifs <;>
    simp_all [List.countP_cons, isWdgStart, textFixFound_ne_bug, textFixLost_ne_bug,
      textFixFound_ne_lost, textFixLost_ne_found, textGpsBug_ne_lost, textGpsBug_ne_found]

@[simp] theorem count_isValidStart_bugEvents (str : Nat → Byte) (msg_len : Nat) :
    List.countP isValidStart (bugEvents str msg_len) = 0 := by
  simp only [bugEvents, validPositionEvents, dispEvents]
  split_ifs <;>
    simp_all [List.countP_cons, isValidStart, textFixFound_ne_bug, textFixLost_ne_bug,
      textFixFound_ne_lost, textFixLost_ne_found, textGpsBug_ne_lost, textGpsBug_ne_found]

@[simp] theorem count_isColdReset_handleEvents (env : GpsEnv) (debug fix : Nat) (str : Nat → Byte) (len : Nat) (ret : OGN_Parse_res_t) :
    List.countP isColdReset (handleEvents env debug fix str len ret) = 0 := by
  simp only [handleEvents, validPositionEvents, dispEvents]
  split_ifs <;>
    simp_all [List.countP_cons, isColdReset, textFixFound_ne_bug, textFixLost_ne_bug,
      textFixFound_ne_lost, textFixLost_ne_found, textGpsBug_ne_lost, textGpsBug_ne_found]

@[simp] theorem count_isBugWarning_handleEvents (env : GpsEnv) (debug fix : Nat) (str : Nat → Byte) (len : Nat) (ret : OGN_Parse_res_t) :
    List.countP isBugWarning (handleEvents env debug fix str len ret) = 0 := by
  simp only [handleEvents, validPositionEvents, dispEvents]
  split_ifs <;>
    simp_all [List.countP_cons, isBugWarning, textFixFound_ne_bug, textFixLost_ne_bug,
      textFixFound_ne_lost, textFixLost_ne_found, textGpsBug_ne_lost, textGpsBug_ne_found]

@[simp] theorem count_isParse_handleEvents (env : GpsEnv) (debug fix : Nat) (str : Nat → Byte) (len : Nat) (ret : OGN_Parse_res_t) :
    List.countP isParse (handleEvents env debug fix str len ret) = 1 := by
  simp only [handleEvents, validPositionEvents, dispEvents]
  split_ifs <;>
    simp_all [List.countP_cons, isParse, textFixFound_ne_bug, textFixLost_ne_bug,
      textFixFound_ne_lost, textFixLost_ne_found, textGpsBug_ne_lost, textGpsBug_ne_found]

@[simp] theorem count_isFixLostConsole_handleEvents (env : GpsEnv) (debug fix : Nat) (str : Nat → Byte) (len : Nat) (ret : OGN_Parse_res_t) :
    List.countP isFixLostConsole (handleEvents env debug fix str len ret) = 0 := by
  simp only [handleEvents, validPositionEvents, dispEvents]
  split_ifs <;>
    simp_all [List.countP_cons, isFixLostConsole, textFixFound_ne_bug, textFixLost_ne_bug,
      textFixFound_ne_lost, textFixLost_ne_found, textGpsBug_ne_lost, textGpsBug_ne_found]

@[simp] theorem count_isFixLostDisplay_handleEvents (env : GpsEnv) (debug fix : Nat) (str : Nat → Byte) (len : Nat) (ret : OGN_Parse_res_t) :
    List.countP isFixLostDisplay (handleEvents env debug fix str len ret) = 0 := by
  simp only [handleEvents, validPositionEvents, dispEvents]
  split_ifs <;>
    simp_all [List.countP_cons, isFixLostDisplay, textFixFound_ne_bug, textFixLost_ne_bug,
      textFixFound_ne_lost, textFixLost_ne_found, textGpsBug_ne_lost, textGpsBug_ne_found]

@[simp] theorem count_isFixFoundConsole_handleEvents (env : GpsEnv) (debug fix : Nat) (str : Nat → Byte) (len : Nat) (ret : OGN_Parse_res_t) :
    List.countP isFixFoundConsole (handleEvents env debug fix str len ret) = if ret = OGN_Parse_res_t.OGN_PARSE_POS_VALID_CURRENT ∧ fix = 0 then 1 else 0 := by
  simp only [handleEvents, validPositionEvents, dispEvents]
  split_ifs <;>
    simp_all [List.countP_cons, isFixFoundConsole, textFixFound_ne_bug, textFixLost_ne_bug,
      textFixFound_ne_lost, textFixLost_ne_found, textGpsBug_ne_lost, textGpsBug_ne_found]

@[simp] theorem count_isFixFoundDisplay_handleEvents (env : GpsEnv) (debug fix : Nat) (str : Nat → Byte) (len : Nat) (ret : OGN_Parse_res_t) :
    List.countP isFixFoundDisplay (handleEvents env debug fix str len ret) = if ret = OGN_Parse_res_t.OGN_PARSE_POS_VALID_CURRENT ∧ fix = 0 ∧ env.Get_DisplayQue = true then 1 else 0 := by
  simp only [handleEvents, validPositionEvents, dispEvents]
  split_ifs <;>
    simp_all [List.countP_cons, isFixFoundDisplay, textFixFound_ne_bug, textFixLost_ne_bug,
      textFixFound_ne_lost, textFixLost_ne_found, textGpsBug_ne_lost, textGpsBug_ne_found]

@[simp] theorem count_isDeviceReset_handleEvents (env : GpsEnv) (debug fix : Nat) (str : Nat → Byte) (len : Nat) (ret : OGN_Parse_res_t) :
    List.countP isDeviceReset (handleEvents env debug fix str len ret) = 0 := by
  simp only [handleEvents, validPositionEvents, dispEvents]
  split_ifs <;>
    simp_all [List.countP_cons, isDeviceReset, textFixFound_ne_bug, textFixLost_ne_bug,
      textFixFound_ne_lost, textFixLost_ne_found, textGpsBug_ne_lost, textGpsBug_ne_found]

@[simp] theorem count_isWdgStart_handleEvents (env : GpsEnv) (debug fix : Nat) (str : Nat → Byte) (len : Nat) (ret : OGN_Parse_res_t) :
    List.countP isWdgStart (handleEvents env debug fix str len ret) = 0 := by
  simp only [handleEvents, validPositionEvents, dispEvents]
  split_ifs <;>
    simp_all [List.countP_cons, isWdgStart, textFixFound_ne_bug, textFixLost_ne_bug,
      textFixFound_ne_lost, textFixLost_ne_found, textGpsBug_ne_lost, textGpsBug_ne_found]

@[simp] theorem count_isValidStart_handleEvents (env : GpsEnv) (debug fix : Nat) (str : Nat → Byte) (len : Nat) (ret : OGN_Parse_res_t) :
    List.countP isValidStart (handleEvents env debug fix str len ret) = if ret = OGN_Parse_res_t.OGN_PARSE_POS_VALID_CURRENT then 1 else 0 := by
  simp only [handleEvents, validPositionEvents, dispEvents]
  split_ifs <;>
    simp_all [List.countP_cons, isValidStart, textFixFound_ne_bug, textFixLost_ne_bug,
      textFixFound_ne_lost, textFixLost_ne_found, textGpsBug_ne_lost, textGpsBug_ne_found]

@[simp] theorem count_isColdReset_fixLostEvents (env : GpsEnv) :
    List.countP isColdReset (fixLostEvents env) = 0 := by
  simp only [fixLostEvents, validPositionEvents, dispEvents]
  split_ifs <;>
    simp_all [List.countP_cons, isColdReset, textFixFound_ne_bug, textFixLost_ne_bug,
      textFixFound_ne_lost, textFixLost_ne_found, textGpsBug_ne_lost, textGpsBug_ne_found]

@[simp] theorem count_isBugWarning_fixLostEvents (env : GpsEnv) :
    List.countP isBugWarning (fixLostEvents env) = 0 := by
  simp only [fixLostEvents, validPositionEvents, dispEvents]
  split_ifs <;>
    simp_all [List.countP_cons, isBugWarning, textFixFound_ne_bug, textFixLost_ne_bug,
      textFixFound_ne_lost, textFixLost_ne_found, textGpsBug_ne_lost, textGpsBug_ne_found]

@[simp] theorem count_isParse_fixLostEvents (env : GpsEnv) :
    List.countP isParse (fixLostEvents env) = 0 := by
  simp only [fixLostEvents, validPositionEvents, dispEvents]
  split_ifs <;>
    simp_all [List.countP_cons, isParse, textFixFound_ne_bug, textFixLost_ne_bug,
      textFixFound_ne_lost, textFixLost_ne_found, textGpsBug_ne_lost, textGpsBug_ne_found]

@[simp] theorem count_isFixLostConsole_fixLostEvents (env : GpsEnv) :
    List.countP isFixLostConsole (fixLostEvents env) = 1 := by
  simp only [fixLostEvents, validPositionEvents, dispEvents]
  split_ifs <;>
    simp_all [List.countP_cons, isFixLostConsole, textFixFound_ne_bug, textFixLost_ne_bug,
      textFixFound_ne_lost, textFixLost_ne_found, textGpsBug_ne_lost, textGpsBug_ne_found]

@[simp] theorem count_isFixLostDisplay_fixLostEvents (env : GpsEnv) :
    List.countP isFixLostDisplay (fixLostEvents env) = if env.Get_DisplayQue = true then 1 else 0 := by
  simp only [fixLostEvents, validPositionEvents, dispEvents]
  split_ifs <;>
    simp_all [List.countP_cons, isFixLostDisplay, textFixFound_ne_bug, textFixLost_ne_bug,
      textFixFound_ne_lost, textFixLost_ne_found, textGpsBug_ne_lost, textGpsBug_ne_found]

@[simp] theorem count_isFixFoundConsole_fixLostEvents (env : GpsEnv) :
    List.countP isFixFoundConsole (fixLostEvents env) = 0 := by
  simp only [fixLostEvents, validPositionEvents, dispEvents]
  split_ifs <;>
    simp_all [List.countP_cons, isFixFoundConsole, textFixFound_ne_bug, textFixLost_ne_bug,
      textFixFound_ne_lost, textFixLost_ne_found, textGpsBug_ne_lost, textGpsBug_ne_found]

@[simp] theorem count_isFixFoundDisplay_fixLostEvents (env : GpsEnv) :
    List.countP isFixFoundDisplay (fixLostEvents env) = 0 := by
  simp only [fixLostEvents, validPositionEvents, dispEvents]
  split_ifs <;>
    simp_all [List.countP_cons, isFixFoundDisplay, textFixFound_ne_bug, textFixLost_ne_bug,
      textFixFound_ne_lost, textFixLost_ne_found, textGpsBug_ne_lost, textGpsBug_ne_found]

@[simp] theorem count_isDeviceReset_fixLostEvents (env : GpsEnv) :
    List.countP isDeviceReset (fixLostEvents env) = 0 := by
  simp only [fixLostEvents, validPositionEvents, dispEvents]
  split_ifs <;>
    simp_all [List.countP_cons, isDeviceReset, textFixFound_ne_bug, textFixLost_ne_bug,
      textFixFound_ne_lost, textFixLost_ne_found, textGpsBug_ne_lost, textGpsBug_ne_found]

@[simp] theorem count_isWdgStart_fixLostEvents (env : GpsEnv) :
    List.countP isWdgStart (fixLostEvents env) = 0 := by
  simp only [fixLostEvents, validPositionEvents, dispEvents]
  split_ifs <;>
    simp_all [List.countP_cons, isWdgStart, textFixFound_ne_bug, textFixLost_ne_bug,
      textFixFound_ne_lost, textFixLost_ne_found, textGpsBug_ne_lost, textGpsBug_ne_found]

@[simp] theorem count_isValidStart_fixLostEvents (env : GpsEnv) :
    List.countP isValidStart (fixLostEvents env) = 0 := by
  simp only [fixLostEvents, validPositionEvents, dispEvents]
  split_ifs <;>
    simp_all [List.countP_cons, isValidStart, textFixFound_ne_bug, textFixLost_ne_bug,
      textFixFound_ne_lost, textFixLost_ne_found, textGpsBug_ne_lost, textGpsBug_ne_found]

@[simp] theorem count_isColdReset_wdgReset :
    List.countP isColdReset [GpsEvent.Console_Send (ConsoleText.literal textWdgReset) true,
      GpsEvent.NVIC_SystemReset] = 0 := by
  simp [List.countP_cons, isColdReset, textWdgReset_ne_lost, textWdgReset_ne_found, textWdgReset_ne_bug]

@[simp] theorem count_isBugWarning_wdgReset :
    List.countP isBugWarning [GpsEvent.Console_Send (ConsoleText.literal textWdgReset) true,
      GpsEvent.NVIC_SystemReset] = 0 := by
  simp [List.countP_cons, isBugWarning, textWdgReset_ne_lost, textWdgReset_ne_found, textWdgReset_ne_bug]

@[simp] theorem count_isParse_wdgReset :
    List.countP isParse [GpsEvent.Console_Send (ConsoleText.literal textWdgReset) true,
      GpsEvent.NVIC_SystemReset] = 0 := by
  simp [List.countP_cons, isParse, textWdgReset_ne_lost, textWdgReset_ne_found, textWdgReset_ne_bug]

@[simp] theorem count_isFixLostConsole_wdgReset :
    List.countP isFixLostConsole [GpsEvent.Console_Send (ConsoleText.literal textWdgReset) true,
      GpsEvent.NVIC_SystemReset] = 0 := by
  simp [List.countP_cons, isFixLostConsole, textWdgReset_ne_lost, textWdgReset_ne_found, textWdgReset_ne_bug]

@[simp] theorem count_isFixLostDisplay_wdgReset :
    List.countP isFixLostDisplay [GpsEvent.Console_Send (ConsoleText.literal textWdgReset) true,
      GpsEvent.NVIC_SystemReset] = 0 := by
  simp [List.countP_cons, isFixLostDisplay, textWdgReset_ne_lost, textWdgReset_ne_found, textWdgReset_ne_bug]

@[simp] theorem count_isFixFoundConsole_wdgReset :
    List.countP isFixFoundConsole [GpsEvent.Console_Send (ConsoleText.literal textWdgReset) true,
      GpsEvent.NVIC_SystemReset] = 0 := by
  simp [List.countP_cons, isFixFoundConsole, textWdgReset_ne_lost, textWdgReset_ne_found, textWdgReset_ne_bug]

@[simp] theorem count_isFixFoundDisplay_wdgReset :
    List.countP isFixFoundDisplay [GpsEvent.Console_Send (ConsoleText.literal textWdgReset) true,
      GpsEvent.NVIC_SystemReset] = 0 := by
  simp [List.countP_cons, isFixFoundDisplay, textWdgReset_ne_lost, textWdgReset_ne_found, textWdgReset_ne_bug]

@[simp] theorem count_isDeviceReset_wdgReset :
    List.countP isDeviceReset [GpsEvent.Console_Send (ConsoleText.literal textWdgReset) true,
      GpsEvent.NVIC_SystemReset] = 1 := by
  simp [List.countP_cons, isDeviceReset, textWdgReset_ne_lost, textWdgReset_ne_found, textWdgReset_ne_bug]

@[simp] theorem count_isWdgStart_wdgReset :
    List.countP isWdgStart [GpsEvent.Console_Send (ConsoleText.literal textWdgReset) true,
      GpsEvent.NVIC_SystemReset] = 0 := by
  simp [List.countP_cons, isWdgStart, textWdgReset_ne_lost, textWdgReset_ne_found, textWdgReset_ne_bug]

@[simp] theorem count_isValidStart_wdgReset :
    List.countP isValidStart [GpsEvent.Console_Send (ConsoleText.literal textWdgReset) true,
      GpsEvent.NVIC_SystemReset] = 0 := by
  simp [List.countP_cons, isValidStart, textWdgReset_ne_lost, textWdgReset_ne_found, textWdgReset_ne_bug]

end GpsCounts

section GpsStepForms

variable (env : GpsEnv)

theorem gpsStep_halted (s : GpsState) (i : GpsInput) (h : s.halted = true) :
    gpsStep env s i = s := by
  simp [gpsStep, h]

theorem gpsRun_halted (inputs : List GpsInput) :
    ∀ s : GpsState, s.halted = true → gpsRun env s inputs = s := by
  induction inputs with
  | nil => intro s _; rfl
  | cons i rest ih =>
    intro s h
    simp only [gpsRun, List.foldl_cons, gpsStep_halted env s i h]
    exact ih s h

theorem gpsRun_cons (s : GpsState) (i : GpsInput) (rest : List GpsInput) :
    gpsRun env s (i :: rest) = gpsRun env (gpsStep env s i) rest := rfl

theorem gpsRun_append (s : GpsState) (a b : List GpsInput) :
    gpsRun env s (a ++ b) = gpsRun env (gpsRun env s a) b := by
  simp [gpsRun, List.foldl_append]

/-- Case analysis on one step of the system. -/
theorem gpsStep_cases (P : GpsInput → GpsState → Prop) (s : GpsState) (i : GpsInput)
    (hhalt : s.halted = true → P i s)
    (hgps : ∀ msg str ret, s.halted = false → msg.src_id = SrcId.GPS_USART_SRC_ID →
      P (GpsInput.message msg str ret)
        { s with GPS_fix_found := fixAfter ret s.GPS_fix_found,
                 xGPSValidTimer := validTimerAfter ret s.xGPSValidTimer,
                 xGPSWdgTimer := xTimerStart s.xGPSWdgTimer,
                 trace := s.trace ++ (wdgStartEvents s ++ dumpEvents env str ++
                   bugEvents str msg.msg_len ++
                   handleEvents env s.debug_mode s.GPS_fix_found str (msg.msg_len % 256) ret) })
    (hcon : ∀ msg str ret, s.halted = false → msg.src_id = SrcId.CONSOLE_USART_SRC_ID →
      P (GpsInput.message msg str ret)
        { s with GPS_fix_found := fixAfter ret s.GPS_fix_found,
                 xGPSValidTimer := validTimerAfter ret s.xGPSValidTimer,
                 trace := s.trace ++
                   handleEvents env s.debug_mode s.GPS_fix_found str (msg.msg_len % 256) ret })
    (hoth : ∀ msg str ret n, s.halted = false → msg.src_id = SrcId.OTHER n →
      P (GpsInput.message msg str ret) s)
    (hve : s.halted = false → timerActive s.xGPSValidTimer = true →
      P GpsInput.validTimerExpiry
        { s with xGPSValidTimer := timerStop s.xGPSValidTimer, GPS_fix_found := 0,
                 trace := s.trace ++ fixLostEvents env })
    (hve0 : s.halted = false → timerActive s.xGPSValidTimer = false →
      P GpsInput.validTimerExpiry s)
    (hwe : s.halted = false → timerActive s.xGPSWdgTimer = true →
      P GpsInput.wdgTimerExpiry
        { s with xGPSWdgTimer := timerStop s.xGPSWdgTimer, halted := true,
                 trace := s.trace ++
                   [GpsEvent.Console_Send (ConsoleText.literal textWdgReset) true,
                    GpsEvent.NVIC_SystemReset] })
    (hwe0 : s.halted = false → timerActive s.xGPSWdgTimer = false →
      P GpsInput.wdgTimerExpiry s)
    (hdbg : s.halted = false → P GpsInput.debugOn { s with debug_mode := 1 }) :
    P i (gpsStep env s i) := by
  cases hh : s.halted with
  | true => rw [gpsStep_halted env s i hh]; exact hhalt hh
  | false =>
    cases i with
    | message msg str ret =>
      have hstep : gpsStep env s (GpsInput.message msg str ret) =
          vTaskGPS_step env s msg str ret := by simp [gpsStep, hh]
      rw [hstep]
      cases hsrc : msg.src_id with
      | GPS_USART_SRC_ID =>
        rw [vTaskGPS_step_gps env s msg str ret hsrc]; exact hgps msg str ret hh hsrc
      | CONSOLE_USART_SRC_ID =>
        rw [vTaskGPS_step_console env s msg str ret hsrc]; exact hcon msg str ret hh hsrc
      | OTHER n =>
        rw [vTaskGPS_step_other env s msg str ret n hsrc]; exact hoth msg str ret n hh hsrc
    | validTimerExpiry =>
      cases ha : timerActive s.xGPSValidTimer with
      | true =>
        have hstep : gpsStep env s GpsInput.validTimerExpiry =
            { s with xGPSValidTimer := timerStop s.xGPSValidTimer, GPS_fix_found := 0,
                     trace := s.trace ++ fixLostEvents env } := by
          simp [gpsStep, hh, ha, vGPSValidTimerCallback_eq]
        rw [hstep]; exact hve hh ha
      | false =>
        have hstep : gpsStep env s GpsInput.validTimerExpiry = s := by simp [gpsStep, hh, ha]
        rw [hstep]; exact hve0 hh ha
    | wdgTimerExpiry =>
      cases ha : timerActive s.xGPSWdgTimer with
      | true =>
        have hstep : gpsStep env s GpsInput.wdgTimerExpiry =
            { s with xGPSWdgTimer := timerStop s.xGPSWdgTimer, halted := true,
                     trace := s.trace ++
                       [GpsEvent.Console_Send (ConsoleText.literal textWdgReset) true,
                        GpsEvent.NVIC_SystemReset] } := by
          simp [gpsStep, hh, ha, vGPSWdgTimerCallback_eq]
        rw [hstep]; exact hwe hh ha
      | false =>
        have hstep : gpsStep env s GpsInput.wdgTimerExpiry = s := by simp [gpsStep, hh, ha]
        rw [hstep]; exact hwe0 hh ha
    | debugOn =>
      have hstep : gpsStep env s GpsInput.debugOn = { s with debug_mode := 1 } := by
        simp [gpsStep, hh, GPS_Debug_on]
      rw [hstep]; exact hdbg hh

end GpsStepForms

section GpsStepFacts

variable (env : GpsEnv)

theorem timerActive_start_isSome (t : Option Timer) (h : t.isSome = true) :
    timerActive (xTimerStart t) = true := by
  cases t with
  | none => simp at h
  | some x => rfl

theorem timerActive_stop (t : Option Timer) : timerActive (timerStop t) = false := by
  cases t <;> rfl

theorem isSome_start (t : Option Timer) : (xTimerStart t).isSome = t.isSome := by
  cases t <;> rfl

theorem isSome_stop (t : Option Timer) : (timerStop t).isSome = t.isSome := by
  cases t <;> rfl

theorem isSome_validTimerAfter (ret : OGN_Parse_res_t) (t : Option Timer) :
    (validTimerAfter ret t).isSome = t.isSome := by
  unfold validTimerAfter
  split_ifs
  · exact isSome_start t
  · rfl

theorem isValidFix_message (msg : task_message) (str : Nat → Byte) (ret : OGN_Parse_res_t) :
    isValidFix (GpsInput.message msg str ret) = true ↔
      ret = OGN_Parse_res_t.OGN_PARSE_POS_VALID_CURRENT ∧ ∀ n, msg.src_id ≠ SrcId.OTHER n := by
  cases ret with
  | OGN_PARSE_POS_VALID_CURRENT =>
    cases h : msg.src_id <;> simp [isValidFix, h]
  | OTHER c => simp [isValidFix]

/-- The Fix-Valid timer exists in every state that has it, for ever. -/
theorem step_valid_isSome (s : GpsState) (i : GpsInput) :
    (gpsStep env s i).xGPSValidTimer.isSome = s.xGPSValidTimer.isSome := by
  refine gpsStep_cases env (fun _ t => t.xGPSValidTimer.isSome = s.xGPSValidTimer.isSome) s i
    ?_ ?_ ?_ ?_ ?_ ?_ ?_ ?_ ?_
  · intro _; rfl
  · intro msg str ret _ _; exact isSome_validTimerAfter ret _
  · intro msg str ret _ _; exact isSome_validTimerAfter ret _
  · intro msg str ret n _ _; rfl
  · intro _ _; exact isSome_stop _
  · intro _ _; rfl
  · intro _ _; rfl
  · intro _ _; rfl
  · intro _; rfl

/-- Without a valid fix and without its own expiry the Fix-Valid timer is
left as it is. -/
theorem step_valid_timer_same (s : GpsState) (i : GpsInput)
    (hfix : isValidFix i = false) (hexp : isValidExpiry i = false) :
    (gpsStep env s i).xGPSValidTimer = s.xGPSValidTimer := by
  revert hfix hexp
  refine gpsStep_cases env
    (fun j t => isValidFix j = false → isValidExpiry j = false →
      t.xGPSValidTimer = s.xGPSValidTimer) s i ?_ ?_ ?_ ?_ ?_ ?_ ?_ ?_ ?_
  · intro _ _ _; rfl
  · intro msg str ret _ hsrc hf _
    have : ret ≠ OGN_Parse_res_t.OGN_PARSE_POS_VALID_CURRENT := by
      intro hr
      have := (isValidFix_message msg str ret).2 ⟨hr, fun n => by simp [hsrc]⟩
      simp [this] at hf
    simp [validTimerAfter, this]
  · intro msg str ret _ hsrc hf _
    have : ret ≠ OGN_Parse_res_t.OGN_PARSE_POS_VALID_CURRENT := by
      intro hr
      have := (isValidFix_message msg str ret).2 ⟨hr, fun n => by simp [hsrc]⟩
      simp [this] at hf
    simp [validTimerAfter, this]
  · intro msg str ret n _ _ _ _; rfl
  · intro _ _ _ he; simp [isValidExpiry] at he
  · intro _ _ _ _; rfl
  · intro _ _ _ _; rfl
  · intro _ _ _ _; rfl
  · intro _ _ _; rfl

/-- A valid fix handled by a live system starts the Fix-Valid timer and sets
the fix state. -/
theorem step_valid_fix (s : GpsState) (i : GpsInput) (hfix : isValidFix i = true)
    (hlive : s.halted = false) :
    (gpsStep env s i).xGPSValidTimer = xTimerStart s.xGPSValidTimer ∧
    (gpsStep env s i).GPS_fix_found = 1 := by
  revert hfix
  refine gpsStep_cases env
    (fun j t => isValidFix j = true →
      t.xGPSValidTimer = xTimerStart s.xGPSValidTimer ∧ t.GPS_fix_found = 1) s i
    ?_ ?_ ?_ ?_ ?_ ?_ ?_ ?_ ?_
  · intro h; simp [h] at hlive
  · intro msg str ret _ _ hf
    have hr := ((isValidFix_message msg str ret).1 hf).1
    simp [validTimerAfter, fixAfter, hr]
  · intro msg str ret _ _ hf
    have hr := ((isValidFix_message msg str ret).1 hf).1
    simp [validTimerAfter, fixAfter, hr]
  · intro msg str ret n _ hsrc hf
    exact absurd hsrc (((isValidFix_message msg str ret).1 hf).2 n)
  · intro _ _ hf; simp [isValidFix] at hf
  · intro _ _ hf; simp [isValidFix] at hf
  · intro _ _ hf; simp [isValidFix] at hf
  · intro _ _ hf; simp [isValidFix] at hf
  · intro _ hf; simp [isValidFix] at hf

/-- With the Fix-Valid timer stopped and no valid fix, a step leaves the
timer stopped and emits no fix-lost notification. -/
theorem step_stopped (s : GpsState) (i : GpsInput) (hfix : isValidFix i = false)
    (hoff : timerActive s.xGPSValidTimer = false) :
    timerActive (gpsStep env s i).xGPSValidTimer = false ∧
    (gpsStep env s i).trace.countP isFixLostConsole = s.trace.countP isFixLostConsole ∧
    (gpsStep env s i).trace.countP isFixLostDisplay = s.trace.countP isFixLostDisplay := by
  revert hfix
  refine gpsStep_cases env
    (fun j t => isValidFix j = false →
      timerActive t.xGPSValidTimer = false ∧
      t.trace.countP isFixLostConsole = s.trace.countP isFixLostConsole ∧
      t.trace.countP isFixLostDisplay = s.trace.countP isFixLostDisplay) s i
    ?_ ?_ ?_ ?_ ?_ ?_ ?_ ?_ ?_
  · intro _ _; exact ⟨hoff, rfl, rfl⟩
  · intro msg str ret _ hsrc hf
    have : ret ≠ OGN_Parse_res_t.OGN_PARSE_POS_VALID_CURRENT := by
      intro hr
      have := (isValidFix_message msg str ret).2 ⟨hr, fun n => by simp [hsrc]⟩
      simp [this] at hf
    simp [validTimerAfter, this, hoff, List.countP_append]
  · intro msg str ret _ hsrc hf
    have : ret ≠ OGN_Parse_res_t.OGN_PARSE_POS_VALID_CURRENT := by
      intro hr
      have := (isValidFix_message msg str ret).2 ⟨hr, fun n => by simp [hsrc]⟩
      simp [this] at hf
    simp [validTimerAfter, this, hoff, List.countP_append]
  · intro msg str ret n _ _ _; exact ⟨hoff, rfl, rfl⟩
  · intro _ ha _; simp [ha] at hoff
  · intro _ _ _; exact ⟨hoff, rfl, rfl⟩
  · intro _ _ _
    refine ⟨hoff, ?_, ?_⟩
    · simp only [List.countP_append, count_isFixLostConsole_wdgReset, Nat.add_zero]
    · simp only [List.countP_append, count_isFixLostDisplay_wdgReset, Nat.add_zero]
  · intro _ _ _; exact ⟨hoff, rfl, rfl⟩
  · intro _ _; exact ⟨hoff, rfl, rfl⟩

theorem run_valid_isSome (inputs : List GpsInput) :
    ∀ s : GpsState, (gpsRun env s inputs).xGPSValidTimer.isSome = s.xGPSValidTimer.isSome := by
  induction inputs with
  | nil => intro s; rfl
  | cons i rest ih =>
    intro s
    rw [gpsRun_cons, ih, step_valid_isSome]

theorem run_valid_timer_same (inputs : List GpsInput)
    (h : ∀ i ∈ inputs, isValidFix i = false ∧ isValidExpiry i = false) :
    ∀ s : GpsState, (gpsRun env s inputs).xGPSValidTimer = s.xGPSValidTimer := by
  induction inputs with
  | nil => intro s; rfl
  | cons i rest ih =>
    intro s
    rw [gpsRun_cons, ih (fun j hj => h j (List.mem_cons_of_mem i hj)),
      step_valid_timer_same env s i (h i (List.mem_cons_self i rest)).1
        (h i (List.mem_cons_self i rest)).2]

theorem run_stopped (inputs : List GpsInput) (h : ∀ i ∈ inputs, isValidFix i = false) :
    ∀ s : GpsState, timerActive s.xGPSValidTimer = false →
      (gpsRun env s inputs).trace.countP isFixLostConsole = s.trace.countP isFixLostConsole ∧
      (gpsRun env s inputs).trace.countP isFixLostDisplay = s.trace.countP isFixLostDisplay := by
  induction inputs with
  | nil => intro s _; exact ⟨rfl, rfl⟩
  | cons i rest ih =>
    intro s hoff
    obtain ⟨h1, h2, h3⟩ := step_stopped env s i (h i (List.mem_cons_self i rest)) hoff
    obtain ⟨g1, g2⟩ := ih (fun j hj => h j (List.mem_cons_of_mem i hj)) _ h1
    rw [gpsRun_cons]
    exact ⟨g1.trans h2, g2.trans h3⟩

theorem run_live_before (s : GpsState) (a b : List GpsInput)
    (h : (gpsRun env s (a ++ b)).halted = false) : (gpsRun env s a).halted = false := by
  cases hh : (gpsRun env s a).halted with
  | false => rfl
  | true =>
    rw [gpsRun_append, gpsRun_halted env b _ hh] at h
    rw [hh] at h
    exact h

theorem GPS_On_eq (s : GpsState) :
    GPS_On env s = { s with trace := s.trace ++ powerOnEvents env } := by
  unfold GPS_On GPS_Off powerOnEvents gpsEmit
  split_ifs <;> simp

/-- The state in which the loop of `vTaskGPS` is entered. -/
theorem gpsBoot_eq :
    gpsBoot env =
      { GPS_fix_found := 0
        debug_mode := 0
        xGPSValidTimer := some { period := 2500, active := true }
        xGPSWdgTimer := xTimerStart (xTimerCreate (wdgPeriod env))
        halted := false
        trace := GpsEvent.vTaskDelay 700 :: (powerOnEvents env ++
          (GpsEvent.xTimerStart TimerId.GPS_VALID_TIMER ::
            (if (xTimerCreate (wdgPeriod env)).isSome then
              [GpsEvent.xTimerStart TimerId.GPS_WDG_TIMER] else []))) } := by
  simp only [gpsBoot, vTaskGPS_start, startWdg_eq, GPS_On_eq, gpsEmit, GPS_Config, wdgStartEvents,
    wdgPeriod]
  simp [xTimerCreate, xTimerStart]

theorem boot_valid_isSome : (gpsBoot env).xGPSValidTimer.isSome = true := by
  rw [gpsBoot_eq]
  rfl

end GpsStepFacts

section GpsClaimTheorems

variable (env : GpsEnv)

/-- C3: for every message handled by the main loop of the GPS supervisor:
if it comes from the hardware GPS transport, has length at least 6, starts
with `'$'` and its byte at offset `length - 5` is not `'*'`, then handling
it sends exactly one cold-reset command (the literal `pcResetNMEA`) and
exactly one operator warning, and the sentence is passed to the parser
right after them; in every other case no cold-reset command and no warning
are issued. -/
theorem defect_heuristic_reaction (s : GpsState) (msg : task_message) (str : Nat → Byte)
    (ret : OGN_Parse_res_t) :
    (msg.src_id = SrcId.GPS_USART_SRC_ID ∧ msg.msg_len ≥ 6 ∧ str 0 = CH_DOLLAR ∧
        str (msg.msg_len - 5) ≠ CH_STAR →
      (vTaskGPS_step env s msg str ret).trace.countP isColdReset =
        s.trace.countP isColdReset + 1 ∧
      (vTaskGPS_step env s msg str ret).trace.countP isBugWarning =
        s.trace.countP isBugWarning + 1 ∧
      ∃ pre post, (vTaskGPS_step env s msg str ret).trace =
        s.trace ++ pre ++
          [GpsEvent.Console_Send (ConsoleText.literal textGpsBug) true,
           GpsEvent.USART3_Send pcResetNMEA,
           GpsEvent.OGN_Parse_NMEA str (msg.msg_len % 256)] ++ post) ∧
    (¬ (msg.src_id = SrcId.GPS_USART_SRC_ID ∧ msg.msg_len ≥ 6 ∧ str 0 = CH_DOLLAR ∧
        str (msg.msg_len - 5) ≠ CH_STAR) →
      (vTaskGPS_step env s msg str ret).trace.countP isColdReset = s.trace.countP isColdReset ∧
      (vTaskGPS_step env s msg str ret).trace.countP isBugWarning =
        s.trace.countP isBugWarning) := by
  constructor
  · rintro ⟨h1, h2, h3, h4⟩
    rw [vTaskGPS_step_gps env s msg str ret h1]
    have hb : bugEvents str msg.msg_len =
        [GpsEvent.Console_Send (ConsoleText.literal textGpsBug) true,
         GpsEvent.USART3_Send pcResetNMEA] := by
      simp [bugEvents, h2, h3, h4]
    refine ⟨?_, ?_, wdgStartEvents s ++ dumpEvents env str, ?_⟩
    · simp [List.countP_append, h2, h3, h4]
    · simp [List.countP_append, h2, h3, h4]
    · refine ⟨(if s.debug_mode ≠ 0 then
          [GpsEvent.Console_Send (ConsoleText.debugStr str (msg.msg_len % 256) ret) false]
          else []) ++
          (if ret = OGN_Parse_res_t.OGN_PARSE_POS_VALID_CURRENT then
            validPositionEvents env s.GPS_fix_found else []), ?_⟩
      simp only [hb, handleEvents]
      simp [List.append_assoc]
  · intro hn
    cases hsrc : msg.src_id with
    | GPS_USART_SRC_ID =>
      rw [vTaskGPS_step_gps env s msg str ret hsrc]
      have hn2 : ¬ (msg.msg_len ≥ 6 ∧ str 0 = CH_DOLLAR ∧ str (msg.msg_len - 5) ≠ CH_STAR) :=
        fun h => hn ⟨hsrc, h⟩
      simp only [List.countP_append, count_isColdReset_wdgStartEvents,
        count_isColdReset_dumpEvents, count_isColdReset_bugEvents,
        count_isColdReset_handleEvents, count_isBugWarning_wdgStartEvents,
        count_isBugWarning_dumpEvents, count_isBugWarning_bugEvents,
        count_isBugWarning_handleEvents, if_neg hn2]
      simp
    | CONSOLE_USART_SRC_ID =>
      rw [vTaskGPS_step_console env s msg str ret hsrc]
      simp [List.countP_append]
    | OTHER n =>
      rw [vTaskGPS_step_other env s msg str ret n hsrc]
      exact ⟨rfl, rfl⟩

/-- Witness for C3: the hardware sentence
"$GPFOO,1,2,3,4,5\n" (17 bytes, `','` at offset 12) triggers one cold reset
and one warning; the hardware sentence "$GPFOO,1*1A\n" with its terminator
(13 bytes, `'*'` at offset 8) triggers none. -/
theorem defect_heuristic_reaction_witness :
    ((vTaskGPS_step envWdg5 (gpsBoot envWdg5) (hardwareMsg 17) (strOf sentenceGPFOO)
        (OGN_Parse_res_t.OTHER 0)).trace.countP isColdReset =
        (gpsBoot envWdg5).trace.countP isColdReset + 1 ∧
      (vTaskGPS_step envWdg5 (gpsBoot envWdg5) (hardwareMsg 17) (strOf sentenceGPFOO)
        (OGN_Parse_res_t.OTHER 0)).trace.countP isBugWarning =
        (gpsBoot envWdg5).trace.countP isBugWarning + 1 ∧
      ∃ pre post, (vTaskGPS_step envWdg5 (gpsBoot envWdg5) (hardwareMsg 17)
          (strOf sentenceGPFOO) (OGN_Parse_res_t.OTHER 0)).trace =
        (gpsBoot envWdg5).trace ++ pre ++
          [GpsEvent.Console_Send (ConsoleText.literal textGpsBug) true,
           GpsEvent.USART3_Send pcResetNMEA,
           GpsEvent.OGN_Parse_NMEA (strOf sentenceGPFOO) ((hardwareMsg 17).msg_len % 256)] ++
          post) ∧
    ((vTaskGPS_step envWdg5 (gpsBoot envWdg5) (hardwareMsg 13) (strOf sentenceChecked)
        (OGN_Parse_res_t.OTHER 0)).trace.countP isColdReset =
        (gpsBoot envWdg5).trace.countP isColdReset ∧
      (vTaskGPS_step envWdg5 (gpsBoot envWdg5) (hardwareMsg 13) (strOf sentenceChecked)
        (OGN_Parse_res_t.OTHER 0)).trace.countP isBugWarning =
        (gpsBoot envWdg5).trace.countP isBugWarning) :=
  ⟨(defect_heuristic_reaction envWdg5 (gpsBoot envWdg5) (hardwareMsg 17) (strOf sentenceGPFOO)
      (OGN_Parse_res_t.OTHER 0)).1 ⟨rfl, by decide, by decide, by decide⟩,
   (defect_heuristic_reaction envWdg5 (gpsBoot envWdg5) (hardwareMsg 13) (strOf sentenceChecked)
      (OGN_Parse_res_t.OTHER 0)).2 (by decide)⟩

end GpsClaimTheorems

section FixClaims

variable (env : GpsEnv)

/-- C4, as stated, fails: without a display queue (`Get_DisplayQue()`
returns NULL) a valid fix followed by the expiry of the Fix-Valid timer
produces the console line "GPS fix lost." once, but no fix-lost
notification for the display sink. -/
theorem fix_lost_display_counterexample :
    isValidFix (GpsInput.message (relayMsg 12) (strOf sentenceGPTEST)
      OGN_Parse_res_t.OGN_PARSE_POS_VALID_CURRENT) = true ∧
    (gpsRun envNoDisplay (gpsBoot envNoDisplay)
      [GpsInput.message (relayMsg 12) (strOf sentenceGPTEST)
        OGN_Parse_res_t.OGN_PARSE_POS_VALID_CURRENT]).GPS_fix_found = 1 ∧
    (gpsRun envNoDisplay (gpsBoot envNoDisplay)
      [GpsInput.message (relayMsg 12) (strOf sentenceGPTEST)
        OGN_Parse_res_t.OGN_PARSE_POS_VALID_CURRENT,
       GpsInput.validTimerExpiry]).GPS_fix_found = 0 ∧
    (gpsRun envNoDisplay (gpsBoot envNoDisplay)
      [GpsInput.message (relayMsg 12) (strOf sentenceGPTEST)
        OGN_Parse_res_t.OGN_PARSE_POS_VALID_CURRENT,
       GpsInput.validTimerExpiry]).trace.countP isFixLostConsole = 1 ∧
    (gpsRun envNoDisplay (gpsBoot envNoDisplay)
      [GpsInput.message (relayMsg 12) (strOf sentenceGPTEST)
        OGN_Parse_res_t.OGN_PARSE_POS_VALID_CURRENT,
       GpsInput.validTimerExpiry]).trace.countP isFixLostDisplay = 0 := by
  refine ⟨rfl, rfl, rfl, ?_, ?_⟩ <;> decide

/-- C4 (amended): in every run of the GPS supervisor from start-up, with the
Fix-Valid timer a one-shot timer armed by start/restart and disarmed by its
expiry, and as long as the watchdog has not reset the device: after a valid
fix, an expiry of the Fix-Valid timer with no further valid fix in between
sets the fix state to lost and emits exactly one fix-lost notification to
the console and, when the display queue is available, exactly one to the
display sink (none when it is not); afterwards no further fix-lost
notification is emitted, whatever happens, until a new valid fix occurs. -/
theorem fix_lost_once (pre mid post : List GpsInput) (fix : GpsInput)
    (hfix : isValidFix fix = true)
    (hmid : ∀ i ∈ mid, isValidFix i = false ∧ isValidExpiry i = false)
    (hlive : (gpsRun env (gpsBoot env) (pre ++ fix :: mid)).halted = false)
    (hpost : ∀ i ∈ post, isValidFix i = false) :
    (gpsStep env (gpsRun env (gpsBoot env) (pre ++ fix :: mid))
      GpsInput.validTimerExpiry).GPS_fix_found = 0 ∧
    (gpsStep env (gpsRun env (gpsBoot env) (pre ++ fix :: mid))
      GpsInput.validTimerExpiry).trace.countP isFixLostConsole =
      (gpsRun env (gpsBoot env) (pre ++ fix :: mid)).trace.countP isFixLostConsole + 1 ∧
    (gpsStep env (gpsRun env (gpsBoot env) (pre ++ fix :: mid))
      GpsInput.validTimerExpiry).trace.countP isFixLostDisplay =
      (gpsRun env (gpsBoot env) (pre ++ fix :: mid)).trace.countP isFixLostDisplay +
        (if env.Get_DisplayQue = true then 1 else 0) ∧
    (gpsRun env (gpsStep env (gpsRun env (gpsBoot env) (pre ++ fix :: mid))
      GpsInput.validTimerExpiry) post).trace.countP isFixLostConsole =
      (gpsRun env (gpsBoot env) (pre ++ fix :: mid)).trace.countP isFixLostConsole + 1 ∧
    (gpsRun env (gpsStep env (gpsRun env (gpsBoot env) (pre ++ fix :: mid))
      GpsInput.validTimerExpiry) post).trace.countP isFixLostDisplay =
      (gpsRun env (gpsBoot env) (pre ++ fix :: mid)).trace.countP isFixLostDisplay +
        (if env.Get_DisplayQue = true then 1 else 0) := by
  have hsplit : gpsRun env (gpsBoot env) (pre ++ fix :: mid) =
      gpsRun env (gpsStep env (gpsRun env (gpsBoot env) pre) fix) mid := by
    rw [gpsRun_append, gpsRun_cons]
  have hlive1 : (gpsRun env (gpsBoot env) pre).halted = false :=
    run_live_before env (gpsBoot env) pre (fix :: mid) hlive
  have hsome : (gpsRun env (gpsBoot env) pre).xGPSValidTimer.isSome = true := by
    rw [run_valid_isSome, boot_valid_isSome]
  have hact : timerActive (gpsRun env (gpsBoot env) (pre ++ fix :: mid)).xGPSValidTimer = true := by
    rw [hsplit, run_valid_timer_same env mid hmid,
      (step_valid_fix env _ fix hfix hlive1).1]
    exact timerActive_start_isSome _ hsome
  generalize gpsRun env (gpsBoot env) (pre ++ fix :: mid) = s2 at hlive hact ⊢
  have hstep : gpsStep env s2 GpsInput.validTimerExpiry =
      { s2 with xGPSValidTimer := timerStop s2.xGPSValidTimer, GPS_fix_found := 0,
                trace := s2.trace ++ fixLostEvents env } := by
    simp [gpsStep, hlive, hact, vGPSValidTimerCallback_eq]
  have hoff : timerActive (gpsStep env s2 GpsInput.validTimerExpiry).xGPSValidTimer = false := by
    rw [hstep]; exact timerActive_stop _
  obtain ⟨r1, r2⟩ := run_stopped env post hpost _ hoff
  have c1 : (gpsStep env s2 GpsInput.validTimerExpiry).trace.countP isFixLostConsole =
      s2.trace.countP isFixLostConsole + 1 := by
    rw [hstep]; simp [List.countP_append]
  have c2 : (gpsStep env s2 GpsInput.validTimerExpiry).trace.countP isFixLostDisplay =
      s2.trace.countP isFixLostDisplay + (if env.Get_DisplayQue = true then 1 else 0) := by
    rw [hstep]; simp [List.countP_append]
  refine ⟨by rw [hstep], c1, c2, r1.trans c1, r2.trans c2⟩

/-- Witness for C4 (amended): start-up, a valid fix relayed by the
console, the expiry, then a second expiry. -/
theorem fix_lost_once_witness :
    (gpsStep envWdg5 (gpsRun envWdg5 (gpsBoot envWdg5)
        ([] ++ GpsInput.message (relayMsg 12) (strOf sentenceGPTEST)
          OGN_Parse_res_t.OGN_PARSE_POS_VALID_CURRENT :: []))
      GpsInput.validTimerExpiry).GPS_fix_found = 0 ∧
    (gpsStep envWdg5 (gpsRun envWdg5 (gpsBoot envWdg5)
        ([] ++ GpsInput.message (relayMsg 12) (strOf sentenceGPTEST)
          OGN_Parse_res_t.OGN_PARSE_POS_VALID_CURRENT :: []))
      GpsInput.validTimerExpiry).trace.countP isFixLostConsole =
      (gpsRun envWdg5 (gpsBoot envWdg5)
        ([] ++ GpsInput.message (relayMsg 12) (strOf sentenceGPTEST)
          OGN_Parse_res_t.OGN_PARSE_POS_VALID_CURRENT :: [])).trace.countP isFixLostConsole + 1 ∧
    (gpsStep envWdg5 (gpsRun envWdg5 (gpsBoot envWdg5)
        ([] ++ GpsInput.message (relayMsg 12) (strOf sentenceGPTEST)
          OGN_Parse_res_t.OGN_PARSE_POS_VALID_CURRENT :: []))
      GpsInput.validTimerExpiry).trace.countP isFixLostDisplay =
      (gpsRun envWdg5 (gpsBoot envWdg5)
        ([] ++ GpsInput.message (relayMsg 12) (strOf sentenceGPTEST)
          OGN_Parse_res_t.OGN_PARSE_POS_VALID_CURRENT :: [])).trace.countP isFixLostDisplay +
        (if envWdg5.Get_DisplayQue = true then 1 else 0) ∧
    (gpsRun envWdg5 (gpsStep envWdg5 (gpsRun envWdg5 (gpsBoot envWdg5)
        ([] ++ GpsInput.message (relayMsg 12) (strOf sentenceGPTEST)
          OGN_Parse_res_t.OGN_PARSE_POS_VALID_CURRENT :: []))
      GpsInput.validTimerExpiry) [GpsInput.validTimerExpiry]).trace.countP isFixLostConsole =
      (gpsRun envWdg5 (gpsBoot envWdg5)
        ([] ++ GpsInput.message (relayMsg 12) (strOf sentenceGPTEST)
          OGN_Parse_res_t.OGN_PARSE_POS_VALID_CURRENT :: [])).trace.countP isFixLostConsole + 1 ∧
    (gpsRun envWdg5 (gpsStep envWdg5 (gpsRun envWdg5 (gpsBoot envWdg5)
        ([] ++ GpsInput.message (relayMsg 12) (strOf sentenceGPTEST)
          OGN_Parse_res_t.OGN_PARSE_POS_VALID_CURRENT :: []))
      GpsInput.validTimerExpiry) [GpsInput.validTimerExpiry]).trace.countP isFixLostDisplay =
      (gpsRun envWdg5 (gpsBoot envWdg5)
        ([] ++ GpsInput.message (relayMsg 12) (strOf sentenceGPTEST)
          OGN_Parse_res_t.OGN_PARSE_POS_VALID_CURRENT :: [])).trace.countP isFixLostDisplay +
        (if envWdg5.Get_DisplayQue = true then 1 else 0) :=
  fix_lost_once envWdg5 [] [] [GpsInput.validTimerExpiry]
    (GpsInput.message (relayMsg 12) (strOf sentenceGPTEST)
      OGN_Parse_res_t.OGN_PARSE_POS_VALID_CURRENT)
    rfl (by simp) rfl (by simp [isValidFix])

end FixClaims

section FixFoundClaims

variable (env : GpsEnv)

/-- Between expiries of the Fix-Valid timer, the number of fix-found
notifications plus one while the fix state is "no fix" never grows. -/
theorem step_fix_found_potential (s : GpsState) (i : GpsInput)
    (hexp : isValidExpiry i = false) :
    (gpsStep env s i).trace.countP isFixFoundConsole +
        (if (gpsStep env s i).GPS_fix_found = 0 then 1 else 0) ≤
      s.trace.countP isFixFoundConsole + (if s.GPS_fix_found = 0 then 1 else 0) ∧
    (gpsStep env s i).trace.countP isFixFoundDisplay +
        (if (gpsStep env s i).GPS_fix_found = 0 then 1 else 0) ≤
      s.trace.countP isFixFoundDisplay + (if s.GPS_fix_found = 0 then 1 else 0) := by
  revert hexp
  refine gpsStep_cases env
    (fun j t => isValidExpiry j = false →
      t.trace.countP isFixFoundConsole + (if t.GPS_fix_found = 0 then 1 else 0) ≤
        s.trace.countP isFixFoundConsole + (if s.GPS_fix_found = 0 then 1 else 0) ∧
      t.trace.countP isFixFoundDisplay + (if t.GPS_fix_found = 0 then 1 else 0) ≤
        s.trace.countP isFixFoundDisplay + (if s.GPS_fix_found = 0 then 1 else 0)) s i
    ?_ ?_ ?_ ?_ ?_ ?_ ?_ ?_ ?_
  · intro _ _; exact ⟨le_refl _, le_refl _⟩
  · intro msg str ret _ _ _
    simp only [List.countP_append, count_isFixFoundConsole_wdgStartEvents,
      count_isFixFoundConsole_dumpEvents, count_isFixFoundConsole_bugEvents,
      count_isFixFoundConsole_handleEvents, count_isFixFoundDisplay_wdgStartEvents,
      count_isFixFoundDisplay_dumpEvents, count_isFixFoundDisplay_bugEvents,
      count_isFixFoundDisplay_handleEvents, fixAfter]
    constructor <;> split_ifs <;> simp_all
  · intro msg str ret _ _ _
    simp only [List.countP_append, count_isFixFoundConsole_handleEvents,
      count_isFixFoundDisplay_handleEvents, fixAfter]
    constructor <;> split_ifs <;> simp_all
  · intro msg str ret n _ _ _; exact ⟨le_refl _, le_refl _⟩
  · intro _ _ he; simp [isValidExpiry] at he
  · intro _ _ he; simp [isValidExpiry] at he
  · intro _ _ _
    simp only [List.countP_append, count_isFixFoundConsole_wdgReset,
      count_isFixFoundDisplay_wdgReset, Nat.add_zero]
    exact ⟨le_refl _, le_refl _⟩
  · intro _ _ _; exact ⟨le_refl _, le_refl _⟩
  · intro _ _; exact ⟨le_refl _, le_refl _⟩

theorem run_fix_found_potential (inputs : List GpsInput)
    (h : ∀ i ∈ inputs, isValidExpiry i = false) :
    ∀ s : GpsState,
      (gpsRun env s inputs).trace.countP isFixFoundConsole +
          (if (gpsRun env s inputs).GPS_fix_found = 0 then 1 else 0) ≤
        s.trace.countP isFixFoundConsole + (if s.GPS_fix_found = 0 then 1 else 0) ∧
      (gpsRun env s inputs).trace.countP isFixFoundDisplay +
          (if (gpsRun env s inputs).GPS_fix_found = 0 then 1 else 0) ≤
        s.trace.countP isFixFoundDisplay + (if s.GPS_fix_found = 0 then 1 else 0) := by
  induction inputs with
  | nil => intro s; exact ⟨le_refl _, le_refl _⟩
  | cons i rest ih =>
    intro s
    obtain ⟨a1, a2⟩ := step_fix_found_potential env s i (h i (List.mem_cons_self i rest))
    obtain ⟨b1, b2⟩ := ih (fun j hj => h j (List.mem_cons_of_mem i hj)) (gpsStep env s i)
    rw [gpsRun_cons]
    exact ⟨le_trans b1 a1, le_trans b2 a2⟩

/-- C9, as stated, fails: without a display queue (`Get_DisplayQue()`
returns NULL) a "currently valid fix" result that arrives while the fix
state is "no fix" produces the console line "GPS fix found." but no
fix-found notification for the display sink. -/
theorem fix_found_display_counterexample :
    (gpsBoot envNoDisplay).GPS_fix_found = 0 ∧
    (Handle_NMEA_String envNoDisplay (gpsBoot envNoDisplay) (strOf sentenceGPTEST) 12
      OGN_Parse_res_t.OGN_PARSE_POS_VALID_CURRENT).trace.countP isFixFoundConsole =
      (gpsBoot envNoDisplay).trace.countP isFixFoundConsole + 1 ∧
    (Handle_NMEA_String envNoDisplay (gpsBoot envNoDisplay) (strOf sentenceGPTEST) 12
      OGN_Parse_res_t.OGN_PARSE_POS_VALID_CURRENT).trace.countP isFixFoundDisplay =
      (gpsBoot envNoDisplay).trace.countP isFixFoundDisplay := by
  refine ⟨rfl, ?_, ?_⟩ <;> decide

/-- C9 (amended): whenever the GPS supervisor handles a parser result:
a "currently valid fix" result restarts the Fix-Valid timer and sets the
fix state to found, and it emits a fix-found notification if and only if
the fix state was "no fix" immediately before: exactly one to the console
and, when the display queue is available, exactly one to the display sink
(none when it is not); every other parser result leaves the fix state and
the Fix-Valid timer untouched and emits no fix notification; and in every
sequence of inputs without an expiry of the Fix-Valid timer at most one
fix-found notification is emitted on either channel, none when the fix
state is already "found". -/
theorem fix_found_edge_triggered :
    (∀ (s : GpsState) (str : Nat → Byte) (len : Nat),
      (Handle_NMEA_String env s str len
        OGN_Parse_res_t.OGN_PARSE_POS_VALID_CURRENT).xGPSValidTimer =
        xTimerStart s.xGPSValidTimer ∧
      (Handle_NMEA_String env s str len
        OGN_Parse_res_t.OGN_PARSE_POS_VALID_CURRENT).trace.countP isValidStart =
        s.trace.countP isValidStart + 1 ∧
      (Handle_NMEA_String env s str len
        OGN_Parse_res_t.OGN_PARSE_POS_VALID_CURRENT).GPS_fix_found = 1 ∧
      (Handle_NMEA_String env s str len
        OGN_Parse_res_t.OGN_PARSE_POS_VALID_CURRENT).trace.countP isFixFoundConsole =
        s.trace.countP isFixFoundConsole + (if s.GPS_fix_found = 0 then 1 else 0) ∧
      (Handle_NMEA_String env s str len
        OGN_Parse_res_t.OGN_PARSE_POS_VALID_CURRENT).trace.countP isFixFoundDisplay =
        s.trace.countP isFixFoundDisplay +
          (if s.GPS_fix_found = 0 ∧ env.Get_DisplayQue = true then 1 else 0)) ∧
    (∀ (s : GpsState) (str : Nat → Byte) (len : Nat) (ret : OGN_Parse_res_t),
      ret ≠ OGN_Parse_res_t.OGN_PARSE_POS_VALID_CURRENT →
      (Handle_NMEA_String env s str len ret).GPS_fix_found = s.GPS_fix_found ∧
      (Handle_NMEA_String env s str len ret).xGPSValidTimer = s.xGPSValidTimer ∧
      (Handle_NMEA_String env s str len ret).trace.countP isValidStart =
        s.trace.countP isValidStart ∧
      (Handle_NMEA_String env s str len ret).trace.countP isFixFoundConsole =
        s.trace.countP isFixFoundConsole ∧
      (Handle_NMEA_String env s str len ret).trace.countP isFixFoundDisplay =
        s.trace.countP isFixFoundDisplay ∧
      (Handle_NMEA_String env s str len ret).trace.countP isFixLostConsole =
        s.trace.countP isFixLostConsole ∧
      (Handle_NMEA_String env s str len ret).trace.countP isFixLostDisplay =
        s.trace.countP isFixLostDisplay) ∧
    (∀ (s : GpsState) (inputs : List GpsInput),
      (∀ i ∈ inputs, isValidExpiry i = false) →
      (gpsRun env s inputs).trace.countP isFixFoundConsole ≤
        s.trace.countP isFixFoundConsole + (if s.GPS_fix_found = 0 then 1 else 0) ∧
      (gpsRun env s inputs).trace.countP isFixFoundDisplay ≤
        s.trace.countP isFixFoundDisplay + (if s.GPS_fix_found = 0 then 1 else 0)) := by
  refine ⟨?_, ?_, ?_⟩
  · intro s str len
    rw [Handle_NMEA_String_eq]
    simp [List.countP_append, validTimerAfter, fixAfter]
  · intro s str len ret hret
    rw [Handle_NMEA_String_eq]
    simp [List.countP_append, validTimerAfter, fixAfter, hret]
  · intro s inputs h
    obtain ⟨h1, h2⟩ := run_fix_found_potential env inputs h s
    exact ⟨le_trans (Nat.le_add_right _ _) h1, le_trans (Nat.le_add_right _ _) h2⟩

/-- Witness for C9 (amended): after start-up with a display
queue, two valid fixes in a row notify the console and the display once. -/
theorem fix_found_edge_triggered_witness :
    (gpsRun envWdg5 (gpsBoot envWdg5)
        [GpsInput.message (hardwareMsg 13) (strOf sentenceChecked)
           OGN_Parse_res_t.OGN_PARSE_POS_VALID_CURRENT,
         GpsInput.message (hardwareMsg 13) (strOf sentenceChecked)
           OGN_Parse_res_t.OGN_PARSE_POS_VALID_CURRENT]).trace.countP isFixFoundConsole ≤
      (gpsBoot envWdg5).trace.countP isFixFoundConsole +
        (if (gpsBoot envWdg5).GPS_fix_found = 0 then 1 else 0) ∧
    (gpsRun envWdg5 (gpsBoot envWdg5)
        [GpsInput.message (hardwareMsg 13) (strOf sentenceChecked)
           OGN_Parse_res_t.OGN_PARSE_POS_VALID_CURRENT,
         GpsInput.message (hardwareMsg 13) (strOf sentenceChecked)
           OGN_Parse_res_t.OGN_PARSE_POS_VALID_CURRENT]).trace.countP isFixFoundDisplay ≤
      (gpsBoot envWdg5).trace.countP isFixFoundDisplay +
        (if (gpsBoot envWdg5).GPS_fix_found = 0 then 1 else 0) :=
  (fix_found_edge_triggered envWdg5).2.2 (gpsBoot envWdg5) _ (by simp [isValidExpiry])

end FixFoundClaims

section WatchdogClaims

variable (env : GpsEnv)

theorem wdgPeriod_zero (h : env.OPT_GPS_WDG_TIME = 0) : wdgPeriod env = 0 := by
  simp [wdgPeriod, h]

theorem wdgPeriod_pos (h0 : 0 < env.OPT_GPS_WDG_TIME) (h1 : env.OPT_GPS_WDG_TIME < 65536) :
    wdgPeriod env = env.OPT_GPS_WDG_TIME * 1000 ∧ wdgPeriod env ≠ 0 := by
  have hm : env.OPT_GPS_WDG_TIME % 65536 = env.OPT_GPS_WDG_TIME := Nat.mod_eq_of_lt h1
  have : wdgPeriod env = env.OPT_GPS_WDG_TIME * 1000 := by
    simp only [wdgPeriod, portTICK_PERIOD_MS, hm, Nat.mul_one]
    exact Nat.mod_eq_of_lt (by norm_num; omega)
  exact ⟨this, by omega⟩

theorem boot_counts :
    (gpsBoot env).trace.countP isDeviceReset = 0 ∧
    (gpsBoot env).trace.countP isWdgStart =
      (if (xTimerCreate (wdgPeriod env)).isSome then 1 else 0) := by
  rw [gpsBoot_eq]
  simp only [powerOnEvents]
  constructor <;> split_ifs <;> simp [List.countP_cons, isDeviceReset, isWdgStart]

/-- Without a Watchdog timer: none is ever started, nothing resets. -/
theorem step_no_wdg (s : GpsState) (i : GpsInput)
    (h : s.xGPSWdgTimer = none ∧ s.halted = false ∧ s.trace.countP isDeviceReset = 0 ∧
      s.trace.countP isWdgStart = 0) :
    (gpsStep env s i).xGPSWdgTimer = none ∧ (gpsStep env s i).halted = false ∧
    (gpsStep env s i).trace.countP isDeviceReset = 0 ∧
    (gpsStep env s i).trace.countP isWdgStart = 0 := by
  obtain ⟨h1, h2, h3, h4⟩ := h
  refine gpsStep_cases env
    (fun _ t => t.xGPSWdgTimer = none ∧ t.halted = false ∧
      t.trace.countP isDeviceReset = 0 ∧ t.trace.countP isWdgStart = 0) s i
    ?_ ?_ ?_ ?_ ?_ ?_ ?_ ?_ ?_
  · intro _; exact ⟨h1, h2, h3, h4⟩
  · intro msg str ret _ _
    simp [List.countP_append, h1, h2, h3, h4, xTimerStart]
  · intro msg str ret _ _
    simp [List.countP_append, h1, h2, h3, h4]
  · intro msg str ret n _ _; exact ⟨h1, h2, h3, h4⟩
  · intro _ _
    simp [List.countP_append, h1, h2, h3, h4]
  · intro _ _; exact ⟨h1, h2, h3, h4⟩
  · intro _ ha; simp [h1, timerActive] at ha
  · intro _ _; exact ⟨h1, h2, h3, h4⟩
  · intro _; exact ⟨h1, h2, h3, h4⟩

theorem run_no_wdg (inputs : List GpsInput) :
    ∀ s : GpsState, (s.xGPSWdgTimer = none ∧ s.halted = false ∧
        s.trace.countP isDeviceReset = 0 ∧ s.trace.countP isWdgStart = 0) →
      (gpsRun env s inputs).xGPSWdgTimer = none ∧ (gpsRun env s inputs).halted = false ∧
      (gpsRun env s inputs).trace.countP isDeviceReset = 0 ∧
      (gpsRun env s inputs).trace.countP isWdgStart = 0 := by
  induction inputs with
  | nil => intro s h; exact h
  | cons i rest ih => intro s h; rw [gpsRun_cons]; exact ih _ (step_no_wdg env s i h)

/-- With a Watchdog timer of period `p`: as long as the device has not been
reset the timer runs and no reset has been performed. -/
theorem step_wdg_running (p : Nat) (s : GpsState) (i : GpsInput)
    (h : s.halted = false → s.xGPSWdgTimer = some { period := p, active := true } ∧
      s.trace.countP isDeviceReset = 0) :
    (gpsStep env s i).halted = false →
      (gpsStep env s i).xGPSWdgTimer = some { period := p, active := true } ∧
      (gpsStep env s i).trace.countP isDeviceReset = 0 := by
  refine gpsStep_cases env
    (fun _ t => t.halted = false →
      t.xGPSWdgTimer = some { period := p, active := true } ∧
      t.trace.countP isDeviceReset = 0) s i
    ?_ ?_ ?_ ?_ ?_ ?_ ?_ ?_ ?_
  · intro hh hl; rw [hh] at hl; exact absurd hl (by simp)
  · intro msg str ret hl _ _
    obtain ⟨h1, h2⟩ := h hl
    simp [List.countP_append, h1, h2, xTimerStart]
  · intro msg str ret hl _ _
    obtain ⟨h1, h2⟩ := h hl
    simp [List.countP_append, h1, h2]
  · intro msg str ret n hl _ _; exact h hl
  · intro hl _ _
    obtain ⟨h1, h2⟩ := h hl
    simp [List.countP_append, h1, h2]
  · intro hl _ _; exact h hl
  · intro _ _ hl; simp at hl
  · intro hl _ _; exact h hl
  · intro hl _
    obtain ⟨h1, h2⟩ := h hl
    exact ⟨h1, h2⟩

theorem run_wdg_running (p : Nat) (inputs : List GpsInput) :
    ∀ s : GpsState,
      (s.halted = false → s.xGPSWdgTimer = some { period := p, active := true } ∧
        s.trace.countP isDeviceReset = 0) →
      (gpsRun env s inputs).halted = false →
        (gpsRun env s inputs).xGPSWdgTimer = some { period := p, active := true } ∧
        (gpsRun env s inputs).trace.countP isDeviceReset = 0 := by
  induction inputs with
  | nil => intro s h; exact h
  | cons i rest ih => intro s h; rw [gpsRun_cons]; exact ih _ (step_wdg_running env p s i h)

/-- C5: with the watchdog timeout configured to 0 no Watchdog timer exists
in any run of the GPS supervisor: it is never started and the device is
never reset, whatever inputs arrive.  With a timeout of `N > 0` seconds
(a 16-bit value) the timer is running when the loop is entered, with a
period of `N * 1000` ticks of one millisecond; in every run, as long as the
device has not been reset, the timer is running and no reset has been
performed, every hardware-GPS message restarts it, and its expiry performs
the device reset, the only one of the run, after which no input changes
anything any more. -/
theorem watchdog_behaviour :
    (env.OPT_GPS_WDG_TIME = 0 →
      ∀ inputs : List GpsInput,
        (gpsRun env (gpsBoot env) inputs).xGPSWdgTimer = none ∧
        (gpsRun env (gpsBoot env) inputs).halted = false ∧
        (gpsRun env (gpsBoot env) inputs).trace.countP isDeviceReset = 0 ∧
        (gpsRun env (gpsBoot env) inputs).trace.countP isWdgStart = 0) ∧
    (0 < env.OPT_GPS_WDG_TIME ∧ env.OPT_GPS_WDG_TIME < 65536 →
      (gpsBoot env).xGPSWdgTimer =
        some { period := env.OPT_GPS_WDG_TIME * 1000, active := true } ∧
      (gpsBoot env).trace.countP isWdgStart = 1 ∧
      ∀ pre : List GpsInput, (gpsRun env (gpsBoot env) pre).halted = false →
        (gpsRun env (gpsBoot env) pre).xGPSWdgTimer =
          some { period := env.OPT_GPS_WDG_TIME * 1000, active := true } ∧
        (gpsRun env (gpsBoot env) pre).trace.countP isDeviceReset = 0 ∧
        (∀ (msg : task_message) (str : Nat → Byte) (ret : OGN_Parse_res_t),
          msg.src_id = SrcId.GPS_USART_SRC_ID →
          (gpsStep env (gpsRun env (gpsBoot env) pre)
            (GpsInput.message msg str ret)).xGPSWdgTimer =
            some { period := env.OPT_GPS_WDG_TIME * 1000, active := true } ∧
          (gpsStep env (gpsRun env (gpsBoot env) pre)
            (GpsInput.message msg str ret)).trace.countP isWdgStart =
            (gpsRun env (gpsBoot env) pre).trace.countP isWdgStart + 1) ∧
        (gpsStep env (gpsRun env (gpsBoot env) pre) GpsInput.wdgTimerExpiry).halted = true ∧
        (gpsStep env (gpsRun env (gpsBoot env) pre)
          GpsInput.wdgTimerExpiry).trace.countP isDeviceReset = 1 ∧
        ∀ post : List GpsInput,
          gpsRun env (gpsStep env (gpsRun env (gpsBoot env) pre) GpsInput.wdgTimerExpiry) post =
            gpsStep env (gpsRun env (gpsBoot env) pre) GpsInput.wdgTimerExpiry) := by
  constructor
  · intro h0 inputs
    apply run_no_wdg
    obtain ⟨c1, c2⟩ := boot_counts env
    refine ⟨?_, ?_, c1, ?_⟩
    · rw [gpsBoot_eq, wdgPeriod_zero env h0]; rfl
    · rw [gpsBoot_eq]
    · rw [c2, wdgPeriod_zero env h0]; rfl
  · rintro ⟨h0, h1⟩
    obtain ⟨hp, hne⟩ := wdgPeriod_pos env h0 h1
    obtain ⟨c1, c2⟩ := boot_counts env
    have hboot : (gpsBoot env).xGPSWdgTimer =
        some { period := env.OPT_GPS_WDG_TIME * 1000, active := true } := by
      rw [gpsBoot_eq]
      have hne2 : ¬ env.OPT_GPS_WDG_TIME * 1000 = 0 := by omega
      simp only [xTimerCreate, hp, if_neg hne2, xTimerStart, Option.map]
    refine ⟨hboot, ?_, ?_⟩
    · rw [c2]; simp [xTimerCreate, hne]
    · intro pre hlive
      obtain ⟨r1, r2⟩ := run_wdg_running env _ pre (gpsBoot env) (fun _ => ⟨hboot, c1⟩) hlive
      generalize gpsRun env (gpsBoot env) pre = s at hlive r1 r2 ⊢
      have hexp : gpsStep env s GpsInput.wdgTimerExpiry =
          { s with xGPSWdgTimer := timerStop s.xGPSWdgTimer, halted := true,
                   trace := s.trace ++
                     [GpsEvent.Console_Send (ConsoleText.literal textWdgReset) true,
                      GpsEvent.NVIC_SystemReset] } := by
        simp [gpsStep, hlive, r1, timerActive, vGPSWdgTimerCallback_eq]
      refine ⟨r1, r2, ?_, ?_, ?_, ?_⟩
      · intro msg str ret hsrc
        have hstep : gpsStep env s (GpsInput.message msg str ret) =
            vTaskGPS_step env s msg str ret := by simp [gpsStep, hlive]
        rw [hstep, vTaskGPS_step_gps env s msg str ret hsrc]
        simp [List.countP_append, r1, xTimerStart]
      · rw [hexp]
      · rw [hexp]; simp [List.countP_append, r2]
      · intro post
        exact gpsRun_halted env post _ (by rw [hexp])

/-- Witness for C5: a timeout of 5 seconds. -/
theorem watchdog_behaviour_witness :
    (gpsBoot envWdg5).xGPSWdgTimer = some { period := 5 * 1000, active := true } ∧
    (gpsStep envWdg5 (gpsRun envWdg5 (gpsBoot envWdg5) [])
      GpsInput.wdgTimerExpiry).halted = true ∧
    (gpsStep envWdg5 (gpsRun envWdg5 (gpsBoot envWdg5) [])
      GpsInput.wdgTimerExpiry).trace.countP isDeviceReset = 1 :=
  have h := (watchdog_behaviour envWdg5).2 ⟨by decide, by decide⟩
  ⟨h.1, (h.2.2 [] rfl).2.2.2.1, (h.2.2 [] rfl).2.2.2.2.1⟩

end WatchdogClaims

/-! ## Payloads handed to the GPS supervisor -/

section Payloads

variable {σ : Type} (interp : Interpreter σ) (fuel : Nat)

theorem Console_Send_deposits (s s' : ConsoleState σ) (str : List Byte) (block : Bool)
    (h : Console_Send s str block = .ok s') :
    ∀ d, ConsoleEvent.cir_put_data d ∈ s'.trace → ConsoleEvent.cir_put_data d ∈ s.trace := by
  unfold Console_Send at h
  cases hc : cStr str with
  | error e => simp [hc] at h
  | ok text =>
    simp only [hc] at h
    injection h with h
    subst h
    intro d hd
    cases block <;> simpa using hd

theorem cliLoop_deposits (n : Nat) :
    ∀ s s' : ConsoleState σ, cliLoop interp n s = .ok s' →
      ∀ d, ConsoleEvent.cir_put_data d ∈ s'.trace → ConsoleEvent.cir_put_data d ∈ s.trace := by
  induction n with
  | zero => intro s s' h; simp [cliLoop] at h
  | succ k ih =>
    intro s s' h
    unfold cliLoop at h
    cases hc : cStr s.pcInputString with
    | error e => simp [hc] at h
    | ok cmd =>
      simp only [hc] at h
      split at h
      · simp at h
      · rename_i s2 hs2
        have h1 := Console_Send_deposits _ s2 _ _ hs2
        have h2 : ∀ d, ConsoleEvent.cir_put_data d ∈ s2.trace →
            ConsoleEvent.cir_put_data d ∈ s.trace := by
          intro d hd
          simpa using h1 d hd
        split_ifs at h
        · intro d hd
          exact h2 d (ih s2 s' h d hd)
        · injection h with h
          subst h
          exact h2

/-- A byte handled by the line editor leaves the session in line editing
and deposits nothing. -/
theorem line_step_no_deposit (s s' : ConsoleState σ) (b : Byte)
    (hmode : s.console_mode = CONSOLE_SENTENCE_MODE) (hb : b ≠ CH_DOLLAR)
    (h : vTaskConsole_char interp fuel s b = .ok s') :
    s'.console_mode = CONSOLE_SENTENCE_MODE ∧
    ∀ d, ConsoleEvent.cir_put_data d ∈ s'.trace → ConsoleEvent.cir_put_data d ∈ s.trace := by
  unfold vTaskConsole_char at h
  simp only [hb, if_false, hmode, if_true] at h
  unfold handle_console_input at h
  by_cases hcr : b = CH_CR
  · simp only [hcr, if_true] at h
    split at h
    · simp at h
    · rename_i s2 hs2
      injection h with h
      subst h
      have hm := (cliLoop_trace interp fuel _ s2 hs2).2
      have hd := cliLoop_deposits interp fuel _ s2 hs2
      refine ⟨hm.trans hmode, fun d hmem => ?_⟩
      have := hd d hmem
      simpa [Console_Send_Char] using this
  · simp only [hcr, if_false] at h
    split_ifs at h
    · injection h with h; subst h
      exact ⟨hmode, fun d hmem => by simpa [Console_Send_Char] using hmem⟩
    · unfold writeAt at h
      split_ifs at h
      injection h with h; subst h
      exact ⟨hmode, fun d hmem => by simpa [Console_Send_Char] using hmem⟩
    · injection h with h; subst h
      exact ⟨hmode, fun d hmem => by simpa [Console_Send_Char] using hmem⟩
    · unfold writeAt at h
      split_ifs at h
      injection h with h; subst h
      exact ⟨hmode, fun d hmem => by simpa [Console_Send_Char] using hmem⟩
    · injection h with h; subst h
      exact ⟨hmode, fun d hmem => by simpa [Console_Send_Char] using hmem⟩

end Payloads

section PayloadInvariant

variable {σ : Type} (interp : Interpreter σ) (fuel : Nat)

/-- The byte that fills the capture buffer: stored at index 99, then the
capture buffer is reset and the capture goes on. -/
theorem char_capture_wrap (s : ConsoleState σ) (b : Byte)
    (hmode : s.console_mode = NMEA_SENTENCE_MODE) (hd : b ≠ CH_DOLLAR) (hlf : b ≠ CH_LF)
    (hfull : s.nmea_sent_len + 1 = MAX_NMEA_SENTENCE) :
    vTaskConsole_char interp fuel s b =
      .ok { s with nmea_sentence := s.nmea_sentence.set s.nmea_sent_len b,
                   nmea_sent_len := 0 } := by
  have h1 : s.nmea_sent_len < MAX_NMEA_SENTENCE := by omega
  have hmod : (s.nmea_sent_len + 1) % 256 = s.nmea_sent_len + 1 := by
    simp only [MAX_NMEA_SENTENCE] at hfull; omega
  have hw : s.nmea_sent_len + 1 ≥ MAX_NMEA_SENTENCE := by omega
  simp [vTaskConsole_char, hd, hmode, NMEA_SENTENCE_MODE, CONSOLE_SENTENCE_MODE, writeAt, h1,
    hmod, nmeaAfterStore, hlf, nmeaWrap, hw]

/-- The terminating `'\n'` while a GPS handle is missing: nothing is
deposited, the session returns to line editing. -/
theorem char_capture_lf_unwired (s : ConsoleState σ)
    (hmode : s.console_mode = NMEA_SENTENCE_MODE)
    (hw : (s.gps_task_cir_buf && s.gps_task_queue) = false)
    (hroom : s.nmea_sent_len + 1 < MAX_NMEA_SENTENCE) :
    vTaskConsole_char interp fuel s CH_LF =
      .ok (nmeaWrap
        { s with
          console_mode := CONSOLE_SENTENCE_MODE,
          nmea_sentence := (s.nmea_sentence.set s.nmea_sent_len CH_LF).set (s.nmea_sent_len + 1) 0,
          nmea_sent_len := s.nmea_sent_len + 2 }) := by
  have h1 : s.nmea_sent_len < MAX_NMEA_SENTENCE := by omega
  have hmod : (s.nmea_sent_len + 1) % 256 = s.nmea_sent_len + 1 := by
    simp only [MAX_NMEA_SENTENCE] at hroom; omega
  have hmod2 : (s.nmea_sent_len + 1 + 1) % 256 = s.nmea_sent_len + 2 := by
    simp only [MAX_NMEA_SENTENCE] at hroom; omega
  have hne : CH_LF ≠ CH_DOLLAR := by simp [CH_LF, CH_DOLLAR]
  simp only [vTaskConsole_char, hne, if_false, hmode, NMEA_SENTENCE_MODE, CONSOLE_SENTENCE_MODE,
    Nat.zero_ne_one, if_true, writeAt, h1, hmod, nmeaAfterStore, hroom, hmod2, hw]
  simp

theorem head?_append_some {α : Type} (c l : List α) (x : α) (h : c.head? = some x) :
    (c ++ l).head? = some x := by
  cases c with
  | nil => simp at h
  | cons a t => simpa using h

theorem payloadShape_of_captured (c : List Byte) (hlf : CH_LF ∉ c)
    (hd : c.head? = some CH_DOLLAR ∨ CH_DOLLAR ∉ c) (hlen : c.length + 2 ≤ MAX_NMEA_SENTENCE) :
    payloadShape (c ++ [CH_LF, 0]) := by
  refine ⟨⟨c, rfl, hlf⟩, ?_, by simpa using hlen⟩
  rcases hd with h | h
  · exact Or.inl (head?_append_some c _ _ h)
  · right
    intro hmem
    rcases List.mem_append.1 hmem with h1 | h1
    · exact h h1
    · simp [CH_DOLLAR, CH_LF] at h1

theorem payloadShape_count (d : List Byte) (h : payloadShape d) : d.count CH_LF = 1 := by
  obtain ⟨⟨body, rfl, hb⟩, -, -⟩ := h
  rw [List.count_append, List.count_eq_zero_of_not_mem hb]
  decide

theorem payloadInv_init (cli0 : σ) (wiredBuf wiredQue : Bool) (opcode : Byte) :
    PayloadInv (vTaskConsole_init cli0 wiredBuf wiredQue opcode) := by
  refine ⟨fun h => ?_, fun d hd => ?_⟩
  · simp [vTaskConsole_init, CONSOLE_SENTENCE_MODE, NMEA_SENTENCE_MODE] at h
  · simp [vTaskConsole_init] at hd

/-- Every byte the task consumes keeps `PayloadInv`. -/
theorem payloadInv_step (s s' : ConsoleState σ) (b : Byte) (hwf : ConsoleWF s)
    (hinv : PayloadInv s) (h : vTaskConsole_char interp fuel s b = .ok s') : PayloadInv s' := by
  obtain ⟨hcapt, hdep⟩ := hinv
  have hlen := hwf.nmea_len
  have hlt := hwf.sent_lt
  by_cases hd : b = CH_DOLLAR
  · subst hd
    rw [char_dollar] at h
    injection h with h
    subst h
    refine ⟨fun _ => ?_, hdep⟩
    have h1 : (s.nmea_sentence.set 0 CH_DOLLAR).take 1 = [CH_DOLLAR] := by
      have := take_set_succ s.nmea_sentence 0 CH_DOLLAR (by rw [hlen]; simp [MAX_NMEA_SENTENCE])
      simpa using this
    simp only [captured, h1]
    simp [CH_LF, CH_DOLLAR]
  · by_cases hm : s.console_mode = NMEA_SENTENCE_MODE
    · obtain ⟨c1, c2⟩ := hcapt hm
      by_cases hlf : b = CH_LF
      · subst hlf
        have hroom : s.nmea_sent_len + 1 < MAX_NMEA_SENTENCE := by
          by_contra hc
          have hfull : s.nmea_sent_len + 1 = MAX_NMEA_SENTENCE := by omega
          rw [char_capture_lf_overflow interp fuel s hm hfull] at h
          simp at h
        cases hw : (s.gps_task_cir_buf && s.gps_task_queue) with
        | false =>
          rw [char_capture_lf_unwired interp fuel s hm hw hroom] at h
          injection h with h
          subst h
          refine ⟨fun hm' => ?_, fun d hmem => ?_⟩
          · simp [CONSOLE_SENTENCE_MODE, NMEA_SENTENCE_MODE] at hm'
          · exact hdep d (by simpa using hmem)
        | true =>
          have hw1 : s.gps_task_cir_buf = true := by
            cases h1 : s.gps_task_cir_buf <;> simp [h1] at hw ⊢
          have hw2 : s.gps_task_queue = true := by
            cases h2 : s.gps_task_queue <;> simp [h2] at hw ⊢
          rw [char_capture_lf interp fuel s hm hw1 hw2 hroom] at h
          injection h with h
          subst h
          refine ⟨fun hm' => ?_, fun d hmem => ?_⟩
          · simp [CONSOLE_SENTENCE_MODE, NMEA_SENTENCE_MODE] at hm'
          · simp only [nmeaWrap_trace, List.mem_append, List.mem_cons, List.mem_singleton,
              List.not_mem_nil, or_false] at hmem
            rcases hmem with hold | hnew | hmsg
            · exact hdep d hold
            · injection hnew with hnew
              rw [hnew, take_two_sets _ _ _ _ (by rw [hlen]; exact hroom)]
              refine payloadShape_of_captured _ c1 c2 ?_
              simp only [List.length_take, hlen]
              omega
            · cases hmsg
      · by_cases hroom : s.nmea_sent_len + 1 < MAX_NMEA_SENTENCE
        · rw [char_capture_store interp fuel s b hm hd hlf hroom] at h
          injection h with h
          subst h
          refine ⟨fun _ => ?_, hdep⟩
          have h1 : (s.nmea_sentence.set s.nmea_sent_len b).take (s.nmea_sent_len + 1) =
              captured s ++ [b] :=
            take_set_succ _ _ _ (by rw [hlen]; exact hlt)
          simp only [captured] at h1 ⊢
          rw [h1]
          simp only [captured] at c1 c2
          refine ⟨?_, ?_⟩
          · simp [c1, Ne.symm hlf]
          · rcases c2 with h2 | h2
            · exact Or.inl (head?_append_some _ _ _ h2)
            · right
              simp [h2, Ne.symm hd]
        · have hfull : s.nmea_sent_len + 1 = MAX_NMEA_SENTENCE := by omega
          rw [char_capture_wrap interp fuel s b hm hd hlf hfull] at h
          injection h with h
          subst h
          refine ⟨fun _ => ?_, hdep⟩
          simp [captured]
    · unfold vTaskConsole_char at h
      simp only [hd, if_false, hm] at h
      split_ifs at h with hc
      · have hstep : vTaskConsole_char interp fuel s b = .ok s' := by
          unfold vTaskConsole_char
          simp only [hd, if_false, hc, if_true]
          exact h
        obtain ⟨m1, m2⟩ := line_step_no_deposit interp fuel s s' b hc hd hstep
        refine ⟨fun hm' => ?_, fun d hmem => hdep d (m2 d hmem)⟩
        rw [m1] at hm'
        simp [CONSOLE_SENTENCE_MODE, NMEA_SENTENCE_MODE] at hm'
      · injection h with h
        subst h
        exact ⟨hcapt, hdep⟩

/-- `ConsoleWF` and `PayloadInv` hold after every input the task consumes. -/
theorem payloadInv_feed (inp : List Byte) :
    ∀ s s' : ConsoleState σ, ConsoleWF s → PayloadInv s →
      consoleFeed interp fuel s inp = .ok s' → ConsoleWF s' ∧ PayloadInv s' := by
  induction inp with
  | nil =>
    intro s s' hwf hinv h
    simp at h
    subst h
    exact ⟨hwf, hinv⟩
  | cons b rest ih =>
    intro s s' hwf hinv h
    obtain ⟨t, ht, hrest⟩ := feed_cons_inv interp fuel s s' b rest h
    exact ih t s' (consoleWF_step interp fuel s t b hwf (by rw [step_byte]; exact ht))
      (payloadInv_step interp fuel s t b hwf hinv ht) hrest

end PayloadInvariant

section PayloadClaims

variable {σ : Type} (interp : Interpreter σ) (fuel : Nat)

/-- C11, as stated, fails: the input `'$'`, 99 times `'A'`, `'B'`, `'\n'`
fills the capture buffer with its first 100 bytes, which resets it while
the session stays in sentence capture; `'B'` and `'\n'` are then captured
from index 0, and the payload deposited and announced is `'B'`, `'\n'`, 0,
which does not begin with `'$'`. -/
theorem payload_fragment_counterexample :
    resultOf (consoleFeed silentInterp 0 (vTaskConsole_init () true true 0) overlongSentence)
        (fun s => s.trace) =
      some ((vTaskConsole_init () true true 0).trace ++
        [ConsoleEvent.cir_put_data [66, CH_LF, 0],
         ConsoleEvent.xQueueSend
           { src_id := SrcId.CONSOLE_USART_SRC_ID, msg_opcode := 0, msg_data := 0,
             msg_len := 3 }]) ∧
    resultOf (consoleFeed silentInterp 0 (vTaskConsole_init () true true 0) overlongSentence)
        (fun s => cir_read s.store 0) = some (some [66, CH_LF, 0]) ∧
    ([66, CH_LF, 0] : List Byte).head? ≠ some CH_DOLLAR :=
  ⟨rfl, rfl, by decide⟩

/-- C11 (amended): for every input byte sequence the console task consumes
from start-up, every payload it deposits in the shared sentence store (and
announces to the GPS supervisor) contains exactly one `'\n'`, located
immediately before the 0 terminator, and either begins with `'$'` or
contains no `'$'` at all (a fragment captured after the capture buffer was
reset on reaching its capacity); and a sentence of at most 99 bytes from
its `'$'` to its `'\n'`, with no other `'$'` or `'\n'`, that follows is
deposited whole, beginning with `'$'`, when both GPS handles are set. -/
theorem payload_framing (cli0 : σ) (wiredBuf wiredQue : Bool) (opcode : Byte)
    (inp : List Byte) (s' : ConsoleState σ)
    (hrun : consoleFeed interp fuel (vTaskConsole_init cli0 wiredBuf wiredQue opcode) inp =
      .ok s') :
    (∀ d, ConsoleEvent.cir_put_data d ∈ s'.trace →
      (∃ body, d = body ++ [CH_LF, 0] ∧ CH_LF ∉ body) ∧
      d.count CH_LF = 1 ∧
      (d.head? = some CH_DOLLAR ∨ CH_DOLLAR ∉ d)) ∧
    (∀ body : List Byte, CH_DOLLAR ∉ body → CH_LF ∉ body →
      (CH_DOLLAR :: body ++ [CH_LF]).length ≤ 99 →
      s'.gps_task_cir_buf = true → s'.gps_task_queue = true →
      ∃ s'', consoleFeed interp fuel s' (CH_DOLLAR :: body ++ [CH_LF]) = .ok s'' ∧
        s''.trace = s'.trace ++
          [ConsoleEvent.cir_put_data (CH_DOLLAR :: body ++ [CH_LF] ++ [0]),
           ConsoleEvent.xQueueSend
             { src_id := SrcId.CONSOLE_USART_SRC_ID, msg_opcode := s'.gps_msg_opcode,
               msg_data := s'.store.length,
               msg_len := (CH_DOLLAR :: body ++ [CH_LF]).length + 1 }]) := by
  obtain ⟨hwf, hinv⟩ := payloadInv_feed interp fuel inp _ s'
    (consoleWF_init cli0 wiredBuf wiredQue opcode)
    (payloadInv_init cli0 wiredBuf wiredQue opcode) hrun
  refine ⟨fun d hd => ?_, fun body h1 h2 h3 h4 h5 => ?_⟩
  · have hs := hinv.2 d hd
    exact ⟨hs.1, payloadShape_count d hs, hs.2.1⟩
  · obtain ⟨s'', r1, r2, -⟩ :=
      sentence_forwarded interp fuel s' body hwf.nmea_len h4 h5 h1 h2 h3
    exact ⟨s'', r1, r2⟩

/-- Witness for C11 (amended): the sentence "$GPTEST*00\n" fed to a
freshly started console. -/
theorem payload_framing_witness :
    ∃ s', consoleFeed silentInterp 0 (vTaskConsole_init () true true 0) sentenceGPTEST = .ok s' ∧
      (∀ d, ConsoleEvent.cir_put_data d ∈ s'.trace →
        (∃ body, d = body ++ [CH_LF, 0] ∧ CH_LF ∉ body) ∧
        d.count CH_LF = 1 ∧
        (d.head? = some CH_DOLLAR ∨ CH_DOLLAR ∉ d)) ∧
      (∀ body : List Byte, CH_DOLLAR ∉ body → CH_LF ∉ body →
        (CH_DOLLAR :: body ++ [CH_LF]).length ≤ 99 →
        s'.gps_task_cir_buf = true → s'.gps_task_queue = true →
        ∃ s'', consoleFeed silentInterp 0 s' (CH_DOLLAR :: body ++ [CH_LF]) = .ok s'' ∧
          s''.trace = s'.trace ++
            [ConsoleEvent.cir_put_data (CH_DOLLAR :: body ++ [CH_LF] ++ [0]),
             ConsoleEvent.xQueueSend
               { src_id := SrcId.CONSOLE_USART_SRC_ID, msg_opcode := s'.gps_msg_opcode,
                 msg_data := s'.store.length,
                 msg_len := (CH_DOLLAR :: body ++ [CH_LF]).length + 1 }]) :=
  ⟨_, rfl, payload_framing silentInterp 0 () true true 0 sentenceGPTEST _ rfl⟩

/-- In every run that is defined, no payload is longer than the capture
buffer. -/
theorem payload_length_le (cli0 : σ) (wiredBuf wiredQue : Bool) (opcode : Byte)
    (inp : List Byte) (s' : ConsoleState σ)
    (hrun : consoleFeed interp fuel (vTaskConsole_init cli0 wiredBuf wiredQue opcode) inp =
      .ok s') :
    ∀ d, ConsoleEvent.cir_put_data d ∈ s'.trace → d.length ≤ MAX_NMEA_SENTENCE := by
  obtain ⟨-, hinv⟩ := payloadInv_feed interp fuel inp _ s'
    (consoleWF_init cli0 wiredBuf wiredQue opcode)
    (payloadInv_init cli0 wiredBuf wiredQue opcode) hrun
  exact fun d hd => (hinv.2 d hd).2.2

/-- While a sentence is captured the only write that can leave
`nmea_sentence[100]` is that of the terminator, when `'\n'` arrives as the
100th byte: the append of the received byte itself is always in bounds. -/
theorem capture_fault_only_terminator (s : ConsoleState σ) (b : Byte) (e : Fault)
    (hwf : ConsoleWF s) (hcap : s.console_mode = NMEA_SENTENCE_MODE ∨ b = CH_DOLLAR)
    (h : vTaskConsole_char interp fuel s b = .error e) :
    b = CH_LF ∧ s.console_mode = NMEA_SENTENCE_MODE ∧
    s.nmea_sent_len + 1 = MAX_NMEA_SENTENCE ∧
    (∃ buf, writeAt MAX_NMEA_SENTENCE s.nmea_sentence s.nmea_sent_len b = .ok buf) ∧
    e = Fault.outOfBounds := by
  have hlt := hwf.sent_lt
  by_cases hd : b = CH_DOLLAR
  · subst hd
    rw [char_dollar] at h
    simp at h
  · have hm : s.console_mode = NMEA_SENTENCE_MODE := by
      rcases hcap with h1 | h1
      · exact h1
      · exact absurd h1 hd
    by_cases hlf : b = CH_LF
    · subst hlf
      by_cases hroom : s.nmea_sent_len + 1 < MAX_NMEA_SENTENCE
      · cases hw : (s.gps_task_cir_buf && s.gps_task_queue) with
        | false =>
          rw [char_capture_lf_unwired interp fuel s hm hw hroom] at h
          simp at h
        | true =>
          have hw1 : s.gps_task_cir_buf = true := by
            cases h1 : s.gps_task_cir_buf <;> simp [h1] at hw ⊢
          have hw2 : s.gps_task_queue = true := by
            cases h2 : s.gps_task_queue <;> simp [h2] at hw ⊢
          rw [char_capture_lf interp fuel s hm hw1 hw2 hroom] at h
          simp at h
      · have hfull : s.nmea_sent_len + 1 = MAX_NMEA_SENTENCE := by omega
        rw [char_capture_lf_overflow interp fuel s hm hfull] at h
        injection h with h
        exact ⟨rfl, hm, hfull, ⟨s.nmea_sentence.set s.nmea_sent_len CH_LF, by simp [writeAt, hlt]⟩,
          h.symm⟩
    · by_cases hroom : s.nmea_sent_len + 1 < MAX_NMEA_SENTENCE
      · rw [char_capture_store interp fuel s b hm hd hlf hroom] at h
        simp at h
      · rw [char_capture_wrap interp fuel s b hm hd hlf (by omega)] at h
        simp at h

/-- C12, defect of the code: after `'$'` and 98 times `'A'` fed to a freshly
started console whose GPS handles are set, the session is in sentence
capture with `nmea_sent_len = 99`.  The `'\n'` that follows is appended at
index 99, in bounds, and the 0 terminator is then written at index 100,
which is not strictly below 100; the code would go on with the length 101.
In the model the step, and with it the run on this 100-byte sentence, ends
in `Fault.outOfBounds`. -/
theorem terminator_write_out_of_bounds (cli0 : σ) (opcode : Byte) :
    ∃ s, consoleFeed interp fuel (vTaskConsole_init cli0 true true opcode)
        (CH_DOLLAR :: List.replicate 98 65) = .ok s ∧
      s.console_mode = NMEA_SENTENCE_MODE ∧
      s.nmea_sent_len = 99 ∧
      (∃ buf, writeAt MAX_NMEA_SENTENCE s.nmea_sentence s.nmea_sent_len CH_LF = .ok buf ∧
        writeAt MAX_NMEA_SENTENCE buf ((s.nmea_sent_len + 1) % 256) 0 =
          .error Fault.outOfBounds) ∧
      (s.nmea_sent_len + 1) % 256 = 100 ∧
      (s.nmea_sent_len + 1 + 1) % 256 = 101 ∧
      vTaskConsole_step interp fuel s (consoleByteMsg CH_LF) = .error Fault.outOfBounds ∧
      consoleFeed interp fuel (vTaskConsole_init cli0 true true opcode) fullSentence =
        .error Fault.outOfBounds := by
  have hd : CH_DOLLAR ∉ List.replicate 98 (65 : Byte) := by simp [CH_DOLLAR]
  have hlf : CH_LF ∉ List.replicate 98 (65 : Byte) := by simp [CH_LF]
  have hcap := feed_capture_store interp fuel (List.replicate 98 65)
    { (vTaskConsole_init cli0 true true opcode) with
      console_mode := NMEA_SENTENCE_MODE
      nmea_sentence := (vTaskConsole_init cli0 true true opcode).nmea_sentence.set 0 CH_DOLLAR
      nmea_sent_len := 1 }
    rfl (by simp [vTaskConsole_init]) (by simp [MAX_NMEA_SENTENCE]) hd hlf
  have hfeed := (feed_cons_ok interp fuel (vTaskConsole_init cli0 true true opcode) _ CH_DOLLAR
    (List.replicate 98 65) (char_dollar interp fuel _)).trans hcap
  have hfull := sentence_full_overflows interp fuel (vTaskConsole_init cli0 true true opcode)
    (List.replicate 98 65) (by simp [vTaskConsole_init]) hd hlf (by simp)
  obtain ⟨s, hs, hmode, hlen⟩ : ∃ s : ConsoleState σ,
      consoleFeed interp fuel (vTaskConsole_init cli0 true true opcode)
        (CH_DOLLAR :: List.replicate 98 65) = .ok s ∧
      s.console_mode = NMEA_SENTENCE_MODE ∧ s.nmea_sent_len = 99 :=
    ⟨_, hfeed, rfl, by simp⟩
  refine ⟨s, hs, hmode, hlen, ⟨s.nmea_sentence.set s.nmea_sent_len CH_LF, ?_, ?_⟩, ?_, ?_, ?_,
    hfull⟩
  · simp [writeAt, hlen, MAX_NMEA_SENTENCE]
  · simp [writeAt, hlen, MAX_NMEA_SENTENCE]
  · rw [hlen]
  · rw [hlen]
  · rw [step_byte]
    exact char_capture_lf_overflow interp fuel s hmode (by rw [hlen]; rfl)

end PayloadClaims

end OgnTracker
